import Mathlib

/-!
# ADS1246 thermistor reader

A shallow embedding of the ADS1246 driver (`Core/Inc/ads1246.h`) and of the
conversion pipeline and start-up sequence of `main` (`Core/Src/main.c`).

* The HAL calls (`HAL_GPIO_WritePin`, `HAL_Delay`, `HAL_SPI_Transmit`,
  `HAL_SPI_Receive`, `HAL_GPIO_ReadPin`, `HAL_UART_Transmit`) are the external
  collaborators; each one is embedded as an effect appended to a trace, and
  the values the hardware delivers (received bytes, pin levels) are inputs.
* `uint8_t` and `uint32_t` values are natural numbers, reduced modulo `2^8`
  and `2^32` where the C code narrows.
* The `float` functions are embedded twice. Under the source's names they
  are read in exact arithmetic over a field `α` (`ℚ` for evaluation, `ℝ` when
  the logarithm is the natural logarithm); this reading serves the statements
  about a single input with a stated tolerance (the end-to-end scenario and
  the nominal point). With the suffix `_f32` they are read in IEEE 754
  arithmetic, binary32 for `float` and binary64 for `double`, round to
  nearest, ties to even, with NaN, infinities and signed zeros; this reading
  serves the statements that range over all samples or all voltages.
* `logf` is a parameter of `calculate_temperature` in both readings.
-/

namespace ADS1246

/-! ## Effects of the hardware abstraction layer -/

/-- The two levels of a digital pin (`GPIO_PIN_RESET` is low). -/
inductive GPIO_PinState where
  | GPIO_PIN_RESET
  | GPIO_PIN_SET
  deriving DecidableEq

/-- The pins the firmware touches: `PB7` is the ADC reset line, `PB9` the
chip select, `PA1` the data-ready input. -/
inductive Pin where
  | PB7
  | PB9
  | PA1
  deriving DecidableEq

/-- One line of the console report; the payload is the value handed to
`snprintf`, the text formatting itself is not modelled. -/
inductive ReportLine (α : Type) where
  | raw (n : Nat)
  | voltage (v : α)
  | resistance (r : α)
  | temp (t : α)
  deriving DecidableEq

/-- One observable HAL call. -/
inductive Effect (α : Type) where
  | writePin (pin : Pin) (s : GPIO_PinState)
  | readPin (pin : Pin) (s : GPIO_PinState)
  | delay (ms : Nat)
  | spiTransmit (bytes : List Nat)
  | spiReceive (count : Nat)
  | uart (line : ReportLine α)
  deriving DecidableEq

/-- The sequence of HAL calls performed so far, oldest first. -/
abbrev Trace (α : Type) := List (Effect α)

open GPIO_PinState Pin Effect

def HAL_GPIO_WritePin {α : Type} (pin : Pin) (s : GPIO_PinState) (t : Trace α) : Trace α :=
  t ++ [writePin pin s]

def HAL_Delay {α : Type} (ms : Nat) (t : Trace α) : Trace α :=
  t ++ [delay ms]

def HAL_SPI_Transmit {α : Type} (bytes : List Nat) (t : Trace α) : Trace α :=
  t ++ [spiTransmit bytes]

def HAL_SPI_Receive {α : Type} (count : Nat) (t : Trace α) : Trace α :=
  t ++ [spiReceive count]

def HAL_GPIO_ReadPin {α : Type} (pin : Pin) (level : GPIO_PinState) (t : Trace α) : Trace α :=
  t ++ [readPin pin level]

/-! ## Driver (`ads1246.h`) -/

def ADS1246_CMD_WAKEUP : Nat := 0x00
def ADS1246_CMD_RDATAC : Nat := 0x14
def ADS1246_CMD_SDATAC : Nat := 0x16
def ADS1246_CMD_WREG : Nat := 0x40

def ADS1246_Reset {α : Type} (t : Trace α) : Trace α :=
  let t := HAL_GPIO_WritePin PB7 GPIO_PIN_RESET t
  let t := HAL_Delay 1 t
  let t := HAL_GPIO_WritePin PB7 GPIO_PIN_SET t
  HAL_Delay 1 t

def ADS1246_Wakeup {α : Type} (t : Trace α) : Trace α :=
  let cmd : Nat := 0x00
  let t := HAL_GPIO_WritePin PB9 GPIO_PIN_RESET t
  let t := HAL_SPI_Transmit [cmd] t
  HAL_GPIO_WritePin PB9 GPIO_PIN_SET t

/-- The array initialiser narrows `0x40 | reg` (an `int`) to `uint8_t`. -/
def ADS1246_WriteRegister {α : Type} (reg value : Nat) (t : Trace α) : Trace α :=
  let cmd : List Nat := [(0x40 ||| reg) % 256, 0x00, value]
  let t := HAL_GPIO_WritePin PB9 GPIO_PIN_RESET t
  let t := HAL_SPI_Transmit cmd t
  let t := HAL_GPIO_WritePin PB9 GPIO_PIN_SET t
  HAL_Delay 1 t

def ADS1246_EnableRDATAC {α : Type} (t : Trace α) : Trace α :=
  let cmd : Nat := 0x14
  let t := HAL_GPIO_WritePin PB9 GPIO_PIN_RESET t
  let t := HAL_SPI_Transmit [cmd] t
  HAL_GPIO_WritePin PB9 GPIO_PIN_SET t

def ADS1246_DisableRDATAC {α : Type} (t : Trace α) : Trace α :=
  let cmd : Nat := 0x16
  let t := HAL_GPIO_WritePin PB9 GPIO_PIN_RESET t
  let t := HAL_SPI_Transmit [cmd] t
  HAL_GPIO_WritePin PB9 GPIO_PIN_SET t

/-- The arguments `b0 b1 b2` are the contents of `buf` after the 3-byte
receive; the result is the new trace and the returned `uint32_t`. -/
def ADS1246_Read24bit {α : Type} (b0 b1 b2 : Nat) (t : Trace α) : Trace α × Nat :=
  let t := HAL_GPIO_WritePin PB9 GPIO_PIN_RESET t
  let t := HAL_SPI_Receive 3 t
  let t := HAL_GPIO_WritePin PB9 GPIO_PIN_SET t
  let result := (((b0 <<< 16) % 2 ^ 32) ||| ((b1 <<< 8) % 2 ^ 32) ||| b2) % 2 ^ 32
  (t, result)

def ADS1246_ConvertToVoltage {α : Type} [Field α] (raw : Nat) (vref : α) : α :=
  ((raw : α) / 16777215) * vref

/-! ## Conversion pipeline and control flow (`main.c`) -/

def SERIES_RESISTOR {α : Type} [Field α] : α := 10000
def NOMINAL_RESISTANCE {α : Type} [Field α] : α := 10000
def NOMINAL_TEMPERATURE {α : Type} [Field α] : α := 25
def BETA_COEFFICIENT {α : Type} [Field α] : α := 3950

def calculate_resistance {α : Type} [Field α] (Vout : α) : α :=
  SERIES_RESISTOR * Vout / (33 / 10 - Vout)

/-- The parameter `ln` stands for the C library function `logf`. -/
def calculate_temperature {α : Type} [Field α] (ln : α → α) (resistance : α) : α :=
  let T0 : α := NOMINAL_TEMPERATURE + 27315 / 100
  let lnRatio := ln (resistance / NOMINAL_RESISTANCE)
  let inverse_T := 1 / T0 + lnRatio / BETA_COEFFICIENT
  let tempK := 1 / inverse_T
  tempK - 27315 / 100

/-- The console transmit; the message is kept as the value it reports. -/
def send_uart_message {α : Type} (msg : ReportLine α) (t : Trace α) : Trace α :=
  t ++ [uart msg]

/-- The part of `main` between the platform bring-up and the poll loop
(the bring-up calls `HAL_Init` ... `MX_SPI2_Init` are not modelled). -/
def main_init {α : Type} (t : Trace α) : Trace α :=
  let t := ADS1246_Reset t
  let t := ADS1246_Wakeup t
  let t := ADS1246_DisableRDATAC t
  let t := ADS1246_WriteRegister 0x00 0x08 t
  let t := ADS1246_WriteRegister 0x01 0x04 t
  let t := ADS1246_WriteRegister 0x02 0x00 t
  ADS1246_EnableRDATAC t

/-- What the hardware delivers during one pass of the poll loop: the level
read on the data-ready pin and the three bytes a receive would deliver. -/
structure LoopInput where
  drdy : GPIO_PinState
  b0 : Nat
  b1 : Nat
  b2 : Nat
  deriving DecidableEq

/-- The values of the local variables `avg_voltage`, `adjusted_voltage`,
`resistance` and `temperature` of one pass of the poll loop. -/
structure Conversion (α : Type) where
  avg_voltage : α
  adjusted_voltage : α
  resistance : α
  temperature : α
  deriving DecidableEq

/-- The arithmetic of the loop body of `main` for one raw sample. -/
def main_convert {α : Type} [Field α] (ln : α → α) (raw : Nat) : Conversion α :=
  let avg_voltage := ADS1246_ConvertToVoltage raw (33 / 10 : α)
  let adjusted_voltage := avg_voltage * (134 / 100)
  let resistance := calculate_resistance adjusted_voltage
  let temperature := calculate_temperature ln resistance
  { avg_voltage := avg_voltage, adjusted_voltage := adjusted_voltage,
    resistance := resistance, temperature := temperature }

/-- One pass of the body of `while (1)` in `main`. -/
def main_loop_body {α : Type} [Field α] (ln : α → α) (inp : LoopInput) (t : Trace α) :
    Trace α :=
  let t := HAL_GPIO_ReadPin PA1 inp.drdy t
  if inp.drdy = GPIO_PIN_RESET then
    let (t, raw) := ADS1246_Read24bit inp.b0 inp.b1 inp.b2 t
    let t := send_uart_message (ReportLine.raw raw) t
    let avg_voltage := ADS1246_ConvertToVoltage raw (33 / 10 : α)
    let t := send_uart_message (ReportLine.voltage avg_voltage) t
    let adjusted_voltage := avg_voltage * (134 / 100)
    let resistance := calculate_resistance adjusted_voltage
    let t := send_uart_message (ReportLine.resistance resistance) t
    let temperature := calculate_temperature ln resistance
    send_uart_message (ReportLine.temp temperature) t
  else
    t

/-- The poll loop run for as many passes as there are inputs. -/
def main_loop {α : Type} [Field α] (ln : α → α) : List LoopInput → Trace α → Trace α
  | [], t => t
  | inp :: rest, t => main_loop ln rest (main_loop_body ln inp t)

/-! ## Device mode, read off the bus

The firmware keeps no record of the device mode. The mode below is the mode
of the ADC as the commands on the bus determine it: `SDATAC` (0x16) leaves
the device idle, `RDATAC` (0x14) makes it stream. -/

inductive DeviceMode where
  | Idle
  | Streaming
  deriving DecidableEq

def deviceStep {α : Type} (m : DeviceMode) : Effect α → DeviceMode
  | spiTransmit [cmd] =>
    if cmd = 0x16 then DeviceMode.Idle
    else if cmd = 0x14 then DeviceMode.Streaming
    else m
  | _ => m

/-- The device mode after the trace `t`, from the mode `m0` before it. -/
def deviceMode {α : Type} (m0 : DeviceMode) (t : Trace α) : DeviceMode :=
  t.foldl deviceStep m0

/-- A register-write frame on the bus: a 3-byte transmit whose first byte
carries the write opcode bit `0x40`. -/
def isRegisterWrite {α : Type} : Effect α → Bool
  | spiTransmit [c, _, _] => c &&& 0x40 == 0x40
  | _ => false

/-- A transmit of any length. -/
def isTransmit {α : Type} : Effect α → Bool
  | spiTransmit _ => true
  | _ => false

/-- Checks, along the trace, that the device is idle at each register write. -/
def idleAtWrites {α : Type} : DeviceMode → Trace α → Bool
  | _, [] => true
  | m, e :: rest =>
    (!(isRegisterWrite e) || decide (m = DeviceMode.Idle)) && idleAtWrites (deviceStep m e) rest

/-! ## IEEE 754 arithmetic for `float` and `double`

The functions of the conversion pipeline are embedded a second time, with
the suffix `_f32`, in the arithmetic the C code runs in: `float` is
binary32, `double` is binary64, every operation rounds its exact result to
the nearest value of its type (ties to even), and each expression is
evaluated in the type the usual arithmetic conversions of C give it.
A finite value is a sign and a rational magnitude. -/

/-- A binary floating-point format: precision in bits and largest exponent. -/
structure Fmt where
  prec : Nat
  emax : Int

def Fmt.emin (f : Fmt) : Int := 1 - f.emax

/-- The largest finite value of the format. -/
def Fmt.maxFinite (f : Fmt) : ℚ := (2 ^ f.prec - 1) * 2 ^ (f.emax - (f.prec - 1))

def binary32 : Fmt := ⟨24, 127⟩

def binary64 : Fmt := ⟨53, 1023⟩

/-- Round to the nearest integer, ties to the even one. -/
def rne (x : ℚ) : Int :=
  if x - ⌊x⌋ < 1 / 2 then ⌊x⌋
  else if 1 / 2 < x - ⌊x⌋ then ⌊x⌋ + 1
  else if ⌊x⌋ % 2 = 0 then ⌊x⌋ else ⌊x⌋ + 1

/-- Exponent of the unit in the last place at magnitude `x` (subnormal range
included). -/
def quantum (f : Fmt) (x : ℚ) : Int := max (Int.log 2 x) f.emin - (f.prec - 1)

/-- The magnitude `x ≥ 0` rounded to the format, before the overflow check. -/
def rnd (f : Fmt) (x : ℚ) : ℚ := rne (x / 2 ^ quantum f x) * 2 ^ quantum f x

/-- A floating-point datum: NaN, an infinity, or a finite value with its
sign bit (so that both zeros exist). -/
inductive FP where
  | nan
  | inf (neg : Bool)
  | fin (neg : Bool) (mag : ℚ)
  deriving DecidableEq

/-- The real value of a finite datum (`0` for NaN and the infinities). -/
def FP.val : FP → ℚ
  | FP.fin neg mag => if neg then -mag else mag
  | _ => 0

/-- Delivers the exact result `x` of an operation in format `f`: rounded,
replaced by an infinity on overflow; `zneg` is the sign of an exact zero. -/
def FP.round (f : Fmt) (zneg : Bool) (x : ℚ) : FP :=
  if f.maxFinite < rnd f |x| then FP.inf (decide (x < 0))
  else FP.fin (if x = 0 then zneg else decide (x < 0)) (rnd f |x|)

def FP.neg : FP → FP
  | FP.nan => FP.nan
  | FP.inf s => FP.inf (!s)
  | FP.fin s m => FP.fin (!s) m

def FP.add (f : Fmt) : FP → FP → FP
  | FP.nan, _ => FP.nan
  | _, FP.nan => FP.nan
  | FP.inf s, FP.inf t => if s = t then FP.inf s else FP.nan
  | FP.inf s, FP.fin _ _ => FP.inf s
  | FP.fin _ _, FP.inf t => FP.inf t
  | FP.fin s a, FP.fin t b => FP.round f (s && t) ((FP.fin s a).val + (FP.fin t b).val)

def FP.sub (f : Fmt) (x y : FP) : FP := FP.add f x (FP.neg y)

def FP.mul (f : Fmt) : FP → FP → FP
  | FP.nan, _ => FP.nan
  | _, FP.nan => FP.nan
  | FP.inf s, FP.inf t => FP.inf (s != t)
  | FP.inf s, FP.fin t b => if b = 0 then FP.nan else FP.inf (s != t)
  | FP.fin s a, FP.inf t => if a = 0 then FP.nan else FP.inf (s != t)
  | FP.fin s a, FP.fin t b => FP.round f (s != t) ((FP.fin s a).val * (FP.fin t b).val)

def FP.div (f : Fmt) : FP → FP → FP
  | FP.nan, _ => FP.nan
  | _, FP.nan => FP.nan
  | FP.inf _, FP.inf _ => FP.nan
  | FP.inf s, FP.fin t _ => FP.inf (s != t)
  | FP.fin s _, FP.inf t => FP.fin (s != t) 0
  | FP.fin s a, FP.fin t b =>
    if b = 0 then (if a = 0 then FP.nan else FP.inf (s != t))
    else FP.round f (s != t) ((FP.fin s a).val / (FP.fin t b).val)

/-- Conversion between `float` and `double`. -/
def FP.cast (f : Fmt) : FP → FP
  | FP.nan => FP.nan
  | FP.inf s => FP.inf s
  | FP.fin s a => FP.round f s (FP.fin s a).val

/-- Conversion of an unsigned integer. -/
def FP.ofNat (f : Fmt) (n : Nat) : FP := FP.round f false (n : ℚ)

/-- A `float` constant such as `3.3f`. -/
def f32 (q : ℚ) : FP := FP.round binary32 false q

/-- A `double` constant such as `10000.0`. -/
def f64 (q : ℚ) : FP := FP.round binary64 false q

/-- The magnitude `a` is a finite value of the format. -/
def Rep (f : Fmt) (a : ℚ) : Prop := 0 ≤ a ∧ a ≤ f.maxFinite ∧ rnd f a = a

/-- In binary32: `((float)raw / 16777215.0f) * vref`. -/
def ADS1246_ConvertToVoltage_f32 (raw : Nat) (vref : FP) : FP :=
  FP.mul binary32 (FP.div binary32 (FP.ofNat binary32 raw) (f32 16777215)) vref

/-- The sub-expression `(3.3f - Vout)` of `calculate_resistance`. -/
def divider_denominator_f32 (Vout : FP) : FP :=
  FP.sub binary32 (f32 (33 / 10)) Vout

/-- In IEEE arithmetic: `SERIES_RESISTOR` is the `double` 10000.0, so the
product and the quotient are formed in binary64 and the `return` converts
to `float`. -/
def calculate_resistance_f32 (Vout : FP) : FP :=
  FP.cast binary32
    (FP.div binary64 (FP.mul binary64 (f64 10000) (FP.cast binary64 Vout))
      (FP.cast binary64 (divider_denominator_f32 Vout)))

/-- The argument `resistance / NOMINAL_RESISTANCE` of `logf` in
`calculate_temperature`: a binary64 quotient, converted to `float` for the
call. -/
def log_argument_f32 (resistance : FP) : FP :=
  FP.cast binary32 (FP.div binary64 (FP.cast binary64 resistance) (f64 10000))

/-- In IEEE arithmetic; `logf` stands for the C library function. The
constants `NOMINAL_TEMPERATURE`, `NOMINAL_RESISTANCE` and `BETA_COEFFICIENT`
are `double`, so the sums and quotients with them are formed in binary64. -/
def calculate_temperature_f32 (logf : FP → FP) (resistance : FP) : FP :=
  let T0 := FP.cast binary32 (FP.add binary64 (f64 25) (FP.cast binary64 (f32 (27315 / 100))))
  let lnRatio := logf (log_argument_f32 resistance)
  let inverse_T := FP.cast binary32
    (FP.add binary64 (FP.cast binary64 (FP.div binary32 (f32 1) T0))
      (FP.div binary64 (FP.cast binary64 lnRatio) (f64 3950)))
  let tempK := FP.div binary32 (f32 1) inverse_T
  FP.sub binary32 tempK (f32 (27315 / 100))

/-- The arithmetic of the loop body of `main` in IEEE arithmetic: the
`double` constant `3.3` is converted to `float` at the call. -/
def main_convert_f32 (logf : FP → FP) (raw : Nat) : Conversion FP :=
  let avg_voltage := ADS1246_ConvertToVoltage_f32 raw (FP.cast binary32 (f64 (33 / 10)))
  let adjusted_voltage := FP.mul binary32 avg_voltage (f32 (134 / 100))
  let resistance := calculate_resistance_f32 adjusted_voltage
  let temperature := calculate_temperature_f32 logf resistance
  { avg_voltage := avg_voltage, adjusted_voltage := adjusted_voltage,
    resistance := resistance, temperature := temperature }

end ADS1246

namespace ADS1246

open GPIO_PinState Pin Effect

/-! ## Shared lemmas -/

theorem pack24_eq (b0 b1 b2 : Nat) (h0 : b0 < 256) (h1 : b1 < 256) (h2 : b2 < 256) :
    (((b0 <<< 16) % 2 ^ 32) ||| ((b1 <<< 8) % 2 ^ 32) ||| b2) % 2 ^ 32
      = b0 * 65536 + b1 * 256 + b2 := by
  have e0 : (b0 <<< 16) % 2 ^ 32 = 2 ^ 16 * b0 := by
    rw [Nat.shiftLeft_eq, Nat.mod_eq_of_lt (by omega)]; omega
  have e1 : (b1 <<< 8) % 2 ^ 32 = 2 ^ 8 * b1 := by
    rw [Nat.shiftLeft_eq, Nat.mod_eq_of_lt (by omega)]; omega
  have k1 : 2 ^ 8 * b1 < 2 ^ 16 := by omega
  have s1 : 2 ^ 16 * b0 ||| 2 ^ 8 * b1 = 2 ^ 8 * (2 ^ 8 * b0 + b1) := by
    rw [← Nat.mul_add_lt_is_or k1 b0]; omega
  have k2 : b2 < 2 ^ 8 := by omega
  rw [e0, e1, s1, ← Nat.mul_add_lt_is_or k2, Nat.mod_eq_of_lt (by omega)]
  omega

theorem wreg_byte_lt (reg : Nat) (h : reg < 256) : 0x40 ||| reg < 256 :=
  Nat.or_lt_two_pow (n := 8) (by decide) h

theorem ADS1246_WriteRegister_eq {α : Type} (reg value : Nat) (t : Trace α) :
    ADS1246_WriteRegister reg value t
      = t ++ [writePin PB9 GPIO_PIN_RESET, spiTransmit [(0x40 ||| reg) % 256, 0x00, value],
              writePin PB9 GPIO_PIN_SET, delay 1] := by
  simp [ADS1246_WriteRegister, HAL_GPIO_WritePin, HAL_SPI_Transmit, HAL_Delay]

theorem ADS1246_Read24bit_fst {α : Type} (b0 b1 b2 : Nat) (t : Trace α) :
    (ADS1246_Read24bit b0 b1 b2 t).1
      = t ++ [writePin PB9 GPIO_PIN_RESET, spiReceive 3, writePin PB9 GPIO_PIN_SET] := by
  simp [ADS1246_Read24bit, HAL_GPIO_WritePin, HAL_SPI_Receive]

theorem main_loop_body_idle {α : Type} [Field α] (ln : α → α) (b0 b1 b2 : Nat)
    (t : Trace α) :
    main_loop_body ln ⟨GPIO_PIN_SET, b0, b1, b2⟩ t = t ++ [readPin PA1 GPIO_PIN_SET] := by
  simp [main_loop_body, HAL_GPIO_ReadPin]

theorem adjusted_voltage_eq {α : Type} [Field α] (ln : α → α) (raw : Nat) :
    (main_convert ln raw).adjusted_voltage
      = (raw : α) / 16777215 * (33 / 10) * (134 / 100) := by
  simp [main_convert, ADS1246_ConvertToVoltage]

theorem resistance_eq {α : Type} [Field α] (ln : α → α) (raw : Nat) :
    (main_convert ln raw).resistance
      = 10000 * (main_convert ln raw).adjusted_voltage
          / (33 / 10 - (main_convert ln raw).adjusted_voltage) := by
  simp [main_convert, calculate_resistance, SERIES_RESISTOR]

theorem scenario_values :
    (main_convert Real.log 8388607).avg_voltage = 92274677 / 55924050
      ∧ (main_convert Real.log 8388607).adjusted_voltage = 6182403359 / 2796202500
      ∧ (main_convert Real.log 8388607).resistance = 5620366690000 / 276824081
      ∧ (main_convert Real.log 8388607).temperature
          = 1 / (100 / 29815 + Real.log (562036669 / 276824081) / 3950) - 27315 / 100 := by
  have hv : (main_convert Real.log 8388607).avg_voltage = 92274677 / 55924050 := by
    norm_num [main_convert, ADS1246_ConvertToVoltage]
  have ha : (main_convert Real.log 8388607).adjusted_voltage = 6182403359 / 2796202500 := by
    rw [adjusted_voltage_eq]; norm_num
  have hr : (main_convert Real.log 8388607).resistance = 5620366690000 / 276824081 := by
    rw [resistance_eq, ha]; norm_num
  refine ⟨hv, ha, hr, ?_⟩
  have ht : (main_convert Real.log 8388607).temperature
      = calculate_temperature Real.log (main_convert Real.log 8388607).resistance := rfl
  rw [ht, hr]
  unfold calculate_temperature NOMINAL_RESISTANCE NOMINAL_TEMPERATURE BETA_COEFFICIENT
  norm_num

theorem scenario_log_bounds :
    70807 / 100000 < Real.log (562036669 / 276824081)
      ∧ Real.log (562036669 / 276824081) < 70831 / 100000 := by
  have hsplit : (562036669 / 276824081 : ℝ) = 2 * (562036669 / 553648162) := by norm_num
  have hx : (0 : ℝ) < 562036669 / 553648162 := by norm_num
  have hlog : Real.log (562036669 / 276824081)
      = Real.log 2 + Real.log (562036669 / 553648162) := by
    rw [hsplit, Real.log_mul (by norm_num) (ne_of_gt hx)]
  have hup := Real.log_le_sub_one_of_pos hx
  have hlo := Real.one_sub_inv_le_log_of_pos hx
  have h2lo := Real.log_two_gt_d9
  have h2hi := Real.log_two_lt_d9
  rw [hlog]
  constructor
  · norm_num at hlo h2lo ⊢
    linarith
  · norm_num at hup h2hi ⊢
    linarith

theorem scenario_temperature_bounds :
    986 / 100 < (main_convert Real.log 8388607).temperature
      ∧ (main_convert Real.log 8388607).temperature < 988 / 100 := by
  obtain ⟨_, _, _, ht⟩ := scenario_values
  obtain ⟨hlo, hhi⟩ := scenario_log_bounds
  have hpos : (0 : ℝ) < 100 / 29815 + Real.log (562036669 / 276824081) / 3950 := by
    have : (0 : ℝ) < 100 / 29815 := by norm_num
    linarith
  rw [ht]
  constructor
  · have : (28301 / 100 : ℝ) < 1 / (100 / 29815 + Real.log (562036669 / 276824081) / 3950) := by
      rw [lt_div_iff₀ hpos]
      linarith
    linarith
  · have : 1 / (100 / 29815 + Real.log (562036669 / 276824081) / 3950) < (28303 / 100 : ℝ) := by
      rw [div_lt_iff₀ hpos]
      linarith
    linarith

theorem main_init_eq {α : Type} (t : Trace α) :
    main_init t
      = t ++ [writePin PB7 GPIO_PIN_RESET, delay 1, writePin PB7 GPIO_PIN_SET, delay 1,
              writePin PB9 GPIO_PIN_RESET, spiTransmit [0x00], writePin PB9 GPIO_PIN_SET,
              writePin PB9 GPIO_PIN_RESET, spiTransmit [0x16], writePin PB9 GPIO_PIN_SET,
              writePin PB9 GPIO_PIN_RESET, spiTransmit [0x40, 0x00, 0x08],
              writePin PB9 GPIO_PIN_SET, delay 1,
              writePin PB9 GPIO_PIN_RESET, spiTransmit [0x41, 0x00, 0x04],
              writePin PB9 GPIO_PIN_SET, delay 1,
              writePin PB9 GPIO_PIN_RESET, spiTransmit [0x42, 0x00, 0x00],
              writePin PB9 GPIO_PIN_SET, delay 1,
              writePin PB9 GPIO_PIN_RESET, spiTransmit [0x14], writePin PB9 GPIO_PIN_SET] := by
  simp [main_init, ADS1246_Reset, ADS1246_Wakeup, ADS1246_DisableRDATAC,
    ADS1246_WriteRegister, ADS1246_EnableRDATAC, HAL_GPIO_WritePin, HAL_SPI_Transmit,
    HAL_Delay]

theorem deviceMode_append {α : Type} (m : DeviceMode) (t s : Trace α) :
    deviceMode m (t ++ s) = deviceMode (deviceMode m t) s := by
  simp [deviceMode, List.foldl_append]

theorem deviceStep_of_not_transmit {α : Type} (m : DeviceMode) (e : Effect α)
    (h : isTransmit e = false) : deviceStep m e = m := by
  cases e <;> simp_all [deviceStep, isTransmit]

theorem deviceMode_of_no_transmit {α : Type} (s : Trace α) :
    ∀ m : DeviceMode, (∀ e ∈ s, isTransmit e = false) → deviceMode m s = m := by
  induction s with
  | nil => intro m _; rfl
  | cons a rest ih =>
    intro m h
    have ha : deviceStep m a = m :=
      deviceStep_of_not_transmit m a (h a (List.mem_cons_self a rest))
    have hrest : ∀ e ∈ rest, isTransmit e = false :=
      fun e he => h e (List.mem_cons_of_mem a he)
    show deviceMode (deviceStep m a) rest = m
    rw [ha]
    exact ih m hrest

theorem isRegisterWrite_isTransmit {α : Type} (e : Effect α)
    (h : isTransmit e = false) : isRegisterWrite e = false := by
  cases e <;> simp_all [isRegisterWrite, isTransmit]

theorem idleAtWrites_sound {α : Type} (t : Trace α) :
    ∀ m : DeviceMode, idleAtWrites m t = true →
      ∀ (pre : Trace α) (e : Effect α) (post : Trace α), t = pre ++ e :: post →
        isRegisterWrite e = true → deviceMode m pre = DeviceMode.Idle := by
  induction t with
  | nil =>
    intro m _ pre e post h
    simp at h
  | cons a rest ih =>
    intro m hchk pre e post hsplit hw
    simp only [idleAtWrites, Bool.and_eq_true, Bool.or_eq_true, Bool.not_eq_true',
      decide_eq_true_eq] at hchk
    cases pre with
    | nil =>
      simp only [List.nil_append, List.cons.injEq] at hsplit
      obtain ⟨rfl, _⟩ := hsplit
      rcases hchk.1 with h | h
      · rw [hw] at h; exact absurd h (by decide)
      · exact h
    | cons p pre2 =>
      simp only [List.cons_append, List.cons.injEq] at hsplit
      obtain ⟨rfl, hrest⟩ := hsplit
      exact ih (deviceStep m a) hchk.2 pre2 e post hrest hw

theorem main_loop_body_suffix {α : Type} [Field α] (ln : α → α) (inp : LoopInput)
    (t : Trace α) :
    ∃ s : Trace α, main_loop_body ln inp t = t ++ s ∧ ∀ e ∈ s, isTransmit e = false := by
  obtain ⟨drdy, b0, b1, b2⟩ := inp
  cases drdy with
  | GPIO_PIN_RESET =>
    refine ⟨[readPin PA1 GPIO_PIN_RESET,
        writePin PB9 GPIO_PIN_RESET, spiReceive 3, writePin PB9 GPIO_PIN_SET,
        uart (ReportLine.raw (ADS1246_Read24bit b0 b1 b2 t).2),
        uart (ReportLine.voltage (main_convert ln (ADS1246_Read24bit b0 b1 b2 t).2).avg_voltage),
        uart (ReportLine.resistance
          (main_convert ln (ADS1246_Read24bit b0 b1 b2 t).2).resistance),
        uart (ReportLine.temp
          (main_convert ln (ADS1246_Read24bit b0 b1 b2 t).2).temperature)], ?_, ?_⟩
    · simp [main_loop_body, ADS1246_Read24bit, main_convert, HAL_GPIO_ReadPin,
        HAL_GPIO_WritePin, HAL_SPI_Receive, send_uart_message]
    · simp [isTransmit]
  | GPIO_PIN_SET =>
    refine ⟨[readPin PA1 GPIO_PIN_SET], main_loop_body_idle ln b0 b1 b2 t, ?_⟩
    simp [isTransmit]

theorem main_loop_suffix {α : Type} [Field α] (ln : α → α) (inputs : List LoopInput) :
    ∀ t : Trace α,
      ∃ s : Trace α, main_loop ln inputs t = t ++ s ∧ ∀ e ∈ s, isTransmit e = false := by
  induction inputs with
  | nil => intro t; exact ⟨[], by simp [main_loop], by simp⟩
  | cons inp rest ih =>
    intro t
    obtain ⟨s1, h1, n1⟩ := main_loop_body_suffix ln inp t
    obtain ⟨s2, h2, n2⟩ := ih (main_loop_body ln inp t)
    refine ⟨s1 ++ s2, ?_, ?_⟩
    · show main_loop ln rest (main_loop_body ln inp t) = t ++ (s1 ++ s2)
      rw [h2, h1, List.append_assoc]
    · intro e he
      rcases List.mem_append.mp he with h | h
      · exact n1 e h
      · exact n2 e h

/-! ## C1: reading one sample -/

/-- C1. For every three bytes `b0 b1 b2` delivered by the 3-byte receive,
`ADS1246_Read24bit` performs exactly chip-select low, one 3-byte receive,
chip-select high (so it transmits nothing, in particular no command byte),
and returns `b0 * 65536 + b1 * 256 + b2`. -/
theorem read24bit_frame_and_value {α : Type} (b0 b1 b2 : Nat) (t : Trace α)
    (h0 : b0 < 256) (h1 : b1 < 256) (h2 : b2 < 256) :
    ADS1246_Read24bit b0 b1 b2 t
        = (t ++ [writePin PB9 GPIO_PIN_RESET, spiReceive 3, writePin PB9 GPIO_PIN_SET],
           b0 * 65536 + b1 * 256 + b2)
      ∧ ∀ e ∈ ((ADS1246_Read24bit b0 b1 b2 t).1).drop t.length, isTransmit e = false := by
  refine ⟨?_, ?_⟩
  · apply Prod.ext
    · exact ADS1246_Read24bit_fst b0 b1 b2 t
    · exact pack24_eq b0 b1 b2 h0 h1 h2
  · rw [ADS1246_Read24bit_fst]
    simp [isTransmit]

theorem read24bit_frame_and_value_witness :
    ADS1246_Read24bit 0x7f 0xff 0xfe ([] : Trace ℚ)
        = ([] ++ [writePin PB9 GPIO_PIN_RESET, spiReceive 3, writePin PB9 GPIO_PIN_SET],
           0x7f * 65536 + 0xff * 256 + 0xfe)
      ∧ ∀ e ∈ ((ADS1246_Read24bit 0x7f 0xff 0xfe ([] : Trace ℚ)).1).drop
          ([] : Trace ℚ).length, isTransmit e = false :=
  read24bit_frame_and_value 0x7f 0xff 0xfe [] (by decide) (by decide) (by decide)

/-! ## C2: writing one register -/

/-- C2. For every 8-bit `reg` and `value`, `ADS1246_WriteRegister` emits
exactly chip-select low, one transmit of the 3-byte frame
`[0x40 ||| reg, 0x00, value]`, chip-select high and a delay of 1, in that
order, where `0x40` is `ADS1246_CMD_WREG`; for `reg < 0x10` the first byte
is `0x40 + reg`. -/
theorem writeRegister_frame {α : Type} (reg value : Nat) (t : Trace α)
    (hreg : reg < 256) (hvalue : value < 256) :
    ADS1246_WriteRegister reg value t
        = t ++ [writePin PB9 GPIO_PIN_RESET, spiTransmit [0x40 ||| reg, 0x00, value],
                writePin PB9 GPIO_PIN_SET, delay 1]
      ∧ (0x40 ||| reg) < 256 ∧ value < 256
      ∧ 0x40 ||| reg = ADS1246_CMD_WREG ||| reg
      ∧ (reg < 0x10 → 0x40 ||| reg = 0x40 + reg) := by
  refine ⟨?_, wreg_byte_lt reg hreg, hvalue, rfl, ?_⟩
  · rw [ADS1246_WriteRegister_eq, Nat.mod_eq_of_lt (wreg_byte_lt reg hreg)]
  · intro h
    interval_cases reg <;> rfl

theorem writeRegister_frame_witness :
    ADS1246_WriteRegister 0x01 0x04 ([] : Trace ℚ)
        = [] ++ [writePin PB9 GPIO_PIN_RESET, spiTransmit [0x40 ||| 0x01, 0x00, 0x04],
                writePin PB9 GPIO_PIN_SET, delay 1]
      ∧ (0x40 ||| 0x01) < 256 ∧ 0x04 < 256
      ∧ 0x40 ||| 0x01 = ADS1246_CMD_WREG ||| 0x01
      ∧ (0x01 < 0x10 → 0x40 ||| 0x01 = 0x40 + 0x01) :=
  writeRegister_frame 0x01 0x04 [] (by decide) (by decide)

/-! ## C8: resistance to temperature at the nominal point -/

/-- C8. In exact arithmetic, with any logarithm `ln` such that `ln 1 = 0`,
`calculate_temperature` applied to the nominal resistance 10000 returns the
nominal temperature 25: the result is `1 / (1 / T0) - 273.15` with
`T0 = 25 + 273.15`. -/
theorem calculate_temperature_nominal {α : Type} [Field α] [CharZero α] (ln : α → α)
    (hln : ln 1 = 0) :
    calculate_temperature ln (NOMINAL_RESISTANCE : α) = NOMINAL_TEMPERATURE
      ∧ calculate_temperature ln (10000 : α) = 25
      ∧ calculate_temperature ln (10000 : α) = 1 / (1 / (25 + 27315 / 100)) - 27315 / 100 := by
  have key : calculate_temperature ln (10000 : α) = 25 := by
    unfold calculate_temperature NOMINAL_RESISTANCE NOMINAL_TEMPERATURE BETA_COEFFICIENT
    have h : (10000 : α) / 10000 = 1 := by norm_num
    simp only [h, hln]
    norm_num
  refine ⟨?_, key, ?_⟩
  · simpa [NOMINAL_RESISTANCE, NOMINAL_TEMPERATURE] using key
  · rw [key]; norm_num

theorem calculate_temperature_nominal_witness :
    calculate_temperature Real.log (NOMINAL_RESISTANCE : ℝ) = NOMINAL_TEMPERATURE
      ∧ calculate_temperature Real.log (10000 : ℝ) = 25
      ∧ calculate_temperature Real.log (10000 : ℝ)
          = 1 / (1 / (25 + 27315 / 100)) - 27315 / 100 :=
  calculate_temperature_nominal Real.log Real.log_one

/-! ## C3: the end-to-end scenario -/

/-- C3, as stated, fails. For `raw = 8388607` the pipeline of `main` (exact
arithmetic, natural logarithm) yields a resistance more than 17 ohms above
20285.6 and a temperature above 9.86 degrees C, which is not within 0.1 of
-2.7 degrees C. -/
theorem scenario_not_minus_2_7 :
    ¬ (|(main_convert Real.log 8388607).temperature - (-27 / 10)| ≤ 1 / 10)
      ∧ 17 < (main_convert Real.log 8388607).resistance - 202856 / 10 := by
  obtain ⟨hlo, _⟩ := scenario_temperature_bounds
  obtain ⟨_, _, hr, _⟩ := scenario_values
  constructor
  · intro h
    have := (abs_le.mp h).2
    linarith
  · rw [hr]; norm_num

/-- C3, amended. For `raw = 8388607` with `Vref = 3.3`, in exact arithmetic
with the natural logarithm: the voltage is within `1e-6` of 1.65 V, the
adjusted voltage within `1e-6` of 2.211 V, the resistance within 0.01 of
20303.03 ohms and the temperature within 0.01 (hence within 0.1) of
9.87 degrees C. -/
theorem scenario_end_to_end :
    |(main_convert Real.log 8388607).avg_voltage - 165 / 100| < 1 / 1000000
      ∧ (main_convert Real.log 8388607).avg_voltage
          = ADS1246_ConvertToVoltage 8388607 (33 / 10)
      ∧ |(main_convert Real.log 8388607).adjusted_voltage - 2211 / 1000| < 1 / 1000000
      ∧ (main_convert Real.log 8388607).adjusted_voltage
          = (main_convert Real.log 8388607).avg_voltage * (134 / 100)
      ∧ |(main_convert Real.log 8388607).resistance - 2030303 / 100| < 1 / 100
      ∧ (main_convert Real.log 8388607).resistance
          = calculate_resistance (main_convert Real.log 8388607).adjusted_voltage
      ∧ |(main_convert Real.log 8388607).temperature - 987 / 100| < 1 / 100
      ∧ (main_convert Real.log 8388607).temperature
          = calculate_temperature Real.log (main_convert Real.log 8388607).resistance := by
  obtain ⟨hv, ha, hr, _⟩ := scenario_values
  obtain ⟨hlo, hhi⟩ := scenario_temperature_bounds
  refine ⟨?_, rfl, ?_, rfl, ?_, rfl, ?_, rfl⟩
  · rw [hv, abs_lt]; constructor <;> norm_num
  · rw [ha, abs_lt]; constructor <;> norm_num
  · rw [hr, abs_lt]; constructor <;> norm_num
  · rw [abs_lt]; constructor <;> linarith

/-! ## C4: register writes while streaming -/

/-- C4, as stated, fails. After the start-up sequence the device mode is
Streaming, and `ADS1246_WriteRegister 0x00 0x08` called in that state puts
the register-write frame `[0x40, 0x00, 0x08]` on the bus: it is not true
that every call made while Streaming emits no register-write frame. -/
theorem writeRegister_not_rejected_while_streaming :
    ¬ (∀ (m0 : DeviceMode) (t : Trace ℚ) (reg value : Nat), reg < 256 → value < 256 →
        deviceMode m0 t = DeviceMode.Streaming →
        ∀ e ∈ (ADS1246_WriteRegister reg value t).drop t.length, isRegisterWrite e = false) := by
  intro h
  have hmode : deviceMode DeviceMode.Idle (main_init ([] : Trace ℚ)) = DeviceMode.Streaming := by
    rw [main_init_eq]; rfl
  have hbad := h DeviceMode.Idle (main_init []) 0x00 0x08 (by decide) (by decide) hmode
    (spiTransmit [0x40, 0x00, 0x08])
    (by rw [ADS1246_WriteRegister_eq, List.drop_left]; simp)
  simp [isRegisterWrite] at hbad

/-- C4, amended. `ADS1246_WriteRegister` checks no device mode and returns
no error: for every 8-bit `reg`, every `value` and every driver state, the
Streaming state included, it emits the register-write frame
`[0x40 ||| reg, 0x00, value]` inside a chip-select window, followed by the
delay of 1, and the device mode after the call is the mode before it. -/
theorem writeRegister_unconditional {α : Type} (m0 : DeviceMode) (t : Trace α)
    (reg value : Nat) (hreg : reg < 256) :
    ADS1246_WriteRegister reg value t
        = t ++ [writePin PB9 GPIO_PIN_RESET, spiTransmit [0x40 ||| reg, 0x00, value],
                writePin PB9 GPIO_PIN_SET, delay 1]
      ∧ isRegisterWrite (spiTransmit [0x40 ||| reg, 0x00, value] : Effect α) = true
      ∧ deviceMode m0 (ADS1246_WriteRegister reg value t) = deviceMode m0 t
      ∧ (deviceMode m0 t = DeviceMode.Streaming →
          deviceMode m0 (ADS1246_WriteRegister reg value t) = DeviceMode.Streaming
            ∧ ∃ e ∈ (ADS1246_WriteRegister reg value t).drop t.length,
                isRegisterWrite e = true) := by
  have hframe : ADS1246_WriteRegister reg value t
      = t ++ [writePin PB9 GPIO_PIN_RESET, spiTransmit [0x40 ||| reg, 0x00, value],
              writePin PB9 GPIO_PIN_SET, delay 1] := by
    rw [ADS1246_WriteRegister_eq, Nat.mod_eq_of_lt (wreg_byte_lt reg hreg)]
  have hbit : isRegisterWrite (spiTransmit [0x40 ||| reg, 0x00, value] : Effect α) = true := by
    have : (0x40 ||| reg) &&& 0x40 = 0x40 := by
      interval_cases reg <;> rfl
    simp [isRegisterWrite, this]
  have hmode : deviceMode m0 (ADS1246_WriteRegister reg value t) = deviceMode m0 t := by
    rw [hframe, deviceMode_append]
    rfl
  refine ⟨hframe, hbit, hmode, ?_⟩
  intro hs
  refine ⟨by rw [hmode, hs], spiTransmit [0x40 ||| reg, 0x00, value], ?_, hbit⟩
  rw [hframe, List.drop_left]
  simp

theorem writeRegister_unconditional_witness :
    ADS1246_WriteRegister 0x02 0x00 (main_init ([] : Trace ℚ))
        = main_init ([] : Trace ℚ)
            ++ [writePin PB9 GPIO_PIN_RESET, spiTransmit [0x40 ||| 0x02, 0x00, 0x00],
                writePin PB9 GPIO_PIN_SET, delay 1]
      ∧ isRegisterWrite (spiTransmit [0x40 ||| 0x02, 0x00, 0x00] : Effect ℚ) = true
      ∧ deviceMode DeviceMode.Idle (ADS1246_WriteRegister 0x02 0x00 (main_init ([] : Trace ℚ)))
          = deviceMode DeviceMode.Idle (main_init ([] : Trace ℚ))
      ∧ (deviceMode DeviceMode.Idle (main_init ([] : Trace ℚ)) = DeviceMode.Streaming →
          deviceMode DeviceMode.Idle (ADS1246_WriteRegister 0x02 0x00 (main_init ([] : Trace ℚ)))
              = DeviceMode.Streaming
            ∧ ∃ e ∈ (ADS1246_WriteRegister 0x02 0x00 (main_init ([] : Trace ℚ))).drop
                  (main_init ([] : Trace ℚ)).length,
                isRegisterWrite e = true) :=
  writeRegister_unconditional DeviceMode.Idle (main_init ([] : Trace ℚ)) 0x02 0x00
    (by decide)

/-! ## C9: order of the start-up sequence -/

/-- C9. The start-up part of `main` emits reset, wake (0x00), stop-streaming
(0x16), the register writes `0x00 := 0x08`, `0x01 := 0x04`, `0x02 := 0x00`
and start-streaming (0x14), in that order. Whatever the device mode `m0`
before it, every register write of the sequence occurs while the mode is
Idle and the mode after the sequence is Streaming. The poll loop that
follows, run on any inputs, appends no transmit at all (so no register
write) and leaves the mode Streaming. -/
theorem init_order_invariant {α : Type} [Field α] (ln : α → α) (m0 : DeviceMode)
    (inputs : List LoopInput) :
    main_init ([] : Trace α)
        = [writePin PB7 GPIO_PIN_RESET, delay 1, writePin PB7 GPIO_PIN_SET, delay 1,
           writePin PB9 GPIO_PIN_RESET, spiTransmit [0x00], writePin PB9 GPIO_PIN_SET,
           writePin PB9 GPIO_PIN_RESET, spiTransmit [0x16], writePin PB9 GPIO_PIN_SET,
           writePin PB9 GPIO_PIN_RESET, spiTransmit [0x40, 0x00, 0x08],
           writePin PB9 GPIO_PIN_SET, delay 1,
           writePin PB9 GPIO_PIN_RESET, spiTransmit [0x41, 0x00, 0x04],
           writePin PB9 GPIO_PIN_SET, delay 1,
           writePin PB9 GPIO_PIN_RESET, spiTransmit [0x42, 0x00, 0x00],
           writePin PB9 GPIO_PIN_SET, delay 1,
           writePin PB9 GPIO_PIN_RESET, spiTransmit [0x14], writePin PB9 GPIO_PIN_SET]
      ∧ (main_init ([] : Trace α)).filter isRegisterWrite
          = [spiTransmit [0x40, 0x00, 0x08], spiTransmit [0x41, 0x00, 0x04],
             spiTransmit [0x42, 0x00, 0x00]]
      ∧ (∀ (pre : Trace α) (e : Effect α) (post : Trace α),
          main_init ([] : Trace α) = pre ++ e :: post → isRegisterWrite e = true →
          deviceMode m0 pre = DeviceMode.Idle)
      ∧ deviceMode m0 (main_init ([] : Trace α)) = DeviceMode.Streaming
      ∧ ∃ s : Trace α,
          main_loop ln inputs (main_init ([] : Trace α)) = main_init ([] : Trace α) ++ s
          ∧ (∀ e ∈ s, isTransmit e = false)
          ∧ (∀ e ∈ s, isRegisterWrite e = false)
          ∧ deviceMode m0 (main_loop ln inputs (main_init ([] : Trace α)))
              = DeviceMode.Streaming := by
  have hinit := main_init_eq ([] : Trace α)
  rw [List.nil_append] at hinit
  have hstream : deviceMode m0 (main_init ([] : Trace α)) = DeviceMode.Streaming := by
    rw [hinit]; cases m0 <;> rfl
  refine ⟨hinit, ?_, ?_, hstream, ?_⟩
  · rw [hinit]; rfl
  · apply idleAtWrites_sound
    rw [hinit]; cases m0 <;> rfl
  · obtain ⟨s, hs, hn⟩ := main_loop_suffix ln inputs (main_init ([] : Trace α))
    refine ⟨s, hs, hn, fun e he => isRegisterWrite_isTransmit e (hn e he), ?_⟩
    rw [hs, deviceMode_append, hstream]
    exact deviceMode_of_no_transmit s DeviceMode.Streaming hn

/-! ## Rounding lemmas -/

theorem rne_mono {x y : ℚ} (h : x ≤ y) : rne x ≤ rne y := by
  have hx1 : (⌊x⌋ : ℚ) ≤ x := Int.floor_le x
  have hx2 : x < ⌊x⌋ + 1 := Int.lt_floor_add_one x
  have hy1 : (⌊y⌋ : ℚ) ≤ y := Int.floor_le y
  have hy2 : y < ⌊y⌋ + 1 := Int.lt_floor_add_one y
  have hfl : ⌊x⌋ ≤ ⌊y⌋ := Int.floor_mono h
  rcases lt_or_eq_of_le hfl with hlt | heq
  · unfold rne
    split_ifs <;> omega
  · unfold rne
    rw [← heq] at hy1 hy2 ⊢
    split_ifs <;> first | omega | (exfalso; linarith)

theorem rne_intCast (n : ℤ) : rne (n : ℚ) = n := by
  simp [rne]

theorem rne_eq_of_abs_lt {x : ℚ} {m : ℤ} (h : |x - m| < 1 / 2) : rne x = m := by
  rw [abs_lt] at h
  obtain ⟨h1, h2⟩ := h
  have hfl : ⌊x⌋ = m ∨ ⌊x⌋ = m - 1 := by
    by_cases hc : (m : ℚ) ≤ x
    · left
      rw [Int.floor_eq_iff]
      constructor
      · exact hc
      · linarith
    · right
      rw [Int.floor_eq_iff]
      push_cast
      constructor <;> linarith
  unfold rne
  rcases hfl with hf | hf
  · have hq : ((⌊x⌋ : ℤ) : ℚ) = m := by rw [hf]
    rw [hq, hf]
    split_ifs <;> rfl
  · have hq : ((⌊x⌋ : ℤ) : ℚ) = m - 1 := by rw [hf]; push_cast; ring
    rw [hq, hf]
    split_ifs <;> first | omega | (exfalso; linarith)

theorem rne_error (x : ℚ) : |(rne x : ℚ) - x| ≤ 1 / 2 := by
  have hx1 : (⌊x⌋ : ℚ) ≤ x := Int.floor_le x
  have hx2 : x < ⌊x⌋ + 1 := Int.lt_floor_add_one x
  unfold rne
  rw [abs_le]
  split_ifs <;> push_cast <;> constructor <;> linarith

theorem rne_nonneg {x : ℚ} (h : 0 ≤ x) : 0 ≤ rne x := by
  have := rne_mono h
  rwa [show (0 : ℚ) = ((0 : ℤ) : ℚ) by simp, rne_intCast] at this

theorem two_zpow_pos (e : ℤ) : (0 : ℚ) < 2 ^ e := zpow_pos (by norm_num) e

theorem rnd_nonneg (f : Fmt) {x : ℚ} (h : 0 ≤ x) : 0 ≤ rnd f x := by
  unfold rnd
  apply mul_nonneg
  · exact_mod_cast rne_nonneg (div_nonneg h (two_zpow_pos _).le)
  · exact (two_zpow_pos _).le

theorem rnd_zero (f : Fmt) : rnd f 0 = 0 := by
  simp [rnd, rne]

theorem log_eq_of_bounds {x : ℚ} {k : ℤ} (h1 : 2 ^ k ≤ x) (h2 : x < 2 ^ (k + 1)) :
    Int.log 2 x = k := by
  have hx : 0 < x := lt_of_lt_of_le (two_zpow_pos k) h1
  have a : k ≤ Int.log 2 x := by
    rw [← Int.zpow_le_iff_le_log (by norm_num) hx]; simpa using h1
  have b : Int.log 2 x < k + 1 := by
    rw [← Int.lt_zpow_iff_log_lt (by norm_num) hx]; simpa using h2
  omega

theorem rnd_eq_of_normal (f : Fmt) {x : ℚ} (k m : ℤ) (hk : f.emin ≤ k)
    (h1 : 2 ^ k ≤ x) (h2 : x < 2 ^ (k + 1))
    (herr : |x - m * 2 ^ (k - (f.prec - 1))| < 2 ^ (k - (f.prec - 1)) / 2) :
    rnd f x = m * 2 ^ (k - (f.prec - 1)) := by
  have hq : quantum f x = k - (f.prec - 1) := by
    unfold quantum
    rw [log_eq_of_bounds h1 h2, max_eq_left hk]
  unfold rnd
  rw [hq]
  have hu := two_zpow_pos (k - ((f.prec : ℤ) - 1))
  have : rne (x / 2 ^ (k - ((f.prec : ℤ) - 1))) = m := by
    apply rne_eq_of_abs_lt
    have e : x / 2 ^ (k - ((f.prec : ℤ) - 1)) - m
        = (x - m * 2 ^ (k - ((f.prec : ℤ) - 1))) / 2 ^ (k - ((f.prec : ℤ) - 1)) := by
      field_simp
      ring
    rw [e, abs_div, abs_of_pos hu, div_lt_iff₀ hu]
    linarith
  rw [this]


theorem quantum_mono (f : Fmt) {x y : ℚ} (hx : 0 < x) (hxy : x ≤ y) :
    quantum f x ≤ quantum f y := by
  unfold quantum
  have := Int.log_mono_right (b := 2) hx hxy
  exact sub_le_sub_right (max_le_max this le_rfl) _

theorem rnd_mono (f : Fmt) (hp : 1 ≤ f.prec) {x y : ℚ} (hx : 0 ≤ x) (hxy : x ≤ y) :
    rnd f x ≤ rnd f y := by
  rcases hx.eq_or_lt with h0 | hpos
  · rw [← h0, rnd_zero]
    exact rnd_nonneg f (le_trans hx hxy)
  have hypos : 0 < y := lt_of_lt_of_le hpos hxy
  rcases (quantum_mono f hpos hxy).lt_or_eq with hlt | heq
  · -- different binades: a power of two separates the two results
    obtain ⟨n, hn⟩ : ∃ n : ℕ, (f.prec : ℤ) = n + 1 := ⟨f.prec - 1, by omega⟩
    have hqx : Int.log 2 x + 1 ≤ quantum f x + (n + 1) := by
      unfold quantum
      have := le_max_left (Int.log 2 x) f.emin
      omega
    have hqy : quantum f y + n = Int.log 2 y := by
      have h1 : f.emin - (f.prec - 1) ≤ quantum f x := by
        unfold quantum
        have := le_max_right (Int.log 2 x) f.emin
        omega
      unfold quantum at hlt h1 ⊢
      rcases max_cases (Int.log 2 y) f.emin with ⟨hm, _⟩ | ⟨hm, _⟩
      · rw [hm]; omega
      · rw [hm] at hlt; omega
    -- upper bound for the smaller argument
    have hA : rnd f x ≤ 2 ^ (quantum f x + (n + 1)) := by
      have hxlt : x < 2 ^ (quantum f x + ((n : ℤ) + 1)) :=
        lt_of_lt_of_le (by simpa using Int.lt_zpow_succ_log_self (b := 2) (by norm_num) x)
          (zpow_le_zpow_right₀ (by norm_num) hqx)
      have hdiv : x / 2 ^ quantum f x ≤ ((2 ^ (n + 1) : ℤ) : ℚ) := by
        rw [div_le_iff₀ (two_zpow_pos _)]
        push_cast
        rw [← zpow_natCast, ← zpow_add₀ (by norm_num : (2 : ℚ) ≠ 0)]
        push_cast
        rw [add_comm]
        exact hxlt.le
      have hr := rne_mono hdiv
      rw [rne_intCast] at hr
      unfold rnd
      have hr2 : ((rne (x / 2 ^ quantum f x) : ℤ) : ℚ) ≤ ((2 ^ (n + 1) : ℤ) : ℚ) := by
        exact_mod_cast hr
      calc (rne (x / 2 ^ quantum f x) : ℚ) * 2 ^ quantum f x
          ≤ ((2 ^ (n + 1) : ℤ) : ℚ) * 2 ^ quantum f x :=
            mul_le_mul_of_nonneg_right hr2 (two_zpow_pos _).le
        _ = 2 ^ (quantum f x + (n + 1)) := by
            push_cast
            rw [← zpow_natCast, ← zpow_add₀ (by norm_num : (2 : ℚ) ≠ 0)]
            push_cast
            rw [add_comm]
    -- lower bound for the larger argument
    have hB : (2 : ℚ) ^ (quantum f y + n) ≤ rnd f y := by
      have hyge : (2 : ℚ) ^ (quantum f y + n) ≤ y := by
        rw [hqy]
        simpa using Int.zpow_log_le_self (b := 2) (by norm_num) hypos
      have hdiv : ((2 ^ n : ℤ) : ℚ) ≤ y / 2 ^ quantum f y := by
        rw [le_div_iff₀ (two_zpow_pos _)]
        push_cast
        rw [← zpow_natCast, ← zpow_add₀ (by norm_num : (2 : ℚ) ≠ 0), add_comm]
        exact hyge
      have hr := rne_mono hdiv
      rw [rne_intCast] at hr
      unfold rnd
      have hr2 : ((2 ^ n : ℤ) : ℚ) ≤ ((rne (y / 2 ^ quantum f y) : ℤ) : ℚ) := by
        exact_mod_cast hr
      calc (2 : ℚ) ^ (quantum f y + n) = ((2 ^ n : ℤ) : ℚ) * 2 ^ quantum f y := by
            push_cast
            rw [← zpow_natCast, ← zpow_add₀ (by norm_num : (2 : ℚ) ≠ 0), add_comm]
        _ ≤ (rne (y / 2 ^ quantum f y) : ℚ) * 2 ^ quantum f y :=
            mul_le_mul_of_nonneg_right hr2 (two_zpow_pos _).le
    have hmid : (2 : ℚ) ^ (quantum f x + ((n : ℤ) + 1)) ≤ 2 ^ (quantum f y + n) :=
      zpow_le_zpow_right₀ (by norm_num) (by omega)
    exact le_trans hA (le_trans hmid hB)
  · unfold rnd
    rw [heq]
    apply mul_le_mul_of_nonneg_right _ (two_zpow_pos _).le
    exact_mod_cast rne_mono (div_le_div_of_nonneg_right hxy (two_zpow_pos _).le)

theorem quantum_of_normal (f : Fmt) {x : ℚ} (hx : 2 ^ f.emin ≤ x) :
    quantum f x = Int.log 2 x - (f.prec - 1) := by
  have hpos : 0 < x := lt_of_lt_of_le (two_zpow_pos _) hx
  have : f.emin ≤ Int.log 2 x := by
    rw [← Int.zpow_le_iff_le_log (by norm_num) hpos]; simpa using hx
  unfold quantum
  rw [max_eq_left this]

theorem rnd_error (f : Fmt) {x : ℚ} (hx : 2 ^ f.emin ≤ x) :
    |rnd f x - x| ≤ x / 2 ^ f.prec := by
  have hpos : 0 < x := lt_of_lt_of_le (two_zpow_pos _) hx
  have hq := quantum_of_normal f hx
  have hu := two_zpow_pos (quantum f x)
  have he := rne_error (x / 2 ^ quantum f x)
  have h1 : |rnd f x - x| ≤ 2 ^ quantum f x / 2 := by
    have e : rnd f x - x = ((rne (x / 2 ^ quantum f x) : ℚ) - x / 2 ^ quantum f x)
        * 2 ^ quantum f x := by
      unfold rnd; field_simp
    rw [e, abs_mul, abs_of_pos hu]
    calc |(rne (x / 2 ^ quantum f x) : ℚ) - x / 2 ^ quantum f x| * 2 ^ quantum f x
        ≤ 1 / 2 * 2 ^ quantum f x := mul_le_mul_of_nonneg_right he hu.le
      _ = 2 ^ quantum f x / 2 := by ring
  have h2 : (2 : ℚ) ^ quantum f x / 2 ≤ x / 2 ^ f.prec := by
    have hl : (2 : ℚ) ^ Int.log 2 x ≤ x := by
      simpa using Int.zpow_log_le_self (b := 2) (by norm_num) hpos
    have e : (2 : ℚ) ^ quantum f x / 2 = 2 ^ Int.log 2 x / 2 ^ f.prec := by
      rw [hq, ← zpow_natCast (2 : ℚ) f.prec, ← zpow_sub₀ (by norm_num : (2 : ℚ) ≠ 0),
        show (2 : ℚ) ^ (Int.log 2 x - ((f.prec : ℤ) - 1)) / 2
          = 2 ^ (Int.log 2 x - ((f.prec : ℤ) - 1)) / 2 ^ (1 : ℤ) by norm_num,
        ← zpow_sub₀ (by norm_num : (2 : ℚ) ≠ 0)]
      congr 1
      ring
    rw [e]
    exact div_le_div_of_nonneg_right hl (by positivity)
  exact le_trans h1 h2

theorem grid_of_rep (f : Fmt) {a : ℚ} (k : ℤ) (hrep : rnd f a = a) (hk : f.emin ≤ k)
    (h1 : 2 ^ k ≤ a) (h2 : a < 2 ^ (k + 1)) :
    ∃ m : ℤ, a = m * 2 ^ (k - (f.prec - 1)) := by
  have hq : quantum f a = k - (f.prec - 1) := by
    unfold quantum
    rw [log_eq_of_bounds h1 h2, max_eq_left hk]
  refine ⟨rne (a / 2 ^ (k - ((f.prec : ℤ) - 1))), ?_⟩
  have := hrep
  unfold rnd at this
  rw [hq] at this
  exact this.symm

theorem rnd32_cert (x : ℚ) (k e m : ℤ) (hk : -126 ≤ k) (he : e = k - 23)
    (h1 : 2 ^ k ≤ x) (h2 : x < 2 ^ (k + 1))
    (hlo : ((m : ℚ) - 1 / 2) * 2 ^ e < x) (hhi : x < ((m : ℚ) + 1 / 2) * 2 ^ e) :
    rnd binary32 x = m * 2 ^ e := by
  subst he
  have hu := two_zpow_pos (k - 23)
  have := rnd_eq_of_normal binary32 k m (by simpa [Fmt.emin, binary32] using hk) h1 h2
    (by
      simp only [binary32, Nat.cast_ofNat]
      norm_num
      rw [abs_lt]
      constructor <;> linarith)
  simpa [binary32] using this

theorem rnd64_cert (x : ℚ) (k e m : ℤ) (hk : -1022 ≤ k) (he : e = k - 52)
    (h1 : 2 ^ k ≤ x) (h2 : x < 2 ^ (k + 1))
    (hlo : ((m : ℚ) - 1 / 2) * 2 ^ e < x) (hhi : x < ((m : ℚ) + 1 / 2) * 2 ^ e) :
    rnd binary64 x = m * 2 ^ e := by
  subst he
  have hu := two_zpow_pos (k - 52)
  have := rnd_eq_of_normal binary64 k m (by simpa [Fmt.emin, binary64] using hk) h1 h2
    (by
      simp only [binary64, Nat.cast_ofNat]
      norm_num
      rw [abs_lt]
      constructor <;> linarith)
  simpa [binary64] using this

theorem le_maxFinite32 {r : ℚ} (h : r ≤ 2 ^ 100) : r ≤ binary32.maxFinite := by
  have : (2 : ℚ) ^ 100 ≤ binary32.maxFinite := by
    norm_num [Fmt.maxFinite, binary32]
  exact le_trans h this

theorem le_maxFinite64 {r : ℚ} (h : r ≤ 2 ^ 100) : r ≤ binary64.maxFinite := by
  have : (2 : ℚ) ^ 100 ≤ binary64.maxFinite := by
    norm_num [Fmt.maxFinite, binary64]
  exact le_trans h this

theorem round_of_nonneg (f : Fmt) {x r : ℚ} (hx : 0 ≤ x) (hr : rnd f x = r)
    (hmax : r ≤ f.maxFinite) : FP.round f false x = FP.fin false r := by
  unfold FP.round
  rw [abs_of_nonneg hx, hr, if_neg (not_lt.mpr hmax)]
  have : decide (x < 0) = false := by simpa using hx
  simp [this]

theorem round_of_neg (f : Fmt) (z : Bool) {x r : ℚ} (hx : x < 0) (hr : rnd f (-x) = r)
    (hmax : r ≤ f.maxFinite) : FP.round f z x = FP.fin true r := by
  unfold FP.round
  rw [abs_of_neg hx, hr, if_neg (not_lt.mpr hmax), if_neg (ne_of_lt hx)]
  simp [hx]

theorem ofNat_eval (f : Fmt) (n : Nat) {r : ℚ} (hr : rnd f (n : ℚ) = r)
    (hmax : r ≤ f.maxFinite) : FP.ofNat f n = FP.fin false r :=
  round_of_nonneg f (Nat.cast_nonneg n) hr hmax

theorem mul_eval (f : Fmt) {a b r : ℚ} (ha : 0 ≤ a) (hb : 0 ≤ b) (hr : rnd f (a * b) = r)
    (hmax : r ≤ f.maxFinite) :
    FP.mul f (FP.fin false a) (FP.fin false b) = FP.fin false r := by
  simp only [FP.mul, FP.val, Bool.false_eq_true, if_false, bne_self_eq_false]
  exact round_of_nonneg f (mul_nonneg ha hb) hr hmax

theorem div_eval (f : Fmt) {a b r : ℚ} (ha : 0 ≤ a) (hb : 0 < b) (hr : rnd f (a / b) = r)
    (hmax : r ≤ f.maxFinite) :
    FP.div f (FP.fin false a) (FP.fin false b) = FP.fin false r := by
  simp only [FP.div, FP.val, Bool.false_eq_true, if_false, bne_self_eq_false,
    if_neg (ne_of_gt hb)]
  exact round_of_nonneg f (div_nonneg ha hb.le) hr hmax

theorem div_neg_eval (f : Fmt) {a b r : ℚ} (ha : 0 < a) (hb : 0 < b)
    (hr : rnd f (a / b) = r) (hmax : r ≤ f.maxFinite) :
    FP.div f (FP.fin false a) (FP.fin true b) = FP.fin true r
      ∧ FP.div f (FP.fin true a) (FP.fin false b) = FP.fin true r := by
  have hq : 0 < a / b := div_pos ha hb
  constructor
  · simp only [FP.div, FP.val, Bool.false_eq_true, if_false, if_true, if_neg (ne_of_gt hb)]
    apply round_of_neg f _ _ _ hmax
    · rw [div_neg]; linarith
    · rw [div_neg, neg_neg]; exact hr
  · simp only [FP.div, FP.val, Bool.false_eq_true, if_false, if_true, if_neg (ne_of_gt hb)]
    apply round_of_neg f _ _ _ hmax
    · rw [neg_div]; linarith
    · rw [neg_div, neg_neg]; exact hr

theorem div_zero_eval (f : Fmt) {a : ℚ} (s : Bool) (ha : a ≠ 0) :
    FP.div f (FP.fin s a) (FP.fin false 0) = FP.inf s := by
  simp [FP.div, ha]

theorem cast_eval (f : Fmt) {a r : ℚ} (ha : 0 ≤ a) (hr : rnd f a = r)
    (hmax : r ≤ f.maxFinite) : FP.cast f (FP.fin false a) = FP.fin false r := by
  simp only [FP.cast, FP.val, Bool.false_eq_true, if_false]
  exact round_of_nonneg f ha hr hmax

theorem cast_neg_eval (f : Fmt) {a r : ℚ} (ha : 0 < a) (hr : rnd f a = r)
    (hmax : r ≤ f.maxFinite) : FP.cast f (FP.fin true a) = FP.fin true r := by
  simp only [FP.cast, FP.val, if_true]
  apply round_of_neg f _ _ _ hmax
  · linarith
  · rw [neg_neg]; exact hr

theorem sub_eval (f : Fmt) {a b r : ℚ} (hab : b < a) (hr : rnd f (a - b) = r)
    (hmax : r ≤ f.maxFinite) :
    FP.sub f (FP.fin false a) (FP.fin false b) = FP.fin false r := by
  simp only [FP.sub, FP.neg, FP.add, FP.val, Bool.false_eq_true, if_false, if_true,
    Bool.not_false, Bool.false_and]
  have e : a + -b = a - b := by ring
  rw [e]
  exact round_of_nonneg f (by linarith) hr hmax

theorem sub_self_eval (f : Fmt) (a : ℚ) :
    FP.sub f (FP.fin false a) (FP.fin false a) = FP.fin false 0 := by
  simp only [FP.sub, FP.neg, FP.add, FP.val, Bool.false_eq_true, if_false, if_true,
    Bool.not_false, Bool.false_and]
  have e : a + -a = 0 := by ring
  rw [e]
  exact round_of_nonneg f le_rfl (rnd_zero f) (by
    unfold Fmt.maxFinite
    have : (1 : ℚ) ≤ 2 ^ f.prec := one_le_pow₀ (by norm_num)
    exact mul_nonneg (by linarith) (two_zpow_pos _).le)

theorem sub_neg_eval (f : Fmt) {a b r : ℚ} (hab : a < b) (hr : rnd f (b - a) = r)
    (hmax : r ≤ f.maxFinite) :
    FP.sub f (FP.fin false a) (FP.fin false b) = FP.fin true r := by
  simp only [FP.sub, FP.neg, FP.add, FP.val, Bool.false_eq_true, if_false, if_true,
    Bool.not_false, Bool.false_and]
  apply round_of_neg f _ _ _ hmax
  · linarith
  · rw [show -(a + -b) = b - a by ring]; exact hr

theorem mul_neg_eval (f : Fmt) {a b r : ℚ} (ha : 0 < a) (hb : 0 < b)
    (hr : rnd f (a * b) = r) (hmax : r ≤ f.maxFinite) :
    FP.mul f (FP.fin false a) (FP.fin true b) = FP.fin true r := by
  simp only [FP.mul, FP.val, Bool.false_eq_true, if_false, if_true]
  apply round_of_neg f _ _ _ hmax
  · have := mul_pos ha hb
    rw [mul_neg]; linarith
  · rw [mul_neg, neg_neg]; exact hr

theorem sub_add_eval (f : Fmt) {a b r : ℚ} (ha : 0 ≤ a) (hb : 0 ≤ b)
    (hr : rnd f (a + b) = r) (hmax : r ≤ f.maxFinite) :
    FP.sub f (FP.fin false a) (FP.fin true b) = FP.fin false r := by
  simp only [FP.sub, FP.neg, FP.add, FP.val, Bool.false_eq_true, if_false,
    Bool.not_true, Bool.false_and]
  exact round_of_nonneg f (add_nonneg ha hb) hr hmax

theorem rne_eq_of_tie {x : ℚ} {n m : ℤ} (htie : x = n + 1 / 2) (hpar : m % 2 = 0)
    (hnm : m = n ∨ m = n + 1) : rne x = m := by
  have hfl : ⌊x⌋ = n := by
    rw [Int.floor_eq_iff]
    constructor <;> linarith
  unfold rne
  rw [hfl]
  have h1 : ¬ (x - n < 1 / 2) := by rw [htie]; norm_num
  have h2 : ¬ (1 / 2 < x - n) := by rw [htie]; norm_num
  rw [if_neg h1, if_neg h2]
  split_ifs <;> omega

theorem rnd_eq_of_tie (f : Fmt) {x : ℚ} (k n m : ℤ) (hk : f.emin ≤ k)
    (h1 : 2 ^ k ≤ x) (h2 : x < 2 ^ (k + 1))
    (htie : x = ((n : ℚ) + 1 / 2) * 2 ^ (k - (f.prec - 1))) (hpar : m % 2 = 0)
    (hnm : m = n ∨ m = n + 1) :
    rnd f x = m * 2 ^ (k - (f.prec - 1)) := by
  have hq : quantum f x = k - (f.prec - 1) := by
    unfold quantum
    rw [log_eq_of_bounds h1 h2, max_eq_left hk]
  unfold rnd
  rw [hq]
  have hu := two_zpow_pos (k - ((f.prec : ℤ) - 1))
  have : rne (x / 2 ^ (k - ((f.prec : ℤ) - 1))) = m := by
    apply rne_eq_of_tie _ hpar hnm
    rw [div_eq_iff (ne_of_gt hu)]
    exact htie
  rw [this]

theorem rnd32_cert_tie (x : ℚ) (k e n m : ℤ) (hk : -126 ≤ k) (he : e = k - 23)
    (h1 : 2 ^ k ≤ x) (h2 : x < 2 ^ (k + 1))
    (htie : x = ((n : ℚ) + 1 / 2) * 2 ^ e) (hpar : m % 2 = 0) (hnm : m = n ∨ m = n + 1) :
    rnd binary32 x = m * 2 ^ e := by
  subst he
  have := rnd_eq_of_tie binary32 k n m (by simpa [Fmt.emin, binary32] using hk) h1 h2
    (by simpa [binary32] using htie) hpar hnm
  simpa [binary32] using this

theorem rnd64_cert_tie (x : ℚ) (k e n m : ℤ) (hk : -1022 ≤ k) (he : e = k - 52)
    (h1 : 2 ^ k ≤ x) (h2 : x < 2 ^ (k + 1))
    (htie : x = ((n : ℚ) + 1 / 2) * 2 ^ e) (hpar : m % 2 = 0) (hnm : m = n ∨ m = n + 1) :
    rnd binary64 x = m * 2 ^ e := by
  subst he
  have := rnd_eq_of_tie binary64 k n m (by simpa [Fmt.emin, binary64] using hk) h1 h2
    (by simpa [binary64] using htie) hpar hnm
  simpa [binary64] using this

theorem add_eval (f : Fmt) {a b r : ℚ} (ha : 0 ≤ a) (hb : 0 ≤ b) (hr : rnd f (a + b) = r)
    (hmax : r ≤ f.maxFinite) :
    FP.add f (FP.fin false a) (FP.fin false b) = FP.fin false r := by
  simp only [FP.add, FP.val, Bool.false_eq_true, if_false, Bool.and_self]
  exact round_of_nonneg f (add_nonneg ha hb) hr hmax

theorem add_nan_right (f : Fmt) (x : FP) : FP.add f x FP.nan = FP.nan := by
  cases x <;> rfl

theorem div_nan_right (f : Fmt) (x : FP) : FP.div f x FP.nan = FP.nan := by
  cases x <;> rfl

theorem sub_nan_left (f : Fmt) (y : FP) : FP.sub f FP.nan y = FP.nan := by
  cases y <;> rfl

/-! ## Values of the constants and of the pipeline at single inputs -/

theorem supply_cast_value :
    FP.cast binary32 (f64 (33 / 10)) = (FP.fin false (13841203 / 4194304)) := by
  have h1 : f64 (33 / 10) = (FP.fin false (3715469692580659 / 1125899906842624)) :=
    round_of_nonneg binary64 (by norm_num) (by
      rw [rnd64_cert (33 / 10) (1) (-51) 7430939385161318 (by norm_num) (by norm_num) (by norm_num) (by norm_num) (by norm_num) (by norm_num)]
      norm_num) (le_maxFinite64 (by norm_num))
  have h2 : FP.cast binary32 (FP.fin false (3715469692580659 / 1125899906842624)) = (FP.fin false (13841203 / 4194304)) :=
    cast_eval binary32 (by norm_num) (by
      rw [rnd32_cert (3715469692580659 / 1125899906842624) (1) (-22) 13841203 (by norm_num) (by norm_num) (by norm_num) (by norm_num) (by norm_num) (by norm_num)]
      norm_num) (le_maxFinite32 (by norm_num))
  rw [h1, h2]

theorem supply_f32_value :
    f32 (33 / 10) = (FP.fin false (13841203 / 4194304)) := by
  have h1 : f32 (33 / 10) = (FP.fin false (13841203 / 4194304)) :=
    round_of_nonneg binary32 (by norm_num) (by
      rw [rnd32_cert (33 / 10) (1) (-22) 13841203 (by norm_num) (by norm_num) (by norm_num) (by norm_num) (by norm_num) (by norm_num)]
      norm_num) (le_maxFinite32 (by norm_num))
  exact h1

theorem gain_f32_value :
    f32 (134 / 100) = (FP.fin false (11240735 / 8388608)) := by
  have h1 : f32 (134 / 100) = (FP.fin false (11240735 / 8388608)) :=
    round_of_nonneg binary32 (by norm_num) (by
      rw [rnd32_cert (134 / 100) (0) (-23) 11240735 (by norm_num) (by norm_num) (by norm_num) (by norm_num) (by norm_num) (by norm_num)]
      norm_num) (le_maxFinite32 (by norm_num))
  exact h1

theorem fullscale_f32_value :
    f32 16777215 = (FP.fin false 16777215) := by
  have h1 : f32 16777215 = (FP.fin false 16777215) :=
    round_of_nonneg binary32 (by norm_num) (by
      rw [rnd32_cert 16777215 (23) (0) 16777215 (by norm_num) (by norm_num) (by norm_num) (by norm_num) (by norm_num) (by norm_num)]
      norm_num) (le_maxFinite32 (by norm_num))
  exact h1

theorem series_f64_value :
    f64 10000 = (FP.fin false 10000) := by
  have h1 : f64 10000 = (FP.fin false 10000) :=
    round_of_nonneg binary64 (by norm_num) (by
      rw [rnd64_cert 10000 (13) (-39) 5497558138880000 (by norm_num) (by norm_num) (by norm_num) (by norm_num) (by norm_num) (by norm_num)]
      norm_num) (le_maxFinite64 (by norm_num))
  exact h1

theorem rnd32_fullscale : rnd binary32 16777215 = 16777215 := by
  rw [rnd32_cert 16777215 (23) (0) 16777215 (by norm_num) (by norm_num) (by norm_num) (by norm_num) (by norm_num) (by norm_num)]
  norm_num

theorem rnd32_one : rnd binary32 1 = 1 := by
  rw [rnd32_cert 1 (0) (-23) 8388608 (by norm_num) (by norm_num) (by norm_num) (by norm_num) (by norm_num) (by norm_num)]
  norm_num

theorem convert_10168012 :
    ADS1246_ConvertToVoltage_f32 10168012 (FP.fin false (13841203 / 4194304)) = (FP.fin false (8388611 / 4194304)) := by
  have h1 : FP.ofNat binary32 10168012 = (FP.fin false 10168012) :=
    ofNat_eval binary32 10168012 (by
      rw [rnd32_cert ((10168012 : ℕ) : ℚ) (23) (0) 10168012 (by norm_num) (by norm_num) (by norm_num) (by norm_num) (by norm_num) (by norm_num)]
      norm_num) (le_maxFinite32 (by norm_num))
  have h2 : f32 16777215 = (FP.fin false 16777215) :=
    round_of_nonneg binary32 (by norm_num) (by
      rw [rnd32_cert 16777215 (23) (0) 16777215 (by norm_num) (by norm_num) (by norm_num) (by norm_num) (by norm_num) (by norm_num)]
      norm_num) (le_maxFinite32 (by norm_num))
  have h3 : FP.div binary32 (FP.fin false 10168012) (FP.fin false 16777215) = (FP.fin false (10168013 / 16777216)) :=
    div_eval binary32 (by norm_num) (by norm_num) (by
      rw [rnd32_cert (10168012 / 16777215) (-1) (-24) 10168013 (by norm_num) (by norm_num) (by norm_num) (by norm_num) (by norm_num) (by norm_num)]
      norm_num) (le_maxFinite32 (by norm_num))
  have h4 : FP.mul binary32 (FP.fin false (10168013 / 16777216)) (FP.fin false (13841203 / 4194304)) = (FP.fin false (8388611 / 4194304)) :=
    mul_eval binary32 (by norm_num) (by norm_num) (by
      rw [rnd32_cert ((10168013 / 16777216) * (13841203 / 4194304)) (1) (-22) 8388611 (by norm_num) (by norm_num) (by norm_num) (by norm_num) (by norm_num) (by norm_num)]
      norm_num) (le_maxFinite32 (by norm_num))
  unfold ADS1246_ConvertToVoltage_f32
  rw [h1, h2, h3, h4]

theorem convert_10168013 :
    ADS1246_ConvertToVoltage_f32 10168013 (FP.fin false (13841203 / 4194304)) = (FP.fin false (8388611 / 4194304)) := by
  have h1 : FP.ofNat binary32 10168013 = (FP.fin false 10168013) :=
    ofNat_eval binary32 10168013 (by
      rw [rnd32_cert ((10168013 : ℕ) : ℚ) (23) (0) 10168013 (by norm_num) (by norm_num) (by norm_num) (by norm_num) (by norm_num) (by norm_num)]
      norm_num) (le_maxFinite32 (by norm_num))
  have h2 : f32 16777215 = (FP.fin false 16777215) :=
    round_of_nonneg binary32 (by norm_num) (by
      rw [rnd32_cert 16777215 (23) (0) 16777215 (by norm_num) (by norm_num) (by norm_num) (by norm_num) (by norm_num) (by norm_num)]
      norm_num) (le_maxFinite32 (by norm_num))
  have h3 : FP.div binary32 (FP.fin false 10168013) (FP.fin false 16777215) = (FP.fin false (5084007 / 8388608)) :=
    div_eval binary32 (by norm_num) (by norm_num) (by
      rw [rnd32_cert (10168013 / 16777215) (-1) (-24) 10168014 (by norm_num) (by norm_num) (by norm_num) (by norm_num) (by norm_num) (by norm_num)]
      norm_num) (le_maxFinite32 (by norm_num))
  have h4 : FP.mul binary32 (FP.fin false (5084007 / 8388608)) (FP.fin false (13841203 / 4194304)) = (FP.fin false (8388611 / 4194304)) :=
    mul_eval binary32 (by norm_num) (by norm_num) (by
      rw [rnd32_cert ((5084007 / 8388608) * (13841203 / 4194304)) (1) (-22) 8388611 (by norm_num) (by norm_num) (by norm_num) (by norm_num) (by norm_num) (by norm_num)]
      norm_num) (le_maxFinite32 (by norm_num))
  unfold ADS1246_ConvertToVoltage_f32
  rw [h1, h2, h3, h4]

/-! ## C5: sample to voltage in binary32 -/

theorem binary32_prec_pos : 1 ≤ binary32.prec := by decide

theorem binary64_prec_pos : 1 ≤ binary64.prec := by decide

theorem convert_f32_formula (raw : Nat) (vref : ℚ) (hraw : raw ≤ 2 ^ 24 - 1)
    (hrep : Rep binary32 vref) :
    ADS1246_ConvertToVoltage_f32 raw (FP.fin false vref)
        = FP.fin false
            (rnd binary32 (rnd binary32 (rnd binary32 (raw : ℚ) / 16777215) * vref))
      ∧ rnd binary32 (rnd binary32 (rnd binary32 (raw : ℚ) / 16777215) * vref) ≤ vref
      ∧ rnd binary32 (rnd binary32 (raw : ℚ) / 16777215) ≤ 1 := by
  obtain ⟨hv0, hvmax, hvrep⟩ := hrep
  have hr0 : (0 : ℚ) ≤ (raw : ℚ) := Nat.cast_nonneg raw
  have hr1 : (raw : ℚ) ≤ 16777215 := by exact_mod_cast hraw
  have hA0 : 0 ≤ rnd binary32 (raw : ℚ) := rnd_nonneg _ hr0
  have hA1 : rnd binary32 (raw : ℚ) ≤ 16777215 :=
    le_trans (rnd_mono _ binary32_prec_pos hr0 hr1) (le_of_eq rnd32_fullscale)
  have hq0 : 0 ≤ rnd binary32 (raw : ℚ) / 16777215 := div_nonneg hA0 (by norm_num)
  have hq1 : rnd binary32 (raw : ℚ) / 16777215 ≤ 1 := by
    rw [div_le_one (by norm_num)]; exact hA1
  have hB0 : 0 ≤ rnd binary32 (rnd binary32 (raw : ℚ) / 16777215) := rnd_nonneg _ hq0
  have hB1 : rnd binary32 (rnd binary32 (raw : ℚ) / 16777215) ≤ 1 :=
    le_trans (rnd_mono _ binary32_prec_pos hq0 hq1) (le_of_eq rnd32_one)
  have hp0 : 0 ≤ rnd binary32 (rnd binary32 (raw : ℚ) / 16777215) * vref :=
    mul_nonneg hB0 hv0
  have hp1 : rnd binary32 (rnd binary32 (raw : ℚ) / 16777215) * vref ≤ vref := by
    calc rnd binary32 (rnd binary32 (raw : ℚ) / 16777215) * vref ≤ 1 * vref :=
          mul_le_mul_of_nonneg_right hB1 hv0
      _ = vref := one_mul vref
  have hC1 : rnd binary32 (rnd binary32 (rnd binary32 (raw : ℚ) / 16777215) * vref) ≤ vref :=
    le_trans (rnd_mono _ binary32_prec_pos hp0 hp1) (le_of_eq hvrep)
  refine ⟨?_, hC1, hB1⟩
  unfold ADS1246_ConvertToVoltage_f32
  rw [ofNat_eval binary32 raw rfl (le_maxFinite32 (le_trans hA1 (by norm_num))),
    fullscale_f32_value,
    div_eval binary32 hA0 (by norm_num) rfl (le_maxFinite32 (le_trans hB1 (by norm_num))),
    mul_eval binary32 hB0 hv0 rfl (le_trans hC1 hvmax)]

theorem convert_f32_mono (raw1 raw2 : Nat) (vref : ℚ) (h12 : raw1 ≤ raw2) (hv : 0 ≤ vref) :
    rnd binary32 (rnd binary32 (rnd binary32 (raw1 : ℚ) / 16777215) * vref)
      ≤ rnd binary32 (rnd binary32 (rnd binary32 (raw2 : ℚ) / 16777215) * vref) := by
  have hr0 : (0 : ℚ) ≤ (raw1 : ℚ) := Nat.cast_nonneg raw1
  have hr : (raw1 : ℚ) ≤ (raw2 : ℚ) := by exact_mod_cast h12
  have hA := rnd_mono binary32 binary32_prec_pos hr0 hr
  have hA0 : 0 ≤ rnd binary32 (raw1 : ℚ) := rnd_nonneg _ hr0
  have hq : rnd binary32 (raw1 : ℚ) / 16777215 ≤ rnd binary32 (raw2 : ℚ) / 16777215 :=
    div_le_div_of_nonneg_right hA (by norm_num)
  have hq0 : 0 ≤ rnd binary32 (raw1 : ℚ) / 16777215 := div_nonneg hA0 (by norm_num)
  have hB := rnd_mono binary32 binary32_prec_pos hq0 hq
  have hB0 : 0 ≤ rnd binary32 (rnd binary32 (raw1 : ℚ) / 16777215) := rnd_nonneg _ hq0
  exact rnd_mono binary32 binary32_prec_pos (mul_nonneg hB0 hv)
    (mul_le_mul_of_nonneg_right hB hv)

/-- C5, as stated, fails on the binary32 code. At the reference `main` passes
(`3.3` converted to `float`) the samples 10168012 and 10168013 give the same
voltage, so a larger `raw` does not always give a larger result. -/
theorem convertToVoltage_f32_not_strict :
    ADS1246_ConvertToVoltage_f32 10168012 (FP.cast binary32 (f64 (33 / 10)))
        = ADS1246_ConvertToVoltage_f32 10168013 (FP.cast binary32 (f64 (33 / 10)))
      ∧ ¬ ((ADS1246_ConvertToVoltage_f32 10168012 (FP.cast binary32 (f64 (33 / 10)))).val
            < (ADS1246_ConvertToVoltage_f32 10168013 (FP.cast binary32 (f64 (33 / 10)))).val) := by
  rw [supply_cast_value, convert_10168012, convert_10168013]
  exact ⟨rfl, lt_irrefl _⟩

/-- C5, amended. In binary32 arithmetic, for every finite positive `float`
reference `vref`: `ADS1246_ConvertToVoltage raw vref` is a finite value in
`[0, vref]` for every `raw` in `[0, 2^24 - 1]`, is non-decreasing in `raw`
(`raw1 ≤ raw2` gives a result that is not larger), is `+0` at `raw = 0` and
is exactly `vref` at `raw = 2^24 - 1`. -/
theorem convertToVoltage_f32_range_mono (vref : ℚ) (hrep : Rep binary32 vref)
    (hv : 0 < vref) :
    (∀ raw : Nat, raw ≤ 2 ^ 24 - 1 →
        ∃ v : ℚ, ADS1246_ConvertToVoltage_f32 raw (FP.fin false vref) = FP.fin false v
          ∧ 0 ≤ v ∧ v ≤ vref)
      ∧ (∀ raw1 raw2 : Nat, raw1 ≤ raw2 → raw2 ≤ 2 ^ 24 - 1 →
          (ADS1246_ConvertToVoltage_f32 raw1 (FP.fin false vref)).val
            ≤ (ADS1246_ConvertToVoltage_f32 raw2 (FP.fin false vref)).val)
      ∧ ADS1246_ConvertToVoltage_f32 0 (FP.fin false vref) = FP.fin false 0
      ∧ ADS1246_ConvertToVoltage_f32 (2 ^ 24 - 1) (FP.fin false vref) = FP.fin false vref := by
  refine ⟨?_, ?_, ?_, ?_⟩
  · intro raw hraw
    obtain ⟨hf, hle, _⟩ := convert_f32_formula raw vref hraw hrep
    refine ⟨_, hf, ?_, hle⟩
    exact rnd_nonneg _ (mul_nonneg (rnd_nonneg _ (div_nonneg (rnd_nonneg _
      (Nat.cast_nonneg raw)) (by norm_num))) hv.le)
  · intro raw1 raw2 h12 h2
    rw [(convert_f32_formula raw1 vref (le_trans h12 h2) hrep).1,
      (convert_f32_formula raw2 vref h2 hrep).1]
    simp only [FP.val, Bool.false_eq_true, if_false]
    exact convert_f32_mono raw1 raw2 vref h12 hv.le
  · rw [(convert_f32_formula 0 vref (by norm_num) hrep).1]
    simp [rnd_zero]
  · rw [(convert_f32_formula (2 ^ 24 - 1) vref le_rfl hrep).1]
    have e : (((2 ^ 24 - 1 : ℕ)) : ℚ) = 16777215 := by norm_num
    rw [e, rnd32_fullscale]
    have e2 : (16777215 : ℚ) / 16777215 = 1 := by norm_num
    rw [e2, rnd32_one, one_mul, hrep.2.2]

theorem supply_rep : Rep binary32 (13841203 / 4194304) := by
  refine ⟨by norm_num, le_maxFinite32 (by norm_num), ?_⟩
  rw [rnd32_cert (13841203 / 4194304) 1 (-22) 13841203 (by norm_num) (by norm_num)
    (by norm_num) (by norm_num) (by norm_num) (by norm_num)]
  norm_num

theorem convertToVoltage_f32_range_mono_witness :
    (∀ raw : Nat, raw ≤ 2 ^ 24 - 1 →
        ∃ v : ℚ, ADS1246_ConvertToVoltage_f32 raw (FP.fin false (13841203 / 4194304))
            = FP.fin false v
          ∧ 0 ≤ v ∧ v ≤ 13841203 / 4194304)
      ∧ (∀ raw1 raw2 : Nat, raw1 ≤ raw2 → raw2 ≤ 2 ^ 24 - 1 →
          (ADS1246_ConvertToVoltage_f32 raw1 (FP.fin false (13841203 / 4194304))).val
            ≤ (ADS1246_ConvertToVoltage_f32 raw2 (FP.fin false (13841203 / 4194304))).val)
      ∧ ADS1246_ConvertToVoltage_f32 0 (FP.fin false (13841203 / 4194304)) = FP.fin false 0
      ∧ ADS1246_ConvertToVoltage_f32 (2 ^ 24 - 1) (FP.fin false (13841203 / 4194304))
          = FP.fin false (13841203 / 4194304) :=
  convertToVoltage_f32_range_mono (13841203 / 4194304) supply_rep (by norm_num)

/-! ## C7: voltage to resistance in IEEE arithmetic -/

theorem rnd64_four : rnd binary64 4 = 4 := by
  rw [rnd64_cert 4 (2) (-50) 4503599627370496 (by norm_num) (by norm_num) (by norm_num) (by norm_num) (by norm_num) (by norm_num)]
  norm_num

theorem rnd32_four : rnd binary32 4 = 4 := by
  rw [rnd32_cert 4 (2) (-21) 8388608 (by norm_num) (by norm_num) (by norm_num) (by norm_num) (by norm_num) (by norm_num)]
  norm_num

theorem rnd64_40000 : rnd binary64 (10000 * 4) = 40000 := by
  rw [rnd64_cert (10000 * 4) (15) (-37) 5497558138880000 (by norm_num) (by norm_num) (by norm_num) (by norm_num) (by norm_num) (by norm_num)]
  norm_num

theorem rnd32_quantum22 : rnd binary32 (1 / 4194304) = (1 / 4194304) := by
  rw [rnd32_cert (1 / 4194304) (-22) (-45) 8388608 (by norm_num) (by norm_num) (by norm_num) (by norm_num) (by norm_num) (by norm_num)]
  norm_num

theorem rnd64_quantum22 : rnd binary64 (1 / 4194304) = (1 / 4194304) := by
  rw [rnd64_cert (1 / 4194304) (-22) (-74) 4503599627370496 (by norm_num) (by norm_num) (by norm_num) (by norm_num) (by norm_num) (by norm_num)]
  norm_num

theorem rnd64_ceiling : rnd binary64 (40000 / (1 / 4194304)) = 167772160000 := by
  rw [rnd64_cert (40000 / (1 / 4194304)) (37) (-15) 5497558138880000 (by norm_num) (by norm_num) (by norm_num) (by norm_num) (by norm_num) (by norm_num)]
  norm_num

theorem rnd32_ceiling : rnd binary32 167772160000 = 167772160000 := by
  rw [rnd32_cert 167772160000 (37) (14) 10240000 (by norm_num) (by norm_num) (by norm_num) (by norm_num) (by norm_num) (by norm_num)]
  norm_num

theorem calculate_resistance_f32_zero :
    calculate_resistance_f32 (FP.fin false 0) = (FP.fin false 0) := by
  have h1 : f64 10000 = (FP.fin false 10000) :=
    round_of_nonneg binary64 (by norm_num) (by
      rw [rnd64_cert 10000 (13) (-39) 5497558138880000 (by norm_num) (by norm_num) (by norm_num) (by norm_num) (by norm_num) (by norm_num)]
      norm_num) (le_maxFinite64 (by norm_num))
  have h2 : f32 (33 / 10) = (FP.fin false (13841203 / 4194304)) :=
    round_of_nonneg binary32 (by norm_num) (by
      rw [rnd32_cert (33 / 10) (1) (-22) 13841203 (by norm_num) (by norm_num) (by norm_num) (by norm_num) (by norm_num) (by norm_num)]
      norm_num) (le_maxFinite32 (by norm_num))
  have h3 : FP.cast binary64 (FP.fin false 0) = (FP.fin false 0) :=
    cast_eval binary64 (by norm_num) (by
      rw [show (0 : ℚ) = 0 by norm_num]
      exact rnd_zero _) (le_maxFinite64 (by norm_num))
  have h4 : FP.mul binary64 (FP.fin false 10000) (FP.fin false 0) = (FP.fin false 0) :=
    mul_eval binary64 (by norm_num) (by norm_num) (by
      rw [show ((10000 * 0) : ℚ) = 0 by norm_num]
      exact rnd_zero _) (le_maxFinite64 (by norm_num))
  have h5 : FP.sub binary32 (FP.fin false (13841203 / 4194304)) (FP.fin false 0) = (FP.fin false (13841203 / 4194304)) :=
    sub_eval binary32 (by norm_num) (by
      rw [rnd32_cert ((13841203 / 4194304) - 0) (1) (-22) 13841203 (by norm_num) (by norm_num) (by norm_num) (by norm_num) (by norm_num) (by norm_num)]
      norm_num) (le_maxFinite32 (by norm_num))
  have h6 : FP.cast binary64 (FP.fin false (13841203 / 4194304)) = (FP.fin false (13841203 / 4194304)) :=
    cast_eval binary64 (by norm_num) (by
      rw [rnd64_cert (13841203 / 4194304) (1) (-51) 7430939277787136 (by norm_num) (by norm_num) (by norm_num) (by norm_num) (by norm_num) (by norm_num)]
      norm_num) (le_maxFinite64 (by norm_num))
  have h7 : FP.div binary64 (FP.fin false 0) (FP.fin false (13841203 / 4194304)) = (FP.fin false 0) :=
    div_eval binary64 (by norm_num) (by norm_num) (by
      rw [show ((0 / (13841203 / 4194304)) : ℚ) = 0 by norm_num]
      exact rnd_zero _) (le_maxFinite64 (by norm_num))
  have h8 : FP.cast binary32 (FP.fin false 0) = (FP.fin false 0) :=
    cast_eval binary32 (by norm_num) (by
      rw [show (0 : ℚ) = 0 by norm_num]
      exact rnd_zero _) (le_maxFinite32 (by norm_num))
  unfold calculate_resistance_f32 divider_denominator_f32
  rw [h1, h2, h3, h4, h5, h6, h7, h8]

theorem calculate_resistance_f32_supply :
    calculate_resistance_f32 (FP.fin false (13841203 / 4194304)) = FP.inf false := by
  have h1 : f64 10000 = (FP.fin false 10000) :=
    round_of_nonneg binary64 (by norm_num) (by
      rw [rnd64_cert 10000 (13) (-39) 5497558138880000 (by norm_num) (by norm_num) (by norm_num) (by norm_num) (by norm_num) (by norm_num)]
      norm_num) (le_maxFinite64 (by norm_num))
  have h2 : f32 (33 / 10) = (FP.fin false (13841203 / 4194304)) :=
    round_of_nonneg binary32 (by norm_num) (by
      rw [rnd32_cert (33 / 10) (1) (-22) 13841203 (by norm_num) (by norm_num) (by norm_num) (by norm_num) (by norm_num) (by norm_num)]
      norm_num) (le_maxFinite32 (by norm_num))
  have h3 : FP.cast binary64 (FP.fin false (13841203 / 4194304)) = (FP.fin false (13841203 / 4194304)) :=
    cast_eval binary64 (by norm_num) (by
      rw [rnd64_cert (13841203 / 4194304) (1) (-51) 7430939277787136 (by norm_num) (by norm_num) (by norm_num) (by norm_num) (by norm_num) (by norm_num)]
      norm_num) (le_maxFinite64 (by norm_num))
  have h4 : FP.mul binary64 (FP.fin false 10000) (FP.fin false (13841203 / 4194304)) = (FP.fin false (8650751875 / 262144)) :=
    mul_eval binary64 (by norm_num) (by norm_num) (by
      rw [rnd64_cert (10000 * (13841203 / 4194304)) (15) (-37) 4535485399040000 (by norm_num) (by norm_num) (by norm_num) (by norm_num) (by norm_num) (by norm_num)]
      norm_num) (le_maxFinite64 (by norm_num))
  have h5 : FP.sub binary32 (FP.fin false (13841203 / 4194304)) (FP.fin false (13841203 / 4194304)) = (FP.fin false 0) :=
    sub_self_eval binary32 (13841203 / 4194304)
  have h6 : FP.cast binary64 (FP.fin false 0) = (FP.fin false 0) :=
    cast_eval binary64 (by norm_num) (by
      rw [show (0 : ℚ) = 0 by norm_num]
      exact rnd_zero _) (le_maxFinite64 (by norm_num))
  have h7 : FP.div binary64 (FP.fin false (8650751875 / 262144)) (FP.fin false 0) = FP.inf false :=
    div_zero_eval binary64 false (by norm_num)
  have h8 : FP.cast binary32 (FP.inf false) = FP.inf false :=
    rfl
  unfold calculate_resistance_f32 divider_denominator_f32
  rw [h1, h2, h3, h4, h5, h6, h7, h8]

theorem calculate_resistance_f32_near_tenth_lo :
    calculate_resistance_f32 (FP.fin false (6710889 / 67108864)) = (FP.fin false (10240005 / 32768)) := by
  have h1 : f64 10000 = (FP.fin false 10000) :=
    round_of_nonneg binary64 (by norm_num) (by
      rw [rnd64_cert 10000 (13) (-39) 5497558138880000 (by norm_num) (by norm_num) (by norm_num) (by norm_num) (by norm_num) (by norm_num)]
      norm_num) (le_maxFinite64 (by norm_num))
  have h2 : f32 (33 / 10) = (FP.fin false (13841203 / 4194304)) :=
    round_of_nonneg binary32 (by norm_num) (by
      rw [rnd32_cert (33 / 10) (1) (-22) 13841203 (by norm_num) (by norm_num) (by norm_num) (by norm_num) (by norm_num) (by norm_num)]
      norm_num) (le_maxFinite32 (by norm_num))
  have h3 : FP.cast binary64 (FP.fin false (6710889 / 67108864)) = (FP.fin false (6710889 / 67108864)) :=
    cast_eval binary64 (by norm_num) (by
      rw [rnd64_cert (6710889 / 67108864) (-4) (-56) 7205762195521536 (by norm_num) (by norm_num) (by norm_num) (by norm_num) (by norm_num) (by norm_num)]
      norm_num) (le_maxFinite64 (by norm_num))
  have h4 : FP.mul binary64 (FP.fin false 10000) (FP.fin false (6710889 / 67108864)) = (FP.fin false (4194305625 / 4194304)) :=
    mul_eval binary64 (by norm_num) (by norm_num) (by
      rw [rnd64_cert (10000 * (6710889 / 67108864)) (9) (-43) 8796096430080000 (by norm_num) (by norm_num) (by norm_num) (by norm_num) (by norm_num) (by norm_num)]
      norm_num) (le_maxFinite64 (by norm_num))
  have h5 : FP.sub binary32 (FP.fin false (13841203 / 4194304)) (FP.fin false (6710889 / 67108864)) = (FP.fin false (3355443 / 1048576)) :=
    sub_eval binary32 (by norm_num) (by
      rw [rnd32_cert ((13841203 / 4194304) - (6710889 / 67108864)) (1) (-22) 13421772 (by norm_num) (by norm_num) (by norm_num) (by norm_num) (by norm_num) (by norm_num)]
      norm_num) (le_maxFinite32 (by norm_num))
  have h6 : FP.cast binary64 (FP.fin false (3355443 / 1048576)) = (FP.fin false (3355443 / 1048576)) :=
    cast_eval binary64 (by norm_num) (by
      rw [rnd64_cert (3355443 / 1048576) (1) (-51) 7205758974296064 (by norm_num) (by norm_num) (by norm_num) (by norm_num) (by norm_num) (by norm_num)]
      norm_num) (le_maxFinite64 (by norm_num))
  have h7 : FP.div binary64 (FP.fin false (4194305625 / 4194304)) (FP.fin false (3355443 / 1048576)) = (FP.fin false (2748780298240073 / 8796093022208)) :=
    div_eval binary64 (by norm_num) (by norm_num) (by
      rw [rnd64_cert ((4194305625 / 4194304) / (3355443 / 1048576)) (8) (-44) 5497560596480146 (by norm_num) (by norm_num) (by norm_num) (by norm_num) (by norm_num) (by norm_num)]
      norm_num) (le_maxFinite64 (by norm_num))
  have h8 : FP.cast binary32 (FP.fin false (2748780298240073 / 8796093022208)) = (FP.fin false (10240005 / 32768)) :=
    cast_eval binary32 (by norm_num) (by
      rw [rnd32_cert (2748780298240073 / 8796093022208) (8) (-15) 10240005 (by norm_num) (by norm_num) (by norm_num) (by norm_num) (by norm_num) (by norm_num)]
      norm_num) (le_maxFinite32 (by norm_num))
  unfold calculate_resistance_f32 divider_denominator_f32
  rw [h1, h2, h3, h4, h5, h6, h7, h8]

theorem calculate_resistance_f32_near_tenth_hi :
    calculate_resistance_f32 (FP.fin false (13421779 / 134217728)) = (FP.fin false (10240005 / 32768)) := by
  have h1 : f64 10000 = (FP.fin false 10000) :=
    round_of_nonneg binary64 (by norm_num) (by
      rw [rnd64_cert 10000 (13) (-39) 5497558138880000 (by norm_num) (by norm_num) (by norm_num) (by norm_num) (by norm_num) (by norm_num)]
      norm_num) (le_maxFinite64 (by norm_num))
  have h2 : f32 (33 / 10) = (FP.fin false (13841203 / 4194304)) :=
    round_of_nonneg binary32 (by norm_num) (by
      rw [rnd32_cert (33 / 10) (1) (-22) 13841203 (by norm_num) (by norm_num) (by norm_num) (by norm_num) (by norm_num) (by norm_num)]
      norm_num) (le_maxFinite32 (by norm_num))
  have h3 : FP.cast binary64 (FP.fin false (13421779 / 134217728)) = (FP.fin false (13421779 / 134217728)) :=
    cast_eval binary64 (by norm_num) (by
      rw [rnd64_cert (13421779 / 134217728) (-4) (-56) 7205762732392448 (by norm_num) (by norm_num) (by norm_num) (by norm_num) (by norm_num) (by norm_num)]
      norm_num) (le_maxFinite64 (by norm_num))
  have h4 : FP.mul binary64 (FP.fin false 10000) (FP.fin false (13421779 / 134217728)) = (FP.fin false (8388611875 / 8388608)) :=
    mul_eval binary64 (by norm_num) (by norm_num) (by
      rw [rnd64_cert (10000 * (13421779 / 134217728)) (9) (-43) 8796097085440000 (by norm_num) (by norm_num) (by norm_num) (by norm_num) (by norm_num) (by norm_num)]
      norm_num) (le_maxFinite64 (by norm_num))
  have h5 : FP.sub binary32 (FP.fin false (13841203 / 4194304)) (FP.fin false (13421779 / 134217728)) = (FP.fin false (3355443 / 1048576)) :=
    sub_eval binary32 (by norm_num) (by
      rw [rnd32_cert ((13841203 / 4194304) - (13421779 / 134217728)) (1) (-22) 13421772 (by norm_num) (by norm_num) (by norm_num) (by norm_num) (by norm_num) (by norm_num)]
      norm_num) (le_maxFinite32 (by norm_num))
  have h6 : FP.cast binary64 (FP.fin false (3355443 / 1048576)) = (FP.fin false (3355443 / 1048576)) :=
    cast_eval binary64 (by norm_num) (by
      rw [rnd64_cert (3355443 / 1048576) (1) (-51) 7205758974296064 (by norm_num) (by norm_num) (by norm_num) (by norm_num) (by norm_num) (by norm_num)]
      norm_num) (le_maxFinite64 (by norm_num))
  have h7 : FP.div binary64 (FP.fin false (8388611875 / 8388608)) (FP.fin false (3355443 / 1048576)) = (FP.fin false (5497561006080171 / 17592186044416)) :=
    div_eval binary64 (by norm_num) (by norm_num) (by
      rw [rnd64_cert ((8388611875 / 8388608) / (3355443 / 1048576)) (8) (-44) 5497561006080171 (by norm_num) (by norm_num) (by norm_num) (by norm_num) (by norm_num) (by norm_num)]
      norm_num) (le_maxFinite64 (by norm_num))
  have h8 : FP.cast binary32 (FP.fin false (5497561006080171 / 17592186044416)) = (FP.fin false (10240005 / 32768)) :=
    cast_eval binary32 (by norm_num) (by
      rw [rnd32_cert (5497561006080171 / 17592186044416) (8) (-15) 10240005 (by norm_num) (by norm_num) (by norm_num) (by norm_num) (by norm_num) (by norm_num)]
      norm_num) (le_maxFinite32 (by norm_num))
  unfold calculate_resistance_f32 divider_denominator_f32
  rw [h1, h2, h3, h4, h5, h6, h7, h8]

theorem calculate_resistance_f32_negative_lo :
    calculate_resistance_f32 (FP.fin true (16358159 / 4194304)) = (FP.fin true (11093449 / 2048)) := by
  have h1 : f64 10000 = (FP.fin false 10000) :=
    round_of_nonneg binary64 (by norm_num) (by
      rw [rnd64_cert 10000 (13) (-39) 5497558138880000 (by norm_num) (by norm_num) (by norm_num) (by norm_num) (by norm_num) (by norm_num)]
      norm_num) (le_maxFinite64 (by norm_num))
  have h2 : f32 (33 / 10) = (FP.fin false (13841203 / 4194304)) :=
    round_of_nonneg binary32 (by norm_num) (by
      rw [rnd32_cert (33 / 10) (1) (-22) 13841203 (by norm_num) (by norm_num) (by norm_num) (by norm_num) (by norm_num) (by norm_num)]
      norm_num) (le_maxFinite32 (by norm_num))
  have h3 : FP.cast binary64 (FP.fin true (16358159 / 4194304)) = (FP.fin true (16358159 / 4194304)) :=
    cast_neg_eval binary64 (by norm_num) (by
      rw [rnd64_cert (16358159 / 4194304) (1) (-51) 8782219740971008 (by norm_num) (by norm_num) (by norm_num) (by norm_num) (by norm_num) (by norm_num)]
      norm_num) (le_maxFinite64 (by norm_num))
  have h4 : FP.mul binary64 (FP.fin false 10000) (FP.fin true (16358159 / 4194304)) = (FP.fin true (10223849375 / 262144)) :=
    mul_neg_eval binary64 (by norm_num) (by norm_num) (by
      rw [rnd64_cert (10000 * (16358159 / 4194304)) (15) (-37) 5360241541120000 (by norm_num) (by norm_num) (by norm_num) (by norm_num) (by norm_num) (by norm_num)]
      norm_num) (le_maxFinite64 (by norm_num))
  have h5 : FP.sub binary32 (FP.fin false (13841203 / 4194304)) (FP.fin true (16358159 / 4194304)) = (FP.fin false (15099681 / 2097152)) :=
    sub_add_eval binary32 (by norm_num) (by norm_num) (by
      rw [rnd32_cert ((13841203 / 4194304) + (16358159 / 4194304)) (2) (-21) 15099681 (by norm_num) (by norm_num) (by norm_num) (by norm_num) (by norm_num) (by norm_num)]
      norm_num) (le_maxFinite32 (by norm_num))
  have h6 : FP.cast binary64 (FP.fin false (15099681 / 2097152)) = (FP.fin false (15099681 / 2097152)) :=
    cast_eval binary64 (by norm_num) (by
      rw [rnd64_cert (15099681 / 2097152) (2) (-50) 8106579509379072 (by norm_num) (by norm_num) (by norm_num) (by norm_num) (by norm_num) (by norm_num)]
      norm_num) (le_maxFinite64 (by norm_num))
  have h7 : FP.div binary64 (FP.fin true (10223849375 / 262144)) (FP.fin false (15099681 / 2097152)) = (FP.fin true (5955750333238373 / 1099511627776)) :=
    (div_neg_eval binary64 (by norm_num) (by norm_num) (by
      rw [rnd64_cert ((10223849375 / 262144) / (15099681 / 2097152)) (12) (-40) 5955750333238373 (by norm_num) (by norm_num) (by norm_num) (by norm_num) (by norm_num) (by norm_num)]
      norm_num) (le_maxFinite64 (by norm_num))).2
  have h8 : FP.cast binary32 (FP.fin true (5955750333238373 / 1099511627776)) = (FP.fin true (11093449 / 2048)) :=
    cast_neg_eval binary32 (by norm_num) (by
      rw [rnd32_cert (5955750333238373 / 1099511627776) (12) (-11) 11093449 (by norm_num) (by norm_num) (by norm_num) (by norm_num) (by norm_num) (by norm_num)]
      norm_num) (le_maxFinite32 (by norm_num))
  unfold calculate_resistance_f32 divider_denominator_f32
  rw [h1, h2, h3, h4, h5, h6, h7, h8]

theorem calculate_resistance_f32_negative_hi :
    calculate_resistance_f32 (FP.fin true (8179079 / 2097152)) = (FP.fin true (5546725 / 1024)) := by
  have h1 : f64 10000 = (FP.fin false 10000) :=
    round_of_nonneg binary64 (by norm_num) (by
      rw [rnd64_cert 10000 (13) (-39) 5497558138880000 (by norm_num) (by norm_num) (by norm_num) (by norm_num) (by norm_num) (by norm_num)]
      norm_num) (le_maxFinite64 (by norm_num))
  have h2 : f32 (33 / 10) = (FP.fin false (13841203 / 4194304)) :=
    round_of_nonneg binary32 (by norm_num) (by
      rw [rnd32_cert (33 / 10) (1) (-22) 13841203 (by norm_num) (by norm_num) (by norm_num) (by norm_num) (by norm_num) (by norm_num)]
      norm_num) (le_maxFinite32 (by norm_num))
  have h3 : FP.cast binary64 (FP.fin true (8179079 / 2097152)) = (FP.fin true (8179079 / 2097152)) :=
    cast_neg_eval binary64 (by norm_num) (by
      rw [rnd64_cert (8179079 / 2097152) (1) (-51) 8782219204100096 (by norm_num) (by norm_num) (by norm_num) (by norm_num) (by norm_num) (by norm_num)]
      norm_num) (le_maxFinite64 (by norm_num))
  have h4 : FP.mul binary64 (FP.fin false 10000) (FP.fin true (8179079 / 2097152)) = (FP.fin true (5111924375 / 131072)) :=
    mul_neg_eval binary64 (by norm_num) (by norm_num) (by
      rw [rnd64_cert (10000 * (8179079 / 2097152)) (15) (-37) 5360241213440000 (by norm_num) (by norm_num) (by norm_num) (by norm_num) (by norm_num) (by norm_num)]
      norm_num) (le_maxFinite64 (by norm_num))
  have h5 : FP.sub binary32 (FP.fin false (13841203 / 4194304)) (FP.fin true (8179079 / 2097152)) = (FP.fin false (471865 / 65536)) :=
    sub_add_eval binary32 (by norm_num) (by norm_num) (by
      rw [rnd32_cert_tie ((13841203 / 4194304) + (8179079 / 2097152)) (2) (-21) 15099680 15099680 (by norm_num) (by norm_num) (by norm_num) (by norm_num) (by norm_num) (by decide) (by decide)]
      norm_num) (le_maxFinite32 (by norm_num))
  have h6 : FP.cast binary64 (FP.fin false (471865 / 65536)) = (FP.fin false (471865 / 65536)) :=
    cast_eval binary64 (by norm_num) (by
      rw [rnd64_cert (471865 / 65536) (2) (-50) 8106578972508160 (by norm_num) (by norm_num) (by norm_num) (by norm_num) (by norm_num) (by norm_num)]
      norm_num) (le_maxFinite64 (by norm_num))
  have h7 : FP.div binary64 (FP.fin true (5111924375 / 131072)) (FP.fin false (471865 / 65536)) = (FP.fin true (2977875181791435 / 549755813888)) :=
    (div_neg_eval binary64 (by norm_num) (by norm_num) (by
      rw [rnd64_cert ((5111924375 / 131072) / (471865 / 65536)) (12) (-40) 5955750363582870 (by norm_num) (by norm_num) (by norm_num) (by norm_num) (by norm_num) (by norm_num)]
      norm_num) (le_maxFinite64 (by norm_num))).2
  have h8 : FP.cast binary32 (FP.fin true (2977875181791435 / 549755813888)) = (FP.fin true (5546725 / 1024)) :=
    cast_neg_eval binary32 (by norm_num) (by
      rw [rnd32_cert (2977875181791435 / 549755813888) (12) (-11) 11093450 (by norm_num) (by norm_num) (by norm_num) (by norm_num) (by norm_num) (by norm_num)]
      norm_num) (le_maxFinite32 (by norm_num))
  unfold calculate_resistance_f32 divider_denominator_f32
  rw [h1, h2, h3, h4, h5, h6, h7, h8]

theorem supply_gap (a : ℚ) (ha : Rep binary32 a) (hac : a < 13841203 / 4194304) :
    1 / 4194304 ≤ 13841203 / 4194304 - a := by
  by_cases h3 : a ≤ 3
  · linarith
  · push_neg at h3
    obtain ⟨m, hm⟩ := grid_of_rep binary32 1 ha.2.2 (by decide)
      (by norm_num; linarith) (by norm_num; linarith)
    have hm2 : a = (m : ℚ) / 4194304 := by
      rw [hm]; norm_num [binary32]; ring
    have hlt : (m : ℚ) < 13841203 := by
      rw [hm2] at hac
      have := (div_lt_div_iff_of_pos_right (by norm_num : (0 : ℚ) < 4194304)).mp hac
      exact this
    have hlt2 : m < 13841203 := by exact_mod_cast hlt
    have hle : (m : ℚ) ≤ 13841202 := by exact_mod_cast (by omega : m ≤ 13841202)
    rw [hm2]
    linarith

theorem calculate_resistance_f32_formula (a : ℚ) (ha0 : 0 ≤ a)
    (hgap : 1 / 4194304 ≤ 13841203 / 4194304 - a) :
    calculate_resistance_f32 (FP.fin false a)
        = FP.fin false (rnd binary32 (rnd binary64
            (rnd binary64 (10000 * rnd binary64 a)
              / rnd binary64 (rnd binary32 (13841203 / 4194304 - a)))))
      ∧ 0 ≤ rnd binary64 (10000 * rnd binary64 a)
      ∧ 1 / 4194304 ≤ rnd binary64 (rnd binary32 (13841203 / 4194304 - a)) := by
  have hac : a < 13841203 / 4194304 := by linarith
  have h64_0 : 0 ≤ rnd binary64 a := rnd_nonneg _ ha0
  have h64_1 : rnd binary64 a ≤ 4 :=
    le_trans (rnd_mono _ binary64_prec_pos ha0 (by linarith)) (le_of_eq rnd64_four)
  have hN0 : 0 ≤ rnd binary64 (10000 * rnd binary64 a) :=
    rnd_nonneg _ (mul_nonneg (by norm_num) h64_0)
  have hN1 : rnd binary64 (10000 * rnd binary64 a) ≤ 40000 :=
    le_trans (rnd_mono _ binary64_prec_pos (mul_nonneg (by norm_num) h64_0)
      (mul_le_mul_of_nonneg_left h64_1 (by norm_num))) (le_of_eq rnd64_40000)
  have hd0 : (0 : ℚ) ≤ 13841203 / 4194304 - a := by linarith
  have hD_lo : 1 / 4194304 ≤ rnd binary32 (13841203 / 4194304 - a) :=
    le_trans (le_of_eq rnd32_quantum22.symm)
      (rnd_mono _ binary32_prec_pos (by norm_num) hgap)
  have hD_hi : rnd binary32 (13841203 / 4194304 - a) ≤ 4 :=
    le_trans (rnd_mono _ binary32_prec_pos hd0 (by linarith)) (le_of_eq rnd32_four)
  have hD0 : (0 : ℚ) ≤ rnd binary32 (13841203 / 4194304 - a) := by linarith
  have hE_lo : 1 / 4194304 ≤ rnd binary64 (rnd binary32 (13841203 / 4194304 - a)) :=
    le_trans (le_of_eq rnd64_quantum22.symm)
      (rnd_mono _ binary64_prec_pos (by norm_num) hD_lo)
  have hE_hi : rnd binary64 (rnd binary32 (13841203 / 4194304 - a)) ≤ 4 :=
    le_trans (rnd_mono _ binary64_prec_pos hD0 hD_hi) (le_of_eq rnd64_four)
  have hE_pos : (0 : ℚ) < rnd binary64 (rnd binary32 (13841203 / 4194304 - a)) := by
    linarith
  have hq0 : 0 ≤ rnd binary64 (10000 * rnd binary64 a)
      / rnd binary64 (rnd binary32 (13841203 / 4194304 - a)) := div_nonneg hN0 hE_pos.le
  have hq1 : rnd binary64 (10000 * rnd binary64 a)
      / rnd binary64 (rnd binary32 (13841203 / 4194304 - a)) ≤ 40000 / (1 / 4194304) :=
    div_le_div₀ (by norm_num) hN1 (by norm_num) hE_lo
  have hQ0 : 0 ≤ rnd binary64 (rnd binary64 (10000 * rnd binary64 a)
      / rnd binary64 (rnd binary32 (13841203 / 4194304 - a))) := rnd_nonneg _ hq0
  have hQ1 : rnd binary64 (rnd binary64 (10000 * rnd binary64 a)
      / rnd binary64 (rnd binary32 (13841203 / 4194304 - a))) ≤ 167772160000 :=
    le_trans (rnd_mono _ binary64_prec_pos hq0 hq1) (le_of_eq rnd64_ceiling)
  have hR1 : rnd binary32 (rnd binary64 (rnd binary64 (10000 * rnd binary64 a)
      / rnd binary64 (rnd binary32 (13841203 / 4194304 - a)))) ≤ 167772160000 :=
    le_trans (rnd_mono _ binary32_prec_pos hQ0 hQ1) (le_of_eq rnd32_ceiling)
  refine ⟨?_, hN0, hE_lo⟩
  unfold calculate_resistance_f32 divider_denominator_f32
  rw [series_f64_value, supply_f32_value,
    cast_eval binary64 ha0 rfl (le_maxFinite64 (le_trans h64_1 (by norm_num))),
    mul_eval binary64 (by norm_num) h64_0 rfl (le_maxFinite64 (le_trans hN1 (by norm_num))),
    sub_eval binary32 hac rfl (le_maxFinite32 (le_trans hD_hi (by norm_num))),
    cast_eval binary64 hD0 rfl (le_maxFinite64 (le_trans hE_hi (by norm_num))),
    div_eval binary64 hN0 hE_pos rfl (le_maxFinite64 (le_trans hQ1 (by norm_num))),
    cast_eval binary32 hQ0 rfl (le_maxFinite32 (le_trans hR1 (by norm_num)))]

theorem calculate_resistance_f32_le (a b : ℚ) (ha0 : 0 ≤ a) (hab : a ≤ b)
    (hgapb : 1 / 4194304 ≤ 13841203 / 4194304 - b) :
    rnd binary32 (rnd binary64 (rnd binary64 (10000 * rnd binary64 a)
        / rnd binary64 (rnd binary32 (13841203 / 4194304 - a))))
      ≤ rnd binary32 (rnd binary64 (rnd binary64 (10000 * rnd binary64 b)
        / rnd binary64 (rnd binary32 (13841203 / 4194304 - b)))) := by
  obtain ⟨_, hNa, hEa⟩ := calculate_resistance_f32_formula a ha0 (by linarith)
  obtain ⟨_, hNb, hEb⟩ := calculate_resistance_f32_formula b (le_trans ha0 hab) hgapb
  have hN : rnd binary64 (10000 * rnd binary64 a) ≤ rnd binary64 (10000 * rnd binary64 b) :=
    rnd_mono _ binary64_prec_pos (mul_nonneg (by norm_num) (rnd_nonneg _ ha0))
      (mul_le_mul_of_nonneg_left (rnd_mono _ binary64_prec_pos ha0 hab) (by norm_num))
  have hD : rnd binary32 (13841203 / 4194304 - b) ≤ rnd binary32 (13841203 / 4194304 - a) :=
    rnd_mono _ binary32_prec_pos (by linarith) (by linarith)
  have hE : rnd binary64 (rnd binary32 (13841203 / 4194304 - b))
      ≤ rnd binary64 (rnd binary32 (13841203 / 4194304 - a)) :=
    rnd_mono _ binary64_prec_pos (rnd_nonneg _ (by linarith)) hD
  have hEb_pos : (0 : ℚ) < rnd binary64 (rnd binary32 (13841203 / 4194304 - b)) := by
    linarith
  have hEa_pos : (0 : ℚ) < rnd binary64 (rnd binary32 (13841203 / 4194304 - a)) := by
    linarith
  have hq : rnd binary64 (10000 * rnd binary64 a)
        / rnd binary64 (rnd binary32 (13841203 / 4194304 - a))
      ≤ rnd binary64 (10000 * rnd binary64 b)
        / rnd binary64 (rnd binary32 (13841203 / 4194304 - b)) :=
    div_le_div₀ hNb hN hEb_pos hE
  have hq0 : 0 ≤ rnd binary64 (10000 * rnd binary64 a)
      / rnd binary64 (rnd binary32 (13841203 / 4194304 - a)) := div_nonneg hNa hEa_pos.le
  exact rnd_mono _ binary32_prec_pos (rnd_nonneg _ hq0) (rnd_mono _ binary64_prec_pos hq0 hq)

/-- C7, as stated, fails on the IEEE code. The adjacent `float` voltages
`6710889 / 2^26 < 13421779 / 2^27` (just above 0.1 V) give the same
resistance, and for the negative voltages
`-16358159 / 2^22 < -8179079 / 2^21` the resistance decreases. -/
theorem calculate_resistance_f32_not_strict :
    ((6710889 / 67108864 : ℚ) < 13421779 / 134217728
        ∧ calculate_resistance_f32 (FP.fin false (6710889 / 67108864))
          = calculate_resistance_f32 (FP.fin false (13421779 / 134217728)))
      ∧ ((FP.fin true (16358159 / 4194304)).val < (FP.fin true (8179079 / 2097152)).val
        ∧ (calculate_resistance_f32 (FP.fin true (8179079 / 2097152))).val
          < (calculate_resistance_f32 (FP.fin true (16358159 / 4194304))).val) := by
  rw [calculate_resistance_f32_near_tenth_lo, calculate_resistance_f32_near_tenth_hi,
    calculate_resistance_f32_negative_lo, calculate_resistance_f32_negative_hi]
  simp only [FP.val, if_true]
  norm_num

/-- C7, amended. In IEEE arithmetic, for `float` voltages
`0 ≤ v1 ≤ v2 < 3.3f` (`3.3f = 13841203 / 2^22` is the supply constant of the
code): both resistances are finite and non-negative and
`calculate_resistance v1 ≤ calculate_resistance v2` (non-decreasing, not
strictly increasing); `calculate_resistance 0 = 0`; at `3.3f` itself the
result is `+∞`. -/
theorem calculate_resistance_f32_mono (v1 v2 : ℚ) (h1 : Rep binary32 v1)
    (h2 : Rep binary32 v2) (h12 : v1 ≤ v2) (h2c : v2 < 13841203 / 4194304) :
    (∃ r1 r2 : ℚ, calculate_resistance_f32 (FP.fin false v1) = FP.fin false r1
        ∧ calculate_resistance_f32 (FP.fin false v2) = FP.fin false r2
        ∧ 0 ≤ r1 ∧ r1 ≤ r2)
      ∧ calculate_resistance_f32 (FP.fin false 0) = FP.fin false 0
      ∧ calculate_resistance_f32 (FP.fin false (13841203 / 4194304)) = FP.inf false := by
  have hgap2 := supply_gap v2 h2 h2c
  have hgap1 := supply_gap v1 h1 (lt_of_le_of_lt h12 h2c)
  refine ⟨⟨_, _, (calculate_resistance_f32_formula v1 h1.1 hgap1).1,
    (calculate_resistance_f32_formula v2 h2.1 hgap2).1, ?_,
    calculate_resistance_f32_le v1 v2 h1.1 h12 hgap2⟩,
    calculate_resistance_f32_zero, calculate_resistance_f32_supply⟩
  obtain ⟨_, hN, hE⟩ := calculate_resistance_f32_formula v1 h1.1 hgap1
  exact rnd_nonneg _ (rnd_nonneg _ (div_nonneg hN (by linarith)))

theorem near_tenth_lo_rep : Rep binary32 (6710889 / 67108864) := by
  refine ⟨by norm_num, le_maxFinite32 (by norm_num), ?_⟩
  rw [rnd32_cert (6710889 / 67108864) (-4) (-27) 13421778 (by norm_num) (by norm_num)
    (by norm_num) (by norm_num) (by norm_num) (by norm_num)]
  norm_num

theorem near_tenth_hi_rep : Rep binary32 (13421779 / 134217728) := by
  refine ⟨by norm_num, le_maxFinite32 (by norm_num), ?_⟩
  rw [rnd32_cert (13421779 / 134217728) (-4) (-27) 13421779 (by norm_num) (by norm_num)
    (by norm_num) (by norm_num) (by norm_num) (by norm_num)]
  norm_num

theorem calculate_resistance_f32_mono_witness :
    (∃ r1 r2 : ℚ,
        calculate_resistance_f32 (FP.fin false (6710889 / 67108864)) = FP.fin false r1
        ∧ calculate_resistance_f32 (FP.fin false (13421779 / 134217728)) = FP.fin false r2
        ∧ 0 ≤ r1 ∧ r1 ≤ r2)
      ∧ calculate_resistance_f32 (FP.fin false 0) = FP.fin false 0
      ∧ calculate_resistance_f32 (FP.fin false (13841203 / 4194304)) = FP.inf false :=
  calculate_resistance_f32_mono (6710889 / 67108864) (13421779 / 134217728)
    near_tenth_lo_rep near_tenth_hi_rep (by norm_num) (by norm_num)

/-! ## C10: the pipeline of `main` in IEEE arithmetic -/

theorem rnd32_adjusted_max : rnd binary32 (13841203 / 4194304 * (11240735 / 8388608)) = (4636803 / 1048576) := by
  rw [rnd32_cert (13841203 / 4194304 * (11240735 / 8388608)) (2) (-21) 9273606 (by norm_num) (by norm_num) (by norm_num) (by norm_num) (by norm_num) (by norm_num)]
  norm_num

theorem rnd64_three : rnd binary64 3 = 3 := by
  rw [rnd64_cert 3 (1) (-51) 6755399441055744 (by norm_num) (by norm_num) (by norm_num) (by norm_num) (by norm_num) (by norm_num)]
  norm_num

theorem rnd64_five : rnd binary64 5 = 5 := by
  rw [rnd64_cert 5 (2) (-50) 5629499534213120 (by norm_num) (by norm_num) (by norm_num) (by norm_num) (by norm_num) (by norm_num)]
  norm_num

theorem rnd64_30000 : rnd binary64 (10000 * 3) = 30000 := by
  rw [rnd64_cert (10000 * 3) (14) (-38) 8246337208320000 (by norm_num) (by norm_num) (by norm_num) (by norm_num) (by norm_num) (by norm_num)]
  norm_num

theorem rnd64_50000 : rnd binary64 (10000 * 5) = 50000 := by
  rw [rnd64_cert (10000 * 5) (15) (-37) 6871947673600000 (by norm_num) (by norm_num) (by norm_num) (by norm_num) (by norm_num) (by norm_num)]
  norm_num

theorem rnd32_quantum21 : rnd binary32 (1 / 2097152) = (1 / 2097152) := by
  rw [rnd32_cert (1 / 2097152) (-21) (-44) 8388608 (by norm_num) (by norm_num) (by norm_num) (by norm_num) (by norm_num) (by norm_num)]
  norm_num

theorem rnd64_quantum21 : rnd binary64 (1 / 2097152) = (1 / 2097152) := by
  rw [rnd64_cert (1 / 2097152) (-21) (-73) 4503599627370496 (by norm_num) (by norm_num) (by norm_num) (by norm_num) (by norm_num) (by norm_num)]
  norm_num

theorem rnd32_two : rnd binary32 2 = 2 := by
  rw [rnd32_cert 2 (1) (-22) 8388608 (by norm_num) (by norm_num) (by norm_num) (by norm_num) (by norm_num) (by norm_num)]
  norm_num

theorem rnd64_two : rnd binary64 2 = 2 := by
  rw [rnd64_cert 2 (1) (-51) 4503599627370496 (by norm_num) (by norm_num) (by norm_num) (by norm_num) (by norm_num) (by norm_num)]
  norm_num

theorem rnd64_15000 : rnd binary64 (30000 / 2) = 15000 := by
  rw [rnd64_cert (30000 / 2) (13) (-39) 8246337208320000 (by norm_num) (by norm_num) (by norm_num) (by norm_num) (by norm_num) (by norm_num)]
  norm_num

theorem rnd64_floor_again : rnd binary64 15000 = 15000 := by
  rw [rnd64_cert 15000 (13) (-39) 8246337208320000 (by norm_num) (by norm_num) (by norm_num) (by norm_num) (by norm_num) (by norm_num)]
  norm_num

theorem rnd32_15000 : rnd binary32 15000 = 15000 := by
  rw [rnd32_cert 15000 (13) (-10) 15360000 (by norm_num) (by norm_num) (by norm_num) (by norm_num) (by norm_num) (by norm_num)]
  norm_num

theorem rnd64_top : rnd binary64 (50000 / (1 / 2097152)) = 104857600000 := by
  rw [rnd64_cert (50000 / (1 / 2097152)) (36) (-16) 6871947673600000 (by norm_num) (by norm_num) (by norm_num) (by norm_num) (by norm_num) (by norm_num)]
  norm_num

theorem rnd64_top_again : rnd binary64 104857600000 = 104857600000 := by
  rw [rnd64_cert 104857600000 (36) (-16) 6871947673600000 (by norm_num) (by norm_num) (by norm_num) (by norm_num) (by norm_num) (by norm_num)]
  norm_num

theorem rnd32_top : rnd binary32 104857600000 = 104857600000 := by
  rw [rnd32_cert 104857600000 (36) (13) 12800000 (by norm_num) (by norm_num) (by norm_num) (by norm_num) (by norm_num) (by norm_num)]
  norm_num

theorem rnd64_ratio_lo : rnd binary64 (15000 / 10000) = (3 / 2) := by
  rw [rnd64_cert (15000 / 10000) (0) (-52) 6755399441055744 (by norm_num) (by norm_num) (by norm_num) (by norm_num) (by norm_num) (by norm_num)]
  norm_num

theorem rnd64_ratio_hi : rnd binary64 (104857600000 / 10000) = 10485760 := by
  rw [rnd64_cert (104857600000 / 10000) (23) (-29) 5629499534213120 (by norm_num) (by norm_num) (by norm_num) (by norm_num) (by norm_num) (by norm_num)]
  norm_num

theorem rnd32_ratio_lo : rnd binary32 (3 / 2) = (3 / 2) := by
  rw [rnd32_cert (3 / 2) (0) (-23) 12582912 (by norm_num) (by norm_num) (by norm_num) (by norm_num) (by norm_num) (by norm_num)]
  norm_num

theorem rnd32_ratio_hi : rnd binary32 10485760 = 10485760 := by
  rw [rnd32_cert 10485760 (23) (0) 10485760 (by norm_num) (by norm_num) (by norm_num) (by norm_num) (by norm_num) (by norm_num)]
  norm_num

theorem convert_12520308 :
    ADS1246_ConvertToVoltage_f32 12520308 (FP.fin false (13841203 / 4194304)) = (FP.fin false (10329255 / 4194304)) := by
  have h1 : FP.ofNat binary32 12520308 = (FP.fin false 12520308) :=
    ofNat_eval binary32 12520308 (by
      rw [rnd32_cert ((12520308 : ℕ) : ℚ) (23) (0) 12520308 (by norm_num) (by norm_num) (by norm_num) (by norm_num) (by norm_num) (by norm_num)]
      norm_num) (le_maxFinite32 (by norm_num))
  have h2 : f32 16777215 = (FP.fin false 16777215) :=
    round_of_nonneg binary32 (by norm_num) (by
      rw [rnd32_cert 16777215 (23) (0) 16777215 (by norm_num) (by norm_num) (by norm_num) (by norm_num) (by norm_num) (by norm_num)]
      norm_num) (le_maxFinite32 (by norm_num))
  have h3 : FP.div binary32 (FP.fin false 12520308) (FP.fin false 16777215) = (FP.fin false (12520309 / 16777216)) :=
    div_eval binary32 (by norm_num) (by norm_num) (by
      rw [rnd32_cert (12520308 / 16777215) (-1) (-24) 12520309 (by norm_num) (by norm_num) (by norm_num) (by norm_num) (by norm_num) (by norm_num)]
      norm_num) (le_maxFinite32 (by norm_num))
  have h4 : FP.mul binary32 (FP.fin false (12520309 / 16777216)) (FP.fin false (13841203 / 4194304)) = (FP.fin false (10329255 / 4194304)) :=
    mul_eval binary32 (by norm_num) (by norm_num) (by
      rw [rnd32_cert ((12520309 / 16777216) * (13841203 / 4194304)) (1) (-22) 10329255 (by norm_num) (by norm_num) (by norm_num) (by norm_num) (by norm_num) (by norm_num)]
      norm_num) (le_maxFinite32 (by norm_num))
  unfold ADS1246_ConvertToVoltage_f32
  rw [h1, h2, h3, h4]

theorem adjusted_12520308 (logf : FP → FP) :
    (main_convert_f32 logf 12520308).adjusted_voltage = (FP.fin false (6920601 / 2097152)) := by
  have h1 : FP.mul binary32 (FP.fin false (10329255 / 4194304)) (FP.fin false (11240735 / 8388608)) = (FP.fin false (6920601 / 2097152)) :=
    mul_eval binary32 (by norm_num) (by norm_num) (by
      rw [rnd32_cert ((10329255 / 4194304) * (11240735 / 8388608)) (1) (-22) 13841202 (by norm_num) (by norm_num) (by norm_num) (by norm_num) (by norm_num) (by norm_num)]
      norm_num) (le_maxFinite32 (by norm_num))
  show FP.mul binary32 (ADS1246_ConvertToVoltage_f32 12520308 (FP.cast binary32 (f64 (33 / 10))))
    (f32 (134 / 100)) = _
  rw [supply_cast_value, convert_12520308, gain_f32_value, h1]

theorem convert_12520309 :
    ADS1246_ConvertToVoltage_f32 12520309 (FP.fin false (13841203 / 4194304)) = (FP.fin false (1291157 / 524288)) := by
  have h1 : FP.ofNat binary32 12520309 = (FP.fin false 12520309) :=
    ofNat_eval binary32 12520309 (by
      rw [rnd32_cert ((12520309 : ℕ) : ℚ) (23) (0) 12520309 (by norm_num) (by norm_num) (by norm_num) (by norm_num) (by norm_num) (by norm_num)]
      norm_num) (le_maxFinite32 (by norm_num))
  have h2 : f32 16777215 = (FP.fin false 16777215) :=
    round_of_nonneg binary32 (by norm_num) (by
      rw [rnd32_cert 16777215 (23) (0) 16777215 (by norm_num) (by norm_num) (by norm_num) (by norm_num) (by norm_num) (by norm_num)]
      norm_num) (le_maxFinite32 (by norm_num))
  have h3 : FP.div binary32 (FP.fin false 12520309) (FP.fin false 16777215) = (FP.fin false (6260155 / 8388608)) :=
    div_eval binary32 (by norm_num) (by norm_num) (by
      rw [rnd32_cert (12520309 / 16777215) (-1) (-24) 12520310 (by norm_num) (by norm_num) (by norm_num) (by norm_num) (by norm_num) (by norm_num)]
      norm_num) (le_maxFinite32 (by norm_num))
  have h4 : FP.mul binary32 (FP.fin false (6260155 / 8388608)) (FP.fin false (13841203 / 4194304)) = (FP.fin false (1291157 / 524288)) :=
    mul_eval binary32 (by norm_num) (by norm_num) (by
      rw [rnd32_cert ((6260155 / 8388608) * (13841203 / 4194304)) (1) (-22) 10329256 (by norm_num) (by norm_num) (by norm_num) (by norm_num) (by norm_num) (by norm_num)]
      norm_num) (le_maxFinite32 (by norm_num))
  unfold ADS1246_ConvertToVoltage_f32
  rw [h1, h2, h3, h4]

theorem adjusted_12520309 (logf : FP → FP) :
    (main_convert_f32 logf 12520309).adjusted_voltage = (FP.fin false (13841203 / 4194304)) := by
  have h1 : FP.mul binary32 (FP.fin false (1291157 / 524288)) (FP.fin false (11240735 / 8388608)) = (FP.fin false (13841203 / 4194304)) :=
    mul_eval binary32 (by norm_num) (by norm_num) (by
      rw [rnd32_cert ((1291157 / 524288) * (11240735 / 8388608)) (1) (-22) 13841203 (by norm_num) (by norm_num) (by norm_num) (by norm_num) (by norm_num) (by norm_num)]
      norm_num) (le_maxFinite32 (by norm_num))
  show FP.mul binary32 (ADS1246_ConvertToVoltage_f32 12520309 (FP.cast binary32 (f64 (33 / 10))))
    (f32 (134 / 100)) = _
  rw [supply_cast_value, convert_12520309, gain_f32_value, h1]

theorem convert_12520310 :
    ADS1246_ConvertToVoltage_f32 12520310 (FP.fin false (13841203 / 4194304)) = (FP.fin false (1291157 / 524288)) := by
  have h1 : FP.ofNat binary32 12520310 = (FP.fin false 12520310) :=
    ofNat_eval binary32 12520310 (by
      rw [rnd32_cert ((12520310 : ℕ) : ℚ) (23) (0) 12520310 (by norm_num) (by norm_num) (by norm_num) (by norm_num) (by norm_num) (by norm_num)]
      norm_num) (le_maxFinite32 (by norm_num))
  have h2 : f32 16777215 = (FP.fin false 16777215) :=
    round_of_nonneg binary32 (by norm_num) (by
      rw [rnd32_cert 16777215 (23) (0) 16777215 (by norm_num) (by norm_num) (by norm_num) (by norm_num) (by norm_num) (by norm_num)]
      norm_num) (le_maxFinite32 (by norm_num))
  have h3 : FP.div binary32 (FP.fin false 12520310) (FP.fin false 16777215) = (FP.fin false (12520311 / 16777216)) :=
    div_eval binary32 (by norm_num) (by norm_num) (by
      rw [rnd32_cert (12520310 / 16777215) (-1) (-24) 12520311 (by norm_num) (by norm_num) (by norm_num) (by norm_num) (by norm_num) (by norm_num)]
      norm_num) (le_maxFinite32 (by norm_num))
  have h4 : FP.mul binary32 (FP.fin false (12520311 / 16777216)) (FP.fin false (13841203 / 4194304)) = (FP.fin false (1291157 / 524288)) :=
    mul_eval binary32 (by norm_num) (by norm_num) (by
      rw [rnd32_cert ((12520311 / 16777216) * (13841203 / 4194304)) (1) (-22) 10329256 (by norm_num) (by norm_num) (by norm_num) (by norm_num) (by norm_num) (by norm_num)]
      norm_num) (le_maxFinite32 (by norm_num))
  unfold ADS1246_ConvertToVoltage_f32
  rw [h1, h2, h3, h4]

theorem adjusted_12520310 (logf : FP → FP) :
    (main_convert_f32 logf 12520310).adjusted_voltage = (FP.fin false (13841203 / 4194304)) := by
  have h1 : FP.mul binary32 (FP.fin false (1291157 / 524288)) (FP.fin false (11240735 / 8388608)) = (FP.fin false (13841203 / 4194304)) :=
    mul_eval binary32 (by norm_num) (by norm_num) (by
      rw [rnd32_cert ((1291157 / 524288) * (11240735 / 8388608)) (1) (-22) 13841203 (by norm_num) (by norm_num) (by norm_num) (by norm_num) (by norm_num) (by norm_num)]
      norm_num) (le_maxFinite32 (by norm_num))
  show FP.mul binary32 (ADS1246_ConvertToVoltage_f32 12520310 (FP.cast binary32 (f64 (33 / 10))))
    (f32 (134 / 100)) = _
  rw [supply_cast_value, convert_12520310, gain_f32_value, h1]

theorem convert_12520311 :
    ADS1246_ConvertToVoltage_f32 12520311 (FP.fin false (13841203 / 4194304)) = (FP.fin false (10329257 / 4194304)) := by
  have h1 : FP.ofNat binary32 12520311 = (FP.fin false 12520311) :=
    ofNat_eval binary32 12520311 (by
      rw [rnd32_cert ((12520311 : ℕ) : ℚ) (23) (0) 12520311 (by norm_num) (by norm_num) (by norm_num) (by norm_num) (by norm_num) (by norm_num)]
      norm_num) (le_maxFinite32 (by norm_num))
  have h2 : f32 16777215 = (FP.fin false 16777215) :=
    round_of_nonneg binary32 (by norm_num) (by
      rw [rnd32_cert 16777215 (23) (0) 16777215 (by norm_num) (by norm_num) (by norm_num) (by norm_num) (by norm_num) (by norm_num)]
      norm_num) (le_maxFinite32 (by norm_num))
  have h3 : FP.div binary32 (FP.fin false 12520311) (FP.fin false 16777215) = (FP.fin false (1565039 / 2097152)) :=
    div_eval binary32 (by norm_num) (by norm_num) (by
      rw [rnd32_cert (12520311 / 16777215) (-1) (-24) 12520312 (by norm_num) (by norm_num) (by norm_num) (by norm_num) (by norm_num) (by norm_num)]
      norm_num) (le_maxFinite32 (by norm_num))
  have h4 : FP.mul binary32 (FP.fin false (1565039 / 2097152)) (FP.fin false (13841203 / 4194304)) = (FP.fin false (10329257 / 4194304)) :=
    mul_eval binary32 (by norm_num) (by norm_num) (by
      rw [rnd32_cert ((1565039 / 2097152) * (13841203 / 4194304)) (1) (-22) 10329257 (by norm_num) (by norm_num) (by norm_num) (by norm_num) (by norm_num) (by norm_num)]
      norm_num) (le_maxFinite32 (by norm_num))
  unfold ADS1246_ConvertToVoltage_f32
  rw [h1, h2, h3, h4]

theorem adjusted_12520311 (logf : FP → FP) :
    (main_convert_f32 logf 12520311).adjusted_voltage = (FP.fin false (13841205 / 4194304)) := by
  have h1 : FP.mul binary32 (FP.fin false (10329257 / 4194304)) (FP.fin false (11240735 / 8388608)) = (FP.fin false (13841205 / 4194304)) :=
    mul_eval binary32 (by norm_num) (by norm_num) (by
      rw [rnd32_cert ((10329257 / 4194304) * (11240735 / 8388608)) (1) (-22) 13841205 (by norm_num) (by norm_num) (by norm_num) (by norm_num) (by norm_num) (by norm_num)]
      norm_num) (le_maxFinite32 (by norm_num))
  show FP.mul binary32 (ADS1246_ConvertToVoltage_f32 12520311 (FP.cast binary32 (f64 (33 / 10))))
    (f32 (134 / 100)) = _
  rw [supply_cast_value, convert_12520311, gain_f32_value, h1]

theorem calculate_temperature_f32_of_inf (logf : FP → FP) (x : FP)
    (h : logf (log_argument_f32 x) = FP.inf false) :
    calculate_temperature_f32 logf x = (FP.fin true (8950579 / 32768)) := by
  have h1 : f64 25 = (FP.fin false 25) :=
    round_of_nonneg binary64 (by norm_num) (by
      rw [rnd64_cert 25 (4) (-48) 7036874417766400 (by norm_num) (by norm_num) (by norm_num) (by norm_num) (by norm_num) (by norm_num)]
      norm_num) (le_maxFinite64 (by norm_num))
  have h2 : f32 (27315 / 100) = (FP.fin false (8950579 / 32768)) :=
    round_of_nonneg binary32 (by norm_num) (by
      rw [rnd32_cert (27315 / 100) (8) (-15) 8950579 (by norm_num) (by norm_num) (by norm_num) (by norm_num) (by norm_num) (by norm_num)]
      norm_num) (le_maxFinite32 (by norm_num))
  have h3 : FP.cast binary64 (FP.fin false (8950579 / 32768)) = (FP.fin false (8950579 / 32768)) :=
    cast_eval binary64 (by norm_num) (by
      rw [rnd64_cert (8950579 / 32768) (8) (-44) 4805305510658048 (by norm_num) (by norm_num) (by norm_num) (by norm_num) (by norm_num) (by norm_num)]
      norm_num) (le_maxFinite64 (by norm_num))
  have h4 : FP.add binary64 (FP.fin false 25) (FP.fin false (8950579 / 32768)) = (FP.fin false (9769779 / 32768)) :=
    add_eval binary64 (by norm_num) (by norm_num) (by
      rw [rnd64_cert (25 + (8950579 / 32768)) (8) (-44) 5245110161768448 (by norm_num) (by norm_num) (by norm_num) (by norm_num) (by norm_num) (by norm_num)]
      norm_num) (le_maxFinite64 (by norm_num))
  have h5 : FP.cast binary32 (FP.fin false (9769779 / 32768)) = (FP.fin false (9769779 / 32768)) :=
    cast_eval binary32 (by norm_num) (by
      rw [rnd32_cert (9769779 / 32768) (8) (-15) 9769779 (by norm_num) (by norm_num) (by norm_num) (by norm_num) (by norm_num) (by norm_num)]
      norm_num) (le_maxFinite32 (by norm_num))
  have h6 : f32 1 = (FP.fin false 1) :=
    round_of_nonneg binary32 (by norm_num) (by
      rw [rnd32_cert 1 (0) (-23) 8388608 (by norm_num) (by norm_num) (by norm_num) (by norm_num) (by norm_num) (by norm_num)]
      norm_num) (le_maxFinite32 (by norm_num))
  have h7 : FP.div binary32 (FP.fin false 1) (FP.fin false (9769779 / 32768)) = (FP.fin false (14405391 / 4294967296)) :=
    div_eval binary32 (by norm_num) (by norm_num) (by
      rw [rnd32_cert (1 / (9769779 / 32768)) (-9) (-32) 14405391 (by norm_num) (by norm_num) (by norm_num) (by norm_num) (by norm_num) (by norm_num)]
      norm_num) (le_maxFinite32 (by norm_num))
  have h8 : FP.cast binary64 (FP.fin false (14405391 / 4294967296)) = (FP.fin false (14405391 / 4294967296)) :=
    cast_eval binary64 (by norm_num) (by
      rw [rnd64_cert (14405391 / 4294967296) (-9) (-61) 7733835403886592 (by norm_num) (by norm_num) (by norm_num) (by norm_num) (by norm_num) (by norm_num)]
      norm_num) (le_maxFinite64 (by norm_num))
  have h9 : f64 3950 = (FP.fin false 3950) :=
    round_of_nonneg binary64 (by norm_num) (by
      rw [rnd64_cert 3950 (11) (-41) 8686141859430400 (by norm_num) (by norm_num) (by norm_num) (by norm_num) (by norm_num) (by norm_num)]
      norm_num) (le_maxFinite64 (by norm_num))
  have h10 : FP.cast binary64 (FP.inf false) = FP.inf false :=
    rfl
  have h11 : FP.div binary64 (FP.inf false) (FP.fin false 3950) = FP.inf false :=
    rfl
  have h12 : FP.add binary64 (FP.fin false (14405391 / 4294967296)) (FP.inf false) = FP.inf false :=
    rfl
  have h13 : FP.cast binary32 (FP.inf false) = FP.inf false :=
    rfl
  have h14 : FP.div binary32 (FP.fin false 1) (FP.inf false) = FP.fin false 0 :=
    rfl
  have h15 : FP.sub binary32 (FP.fin false 0) (FP.fin false (8950579 / 32768)) = (FP.fin true (8950579 / 32768)) :=
    sub_neg_eval binary32 (by norm_num) (by
      rw [rnd32_cert ((8950579 / 32768) - 0) (8) (-15) 8950579 (by norm_num) (by norm_num) (by norm_num) (by norm_num) (by norm_num) (by norm_num)]
      norm_num) (le_maxFinite32 (by norm_num))
  unfold calculate_temperature_f32
  simp only [h]
  rw [h1, h2, h3, h4, h5, h6, h7, h8, h9, h10, h11, h12, h13, h14, h15]

theorem adjusted_f32_formula (logf : FP → FP) (raw : Nat) (hraw : raw ≤ 2 ^ 24 - 1) :
    (main_convert_f32 logf raw).adjusted_voltage
        = FP.fin false (rnd binary32 (rnd binary32 (rnd binary32 (rnd binary32 (raw : ℚ)
            / 16777215) * (13841203 / 4194304)) * (11240735 / 8388608)))
      ∧ rnd binary32 (rnd binary32 (rnd binary32 (rnd binary32 (raw : ℚ)
            / 16777215) * (13841203 / 4194304)) * (11240735 / 8388608))
          ≤ 4636803 / 1048576 := by
  obtain ⟨hf, hle, _⟩ := convert_f32_formula raw (13841203 / 4194304) hraw supply_rep
  have hV0 : 0 ≤ rnd binary32 (rnd binary32 (rnd binary32 (raw : ℚ) / 16777215)
      * (13841203 / 4194304)) :=
    rnd_nonneg _ (mul_nonneg (rnd_nonneg _ (div_nonneg (rnd_nonneg _ (Nat.cast_nonneg raw))
      (by norm_num))) (by norm_num))
  have hA : rnd binary32 (rnd binary32 (rnd binary32 (rnd binary32 (raw : ℚ)
      / 16777215) * (13841203 / 4194304)) * (11240735 / 8388608)) ≤ 4636803 / 1048576 :=
    le_trans (rnd_mono _ binary32_prec_pos (mul_nonneg hV0 (by norm_num))
      (mul_le_mul_of_nonneg_right hle (by norm_num))) (le_of_eq rnd32_adjusted_max)
  refine ⟨?_, hA⟩
  show FP.mul binary32 (ADS1246_ConvertToVoltage_f32 raw (FP.cast binary32 (f64 (33 / 10))))
    (f32 (134 / 100)) = _
  rw [supply_cast_value, hf, gain_f32_value,
    mul_eval binary32 hV0 (by norm_num) rfl (le_maxFinite32 (le_trans hA (by norm_num)))]

theorem adjusted_f32_finite (logf : FP → FP) (raw : Nat) (hraw : raw ≤ 2 ^ 24 - 1) :
    ∃ a : ℚ, (main_convert_f32 logf raw).adjusted_voltage = FP.fin false a
      ∧ 0 ≤ a ∧ a ≤ 4636803 / 1048576 := by
  obtain ⟨hf, hle⟩ := adjusted_f32_formula logf raw hraw
  refine ⟨_, hf, ?_, hle⟩
  exact rnd_nonneg _ (mul_nonneg (rnd_nonneg _ (mul_nonneg (rnd_nonneg _ (div_nonneg
    (rnd_nonneg _ (Nat.cast_nonneg raw)) (by norm_num))) (by norm_num))) (by norm_num))

theorem adjusted_f32_mono (logf : FP → FP) (raw1 raw2 : Nat) (h12 : raw1 ≤ raw2)
    (h2 : raw2 ≤ 2 ^ 24 - 1) :
    (main_convert_f32 logf raw1).adjusted_voltage.val
      ≤ (main_convert_f32 logf raw2).adjusted_voltage.val := by
  rw [(adjusted_f32_formula logf raw1 (le_trans h12 h2)).1,
    (adjusted_f32_formula logf raw2 h2).1]
  simp only [FP.val, Bool.false_eq_true, if_false]
  have hV := convert_f32_mono raw1 raw2 (13841203 / 4194304) h12 (by norm_num)
  have hV0 : 0 ≤ rnd binary32 (rnd binary32 (rnd binary32 (raw1 : ℚ) / 16777215)
      * (13841203 / 4194304)) :=
    rnd_nonneg _ (mul_nonneg (rnd_nonneg _ (div_nonneg (rnd_nonneg _ (Nat.cast_nonneg raw1))
      (by norm_num))) (by norm_num))
  exact rnd_mono _ binary32_prec_pos (mul_nonneg hV0 (by norm_num))
    (mul_le_mul_of_nonneg_right hV (by norm_num))

theorem divider_denominator_f32_below (a : ℚ)
    (hgap : 1 / 4194304 ≤ 13841203 / 4194304 - a) (ha : 0 ≤ a) :
    ∃ d : ℚ, divider_denominator_f32 (FP.fin false a) = FP.fin false d ∧ 1 / 4194304 ≤ d := by
  have hD_lo : 1 / 4194304 ≤ rnd binary32 (13841203 / 4194304 - a) :=
    le_trans (le_of_eq rnd32_quantum22.symm)
      (rnd_mono _ binary32_prec_pos (by norm_num) hgap)
  have hD_hi : rnd binary32 (13841203 / 4194304 - a) ≤ 4 :=
    le_trans (rnd_mono _ binary32_prec_pos (by linarith) (by linarith)) (le_of_eq rnd32_four)
  refine ⟨_, ?_, hD_lo⟩
  unfold divider_denominator_f32
  rw [supply_f32_value,
    sub_eval binary32 (by linarith) rfl (le_maxFinite32 (le_trans hD_hi (by norm_num)))]

theorem calculate_resistance_f32_above (a : ℚ) (hlo : 13841205 / 4194304 ≤ a)
    (hhi : a ≤ 5) :
    ∃ d r : ℚ, divider_denominator_f32 (FP.fin false a) = FP.fin true d ∧ 1 / 2097152 ≤ d
      ∧ calculate_resistance_f32 (FP.fin false a) = FP.fin true r
      ∧ 15000 ≤ r ∧ r ≤ 104857600000 := by
  have ha0 : (0 : ℚ) ≤ a := by linarith
  have h64_lo : 3 ≤ rnd binary64 a :=
    le_trans (le_of_eq rnd64_three.symm) (rnd_mono _ binary64_prec_pos (by norm_num)
      (by linarith))
  have h64_hi : rnd binary64 a ≤ 5 :=
    le_trans (rnd_mono _ binary64_prec_pos ha0 hhi) (le_of_eq rnd64_five)
  have hN_lo : 30000 ≤ rnd binary64 (10000 * rnd binary64 a) :=
    le_trans (le_of_eq rnd64_30000.symm) (rnd_mono _ binary64_prec_pos (by norm_num)
      (mul_le_mul_of_nonneg_left h64_lo (by norm_num)))
  have hN_hi : rnd binary64 (10000 * rnd binary64 a) ≤ 50000 :=
    le_trans (rnd_mono _ binary64_prec_pos (mul_nonneg (by norm_num) (by linarith))
      (mul_le_mul_of_nonneg_left h64_hi (by norm_num))) (le_of_eq rnd64_50000)
  have hD_lo : 1 / 2097152 ≤ rnd binary32 (a - 13841203 / 4194304) :=
    le_trans (le_of_eq rnd32_quantum21.symm) (rnd_mono _ binary32_prec_pos (by norm_num)
      (by linarith))
  have hD_hi : rnd binary32 (a - 13841203 / 4194304) ≤ 2 :=
    le_trans (rnd_mono _ binary32_prec_pos (by linarith) (by linarith)) (le_of_eq rnd32_two)
  have hD_pos : (0 : ℚ) < rnd binary32 (a - 13841203 / 4194304) := by linarith
  have hE_lo : 1 / 2097152 ≤ rnd binary64 (rnd binary32 (a - 13841203 / 4194304)) :=
    le_trans (le_of_eq rnd64_quantum21.symm) (rnd_mono _ binary64_prec_pos (by norm_num)
      hD_lo)
  have hE_hi : rnd binary64 (rnd binary32 (a - 13841203 / 4194304)) ≤ 2 :=
    le_trans (rnd_mono _ binary64_prec_pos hD_pos.le hD_hi) (le_of_eq rnd64_two)
  have hE_pos : (0 : ℚ) < rnd binary64 (rnd binary32 (a - 13841203 / 4194304)) := by
    linarith
  have hN_pos : (0 : ℚ) < rnd binary64 (10000 * rnd binary64 a) := by linarith
  have hq_lo : 30000 / 2 ≤ rnd binary64 (10000 * rnd binary64 a)
      / rnd binary64 (rnd binary32 (a - 13841203 / 4194304)) :=
    div_le_div₀ hN_pos.le hN_lo hE_pos hE_hi
  have hq_hi : rnd binary64 (10000 * rnd binary64 a)
      / rnd binary64 (rnd binary32 (a - 13841203 / 4194304)) ≤ 50000 / (1 / 2097152) :=
    div_le_div₀ (by norm_num) hN_hi (by norm_num) hE_lo
  have hq_pos : (0 : ℚ) < rnd binary64 (10000 * rnd binary64 a)
      / rnd binary64 (rnd binary32 (a - 13841203 / 4194304)) := div_pos hN_pos hE_pos
  have hQ_lo : 15000 ≤ rnd binary64 (rnd binary64 (10000 * rnd binary64 a)
      / rnd binary64 (rnd binary32 (a - 13841203 / 4194304))) :=
    le_trans (le_of_eq rnd64_15000.symm) (rnd_mono _ binary64_prec_pos (by norm_num) hq_lo)
  have hQ_hi : rnd binary64 (rnd binary64 (10000 * rnd binary64 a)
      / rnd binary64 (rnd binary32 (a - 13841203 / 4194304))) ≤ 104857600000 :=
    le_trans (rnd_mono _ binary64_prec_pos hq_pos.le hq_hi) (le_of_eq rnd64_top)
  have hQ_pos : (0 : ℚ) < rnd binary64 (rnd binary64 (10000 * rnd binary64 a)
      / rnd binary64 (rnd binary32 (a - 13841203 / 4194304))) := by linarith
  have hR_lo : 15000 ≤ rnd binary32 (rnd binary64 (rnd binary64 (10000 * rnd binary64 a)
      / rnd binary64 (rnd binary32 (a - 13841203 / 4194304)))) :=
    le_trans (le_of_eq rnd32_15000.symm) (rnd_mono _ binary32_prec_pos (by norm_num) hQ_lo)
  have hR_hi : rnd binary32 (rnd binary64 (rnd binary64 (10000 * rnd binary64 a)
      / rnd binary64 (rnd binary32 (a - 13841203 / 4194304)))) ≤ 104857600000 :=
    le_trans (rnd_mono _ binary32_prec_pos hQ_pos.le hQ_hi) (le_of_eq rnd32_top)
  have hsub : divider_denominator_f32 (FP.fin false a)
      = FP.fin true (rnd binary32 (a - 13841203 / 4194304)) := by
    unfold divider_denominator_f32
    rw [supply_f32_value,
      sub_neg_eval binary32 (by linarith) rfl (le_maxFinite32 (le_trans hD_hi (by norm_num)))]
  refine ⟨_, _, hsub, hD_lo, ?_, hR_lo, hR_hi⟩
  unfold calculate_resistance_f32
  rw [hsub, series_f64_value,
    cast_eval binary64 ha0 rfl (le_maxFinite64 (le_trans h64_hi (by norm_num))),
    mul_eval binary64 (by norm_num) (by linarith) rfl
      (le_maxFinite64 (le_trans hN_hi (by norm_num))),
    cast_neg_eval binary64 hD_pos rfl (le_maxFinite64 (le_trans hE_hi (by norm_num))),
    (div_neg_eval binary64 hN_pos hE_pos rfl
      (le_maxFinite64 (le_trans hQ_hi (by norm_num)))).1,
    cast_neg_eval binary32 hQ_pos rfl (le_maxFinite32 (le_trans hR_hi (by norm_num)))]

theorem log_argument_f32_of_neg (r : ℚ) (h1 : 15000 ≤ r) (h2 : r ≤ 104857600000) :
    ∃ q : ℚ, log_argument_f32 (FP.fin true r) = FP.fin true q ∧ 3 / 2 ≤ q := by
  have hr_pos : (0 : ℚ) < r := by linarith
  have hA_lo : 15000 ≤ rnd binary64 r :=
    le_trans (le_of_eq rnd64_floor_again.symm) (rnd_mono _ binary64_prec_pos (by norm_num) h1)
  have hA_hi : rnd binary64 r ≤ 104857600000 :=
    le_trans (rnd_mono _ binary64_prec_pos hr_pos.le h2) (le_of_eq rnd64_top_again)
  have hA_pos : (0 : ℚ) < rnd binary64 r := by linarith
  have hq_lo : 15000 / 10000 ≤ rnd binary64 r / 10000 :=
    div_le_div_of_nonneg_right hA_lo (by norm_num)
  have hq_hi : rnd binary64 r / 10000 ≤ 104857600000 / 10000 :=
    div_le_div_of_nonneg_right hA_hi (by norm_num)
  have hB_lo : 3 / 2 ≤ rnd binary64 (rnd binary64 r / 10000) :=
    le_trans (le_of_eq rnd64_ratio_lo.symm) (rnd_mono _ binary64_prec_pos (by norm_num) hq_lo)
  have hB_hi : rnd binary64 (rnd binary64 r / 10000) ≤ 10485760 :=
    le_trans (rnd_mono _ binary64_prec_pos (by linarith) hq_hi) (le_of_eq rnd64_ratio_hi)
  have hB_pos : (0 : ℚ) < rnd binary64 (rnd binary64 r / 10000) := by linarith
  have hC_lo : 3 / 2 ≤ rnd binary32 (rnd binary64 (rnd binary64 r / 10000)) :=
    le_trans (le_of_eq rnd32_ratio_lo.symm) (rnd_mono _ binary32_prec_pos (by norm_num) hB_lo)
  have hC_hi : rnd binary32 (rnd binary64 (rnd binary64 r / 10000)) ≤ 10485760 :=
    le_trans (rnd_mono _ binary32_prec_pos hB_pos.le hB_hi) (le_of_eq rnd32_ratio_hi)
  refine ⟨_, ?_, hC_lo⟩
  unfold log_argument_f32
  rw [series_f64_value,
    cast_neg_eval binary64 hr_pos rfl (le_maxFinite64 (le_trans hA_hi (by norm_num))),
    (div_neg_eval binary64 hA_pos (by norm_num) rfl
      (le_maxFinite64 (le_trans hB_hi (by norm_num)))).2,
    cast_neg_eval binary32 hB_pos rfl (le_maxFinite32 (le_trans hC_hi (by norm_num)))]

theorem log_argument_f32_inf : log_argument_f32 (FP.inf false) = FP.inf false := by
  unfold log_argument_f32
  rw [series_f64_value]
  rfl

theorem calculate_temperature_f32_of_nan (logf : FP → FP) (x : FP)
    (h : logf (log_argument_f32 x) = FP.nan) :
    calculate_temperature_f32 logf x = FP.nan := by
  unfold calculate_temperature_f32
  simp only [h]
  have e1 : FP.cast binary64 FP.nan = FP.nan := rfl
  have e2 : FP.cast binary32 FP.nan = FP.nan := rfl
  rw [e1, FP.div, add_nan_right, e2, div_nan_right, sub_nan_left]

/-- C10, as stated, fails on the IEEE code. At the in-range sample
`raw = 12520310` the adjusted voltage equals the `float` supply `3.3f`
instead of exceeding it, the divider denominator `3.3f - adjusted` is zero,
and the resistance is `+∞` instead of a negative number; the denominator is
zero at `raw = 12520309` as well (the values do not depend on `logf`). -/
theorem pipeline_f32_denominator_zero :
    12520310 ≤ 2 ^ 24 - 1
      ∧ (main_convert_f32 (fun _ => FP.nan) 12520310).adjusted_voltage = f32 (33 / 10)
      ∧ divider_denominator_f32 (main_convert_f32 (fun _ => FP.nan) 12520310).adjusted_voltage
          = FP.fin false 0
      ∧ (main_convert_f32 (fun _ => FP.nan) 12520310).resistance = FP.inf false
      ∧ divider_denominator_f32 (main_convert_f32 (fun _ => FP.nan) 12520309).adjusted_voltage
          = FP.fin false 0 := by
  have hr : (main_convert_f32 (fun _ => FP.nan) 12520310).resistance
      = calculate_resistance_f32
          (main_convert_f32 (fun _ => FP.nan) 12520310).adjusted_voltage := rfl
  rw [hr, adjusted_12520310, adjusted_12520309, supply_f32_value,
    calculate_resistance_f32_supply]
  refine ⟨by norm_num, rfl, ?_, rfl, ?_⟩
  · unfold divider_denominator_f32
    rw [supply_f32_value, sub_self_eval]
  · unfold divider_denominator_f32
    rw [supply_f32_value, sub_self_eval]

/-- C10, amended. In the IEEE arithmetic of the code (`Vref` and supply
`3.3f = 13841203 / 2^22`, gain `1.34f`), for every `raw` in `[0, 2^24 - 1]`:
for `raw ≤ 12520308` the adjusted voltage is below `3.3f`, the divider
denominator `3.3f - adjusted` is positive and the resistance is finite and
non-negative; for `raw = 12520309` and `raw = 12520310` the adjusted voltage
equals `3.3f`, the denominator is zero, the resistance is `+∞` and `logf` is
applied to `+∞` (the temperature is `-273.15f` if `logf` returns `+∞`
there); for `raw ≥ 12520311` the adjusted voltage exceeds `3.3f`, the
denominator and the resistance are negative and finite, `logf` is applied
to a negative ratio, and the loop body still produces a temperature: NaN
whenever `logf` returns NaN there. No fault is raised in any case. -/
theorem pipeline_f32_out_of_range (logf : FP → FP) (raw : Nat) (hraw : raw ≤ 2 ^ 24 - 1) :
    (raw ≤ 12520308 →
        ∃ a d r : ℚ, (main_convert_f32 logf raw).adjusted_voltage = FP.fin false a
          ∧ a < 13841203 / 4194304
          ∧ divider_denominator_f32 (main_convert_f32 logf raw).adjusted_voltage
              = FP.fin false d
          ∧ 0 < d
          ∧ (main_convert_f32 logf raw).resistance = FP.fin false r ∧ 0 ≤ r)
      ∧ (raw = 12520309 ∨ raw = 12520310 →
          (main_convert_f32 logf raw).adjusted_voltage = FP.fin false (13841203 / 4194304)
          ∧ divider_denominator_f32 (main_convert_f32 logf raw).adjusted_voltage
              = FP.fin false 0
          ∧ (main_convert_f32 logf raw).resistance = FP.inf false
          ∧ log_argument_f32 (main_convert_f32 logf raw).resistance = FP.inf false
          ∧ (logf (FP.inf false) = FP.inf false →
              (main_convert_f32 logf raw).temperature = FP.fin true (8950579 / 32768)))
      ∧ (12520311 ≤ raw →
          ∃ a d r q : ℚ, (main_convert_f32 logf raw).adjusted_voltage = FP.fin false a
            ∧ 13841203 / 4194304 < a
            ∧ divider_denominator_f32 (main_convert_f32 logf raw).adjusted_voltage
                = FP.fin true d
            ∧ 0 < d
            ∧ (main_convert_f32 logf raw).resistance = FP.fin true r ∧ 0 < r
            ∧ log_argument_f32 (main_convert_f32 logf raw).resistance = FP.fin true q
            ∧ 0 < q
            ∧ (logf (FP.fin true q) = FP.nan →
                (main_convert_f32 logf raw).temperature = FP.nan)) := by
  have hres : (main_convert_f32 logf raw).resistance
      = calculate_resistance_f32 (main_convert_f32 logf raw).adjusted_voltage := rfl
  have htemp : (main_convert_f32 logf raw).temperature
      = calculate_temperature_f32 logf (main_convert_f32 logf raw).resistance := rfl
  obtain ⟨a, ha, ha0, hamax⟩ := adjusted_f32_finite logf raw hraw
  refine ⟨?_, ?_, ?_⟩
  · intro hlow
    have hm := adjusted_f32_mono logf raw 12520308 hlow (by norm_num)
    rw [ha, adjusted_12520308] at hm
    simp only [FP.val, Bool.false_eq_true, if_false] at hm
    have hgap : 1 / 4194304 ≤ 13841203 / 4194304 - a := by linarith
    obtain ⟨d, hd, hdpos⟩ := divider_denominator_f32_below a hgap ha0
    obtain ⟨hf, hN, hE⟩ := calculate_resistance_f32_formula a ha0 hgap
    refine ⟨a, d, _, ha, by linarith, by rw [ha]; exact hd, by linarith,
      by rw [hres, ha]; exact hf, ?_⟩
    exact rnd_nonneg _ (rnd_nonneg _ (div_nonneg hN (by linarith)))
  · intro hmid
    have hadj : (main_convert_f32 logf raw).adjusted_voltage
        = FP.fin false (13841203 / 4194304) := by
      rcases hmid with h | h
      · rw [h]; exact adjusted_12520309 logf
      · rw [h]; exact adjusted_12520310 logf
    have hr : (main_convert_f32 logf raw).resistance = FP.inf false := by
      rw [hres, hadj]; exact calculate_resistance_f32_supply
    refine ⟨hadj, ?_, hr, by rw [hr]; exact log_argument_f32_inf, ?_⟩
    · rw [hadj]
      unfold divider_denominator_f32
      rw [supply_f32_value, sub_self_eval]
    · intro hlog
      rw [htemp, hr]
      exact calculate_temperature_f32_of_inf logf _ (by rw [log_argument_f32_inf]; exact hlog)
  · intro hhigh
    have hm := adjusted_f32_mono logf 12520311 raw hhigh hraw
    rw [ha, adjusted_12520311] at hm
    simp only [FP.val, Bool.false_eq_true, if_false] at hm
    obtain ⟨d, r, hd, hdlo, hr, hrlo, hrhi⟩ :=
      calculate_resistance_f32_above a hm (by linarith)
    obtain ⟨q, hq, hqlo⟩ := log_argument_f32_of_neg r hrlo hrhi
    have hr2 : (main_convert_f32 logf raw).resistance = FP.fin true r := by
      rw [hres, ha]; exact hr
    refine ⟨a, d, r, q, ha, by linarith, by rw [ha]; exact hd, by linarith, hr2,
      by linarith, by rw [hr2]; exact hq, by linarith, ?_⟩
    intro hnan
    rw [htemp, hr2]
    exact calculate_temperature_f32_of_nan logf _ (by rw [hq]; exact hnan)

theorem pipeline_f32_out_of_range_witness :
    (12520311 ≤ 12520308 →
        ∃ a d r : ℚ,
          (main_convert_f32 (fun _ => FP.nan) 12520311).adjusted_voltage = FP.fin false a
          ∧ a < 13841203 / 4194304
          ∧ divider_denominator_f32 (main_convert_f32 (fun _ => FP.nan) 12520311).adjusted_voltage
              = FP.fin false d
          ∧ 0 < d
          ∧ (main_convert_f32 (fun _ => FP.nan) 12520311).resistance = FP.fin false r ∧ 0 ≤ r)
      ∧ (12520311 = 12520309 ∨ 12520311 = 12520310 →
          (main_convert_f32 (fun _ => FP.nan) 12520311).adjusted_voltage
              = FP.fin false (13841203 / 4194304)
          ∧ divider_denominator_f32 (main_convert_f32 (fun _ => FP.nan) 12520311).adjusted_voltage
              = FP.fin false 0
          ∧ (main_convert_f32 (fun _ => FP.nan) 12520311).resistance = FP.inf false
          ∧ log_argument_f32 (main_convert_f32 (fun _ => FP.nan) 12520311).resistance
              = FP.inf false
          ∧ ((fun _ => FP.nan) (FP.inf false) = FP.inf false →
              (main_convert_f32 (fun _ => FP.nan) 12520311).temperature
                = FP.fin true (8950579 / 32768)))
      ∧ (12520311 ≤ 12520311 →
          ∃ a d r q : ℚ,
            (main_convert_f32 (fun _ => FP.nan) 12520311).adjusted_voltage = FP.fin false a
            ∧ 13841203 / 4194304 < a
            ∧ divider_denominator_f32
                (main_convert_f32 (fun _ => FP.nan) 12520311).adjusted_voltage = FP.fin true d
            ∧ 0 < d
            ∧ (main_convert_f32 (fun _ => FP.nan) 12520311).resistance = FP.fin true r ∧ 0 < r
            ∧ log_argument_f32 (main_convert_f32 (fun _ => FP.nan) 12520311).resistance
                = FP.fin true q
            ∧ 0 < q
            ∧ ((fun _ => FP.nan) (FP.fin true q) = FP.nan →
                (main_convert_f32 (fun _ => FP.nan) 12520311).temperature = FP.nan)) :=
  pipeline_f32_out_of_range (fun _ => FP.nan) 12520311 (by norm_num)

/-! ## C6: the divider round trip in IEEE arithmetic -/

theorem divider_voltage_f32_million :
    f32 (33 / 10 * 1000000 / (10000 + 1000000)) = (FP.fin false (6852081 / 2097152)) := by
  have h1 : f32 (33 / 10 * 1000000 / (10000 + 1000000)) = (FP.fin false (6852081 / 2097152)) :=
    round_of_nonneg binary32 (by norm_num) (by
      rw [rnd32_cert (33 / 10 * 1000000 / (10000 + 1000000)) (1) (-22) 13704162 (by norm_num) (by norm_num) (by norm_num) (by norm_num) (by norm_num) (by norm_num)]
      norm_num) (le_maxFinite32 (by norm_num))
  exact h1

theorem calculate_resistance_f32_million :
    calculate_resistance_f32 (FP.fin false (6852081 / 2097152)) = (FP.fin false (2000009 / 2)) := by
  have h1 : f64 10000 = (FP.fin false 10000) :=
    round_of_nonneg binary64 (by norm_num) (by
      rw [rnd64_cert 10000 (13) (-39) 5497558138880000 (by norm_num) (by norm_num) (by norm_num) (by norm_num) (by norm_num) (by norm_num)]
      norm_num) (le_maxFinite64 (by norm_num))
  have h2 : f32 (33 / 10) = (FP.fin false (13841203 / 4194304)) :=
    round_of_nonneg binary32 (by norm_num) (by
      rw [rnd32_cert (33 / 10) (1) (-22) 13841203 (by norm_num) (by norm_num) (by norm_num) (by norm_num) (by norm_num) (by norm_num)]
      norm_num) (le_maxFinite32 (by norm_num))
  have h3 : FP.cast binary64 (FP.fin false (6852081 / 2097152)) = (FP.fin false (6852081 / 2097152)) :=
    cast_eval binary64 (by norm_num) (by
      rw [rnd64_cert (6852081 / 2097152) (1) (-51) 7357365951135744 (by norm_num) (by norm_num) (by norm_num) (by norm_num) (by norm_num) (by norm_num)]
      norm_num) (le_maxFinite64 (by norm_num))
  have h4 : FP.mul binary64 (FP.fin false 10000) (FP.fin false (6852081 / 2097152)) = (FP.fin false (4282550625 / 131072)) :=
    mul_eval binary64 (by norm_num) (by norm_num) (by
      rw [rnd64_cert (10000 * (6852081 / 2097152)) (14) (-38) 8981159608320000 (by norm_num) (by norm_num) (by norm_num) (by norm_num) (by norm_num) (by norm_num)]
      norm_num) (le_maxFinite64 (by norm_num))
  have h5 : FP.sub binary32 (FP.fin false (13841203 / 4194304)) (FP.fin false (6852081 / 2097152)) = (FP.fin false (137041 / 4194304)) :=
    sub_eval binary32 (by norm_num) (by
      rw [rnd32_cert ((13841203 / 4194304) - (6852081 / 2097152)) (-5) (-28) 8770624 (by norm_num) (by norm_num) (by norm_num) (by norm_num) (by norm_num) (by norm_num)]
      norm_num) (le_maxFinite32 (by norm_num))
  have h6 : FP.cast binary64 (FP.fin false (137041 / 4194304)) = (FP.fin false (137041 / 4194304)) :=
    cast_eval binary64 (by norm_num) (by
      rw [rnd64_cert (137041 / 4194304) (-5) (-57) 4708692905689088 (by norm_num) (by norm_num) (by norm_num) (by norm_num) (by norm_num) (by norm_num)]
      norm_num) (le_maxFinite64 (by norm_num))
  have h7 : FP.div binary64 (FP.fin false (4282550625 / 131072)) (FP.fin false (137041 / 4194304)) = (FP.fin false (8589973454526157 / 8589934592)) :=
    div_eval binary64 (by norm_num) (by norm_num) (by
      rw [rnd64_cert ((4282550625 / 131072) / (137041 / 4194304)) (19) (-33) 8589973454526157 (by norm_num) (by norm_num) (by norm_num) (by norm_num) (by norm_num) (by norm_num)]
      norm_num) (le_maxFinite64 (by norm_num))
  have h8 : FP.cast binary32 (FP.fin false (8589973454526157 / 8589934592)) = (FP.fin false (2000009 / 2)) :=
    cast_eval binary32 (by norm_num) (by
      rw [rnd32_cert (8589973454526157 / 8589934592) (19) (-4) 16000072 (by norm_num) (by norm_num) (by norm_num) (by norm_num) (by norm_num) (by norm_num)]
      norm_num) (le_maxFinite32 (by norm_num))
  unfold calculate_resistance_f32 divider_denominator_f32
  rw [h1, h2, h3, h4, h5, h6, h7, h8]

theorem calculate_resistance_f32_million_below :
    calculate_resistance_f32 (FP.fin false (13704161 / 4194304)) = (FP.fin false (7999977 / 8)) := by
  have h1 : f64 10000 = (FP.fin false 10000) :=
    round_of_nonneg binary64 (by norm_num) (by
      rw [rnd64_cert 10000 (13) (-39) 5497558138880000 (by norm_num) (by norm_num) (by norm_num) (by norm_num) (by norm_num) (by norm_num)]
      norm_num) (le_maxFinite64 (by norm_num))
  have h2 : f32 (33 / 10) = (FP.fin false (13841203 / 4194304)) :=
    round_of_nonneg binary32 (by norm_num) (by
      rw [rnd32_cert (33 / 10) (1) (-22) 13841203 (by norm_num) (by norm_num) (by norm_num) (by norm_num) (by norm_num) (by norm_num)]
      norm_num) (le_maxFinite32 (by norm_num))
  have h3 : FP.cast binary64 (FP.fin false (13704161 / 4194304)) = (FP.fin false (13704161 / 4194304)) :=
    cast_eval binary64 (by norm_num) (by
      rw [rnd64_cert (13704161 / 4194304) (1) (-51) 7357365414264832 (by norm_num) (by norm_num) (by norm_num) (by norm_num) (by norm_num) (by norm_num)]
      norm_num) (le_maxFinite64 (by norm_num))
  have h4 : FP.mul binary64 (FP.fin false 10000) (FP.fin false (13704161 / 4194304)) = (FP.fin false (8565100625 / 262144)) :=
    mul_eval binary64 (by norm_num) (by norm_num) (by
      rw [rnd64_cert (10000 * (13704161 / 4194304)) (14) (-38) 8981158952960000 (by norm_num) (by norm_num) (by norm_num) (by norm_num) (by norm_num) (by norm_num)]
      norm_num) (le_maxFinite64 (by norm_num))
  have h5 : FP.sub binary32 (FP.fin false (13841203 / 4194304)) (FP.fin false (13704161 / 4194304)) = (FP.fin false (68521 / 2097152)) :=
    sub_eval binary32 (by norm_num) (by
      rw [rnd32_cert ((13841203 / 4194304) - (13704161 / 4194304)) (-5) (-28) 8770688 (by norm_num) (by norm_num) (by norm_num) (by norm_num) (by norm_num) (by norm_num)]
      norm_num) (le_maxFinite32 (by norm_num))
  have h6 : FP.cast binary64 (FP.fin false (68521 / 2097152)) = (FP.fin false (68521 / 2097152)) :=
    cast_eval binary64 (by norm_num) (by
      rw [rnd64_cert (68521 / 2097152) (-5) (-57) 4708727265427456 (by norm_num) (by norm_num) (by norm_num) (by norm_num) (by norm_num) (by norm_num)]
      norm_num) (le_maxFinite64 (by norm_num))
  have h7 : FP.div binary64 (FP.fin false (8565100625 / 262144)) (FP.fin false (68521 / 2097152)) = (FP.fin false (8589910146395799 / 8589934592)) :=
    div_eval binary64 (by norm_num) (by norm_num) (by
      rw [rnd64_cert ((8565100625 / 262144) / (68521 / 2097152)) (19) (-33) 8589910146395799 (by norm_num) (by norm_num) (by norm_num) (by norm_num) (by norm_num) (by norm_num)]
      norm_num) (le_maxFinite64 (by norm_num))
  have h8 : FP.cast binary32 (FP.fin false (8589910146395799 / 8589934592)) = (FP.fin false (7999977 / 8)) :=
    cast_eval binary32 (by norm_num) (by
      rw [rnd32_cert (8589910146395799 / 8589934592) (19) (-4) 15999954 (by norm_num) (by norm_num) (by norm_num) (by norm_num) (by norm_num) (by norm_num)]
      norm_num) (le_maxFinite32 (by norm_num))
  unfold calculate_resistance_f32 divider_denominator_f32
  rw [h1, h2, h3, h4, h5, h6, h7, h8]

theorem rnd32_rel {x : ℚ} (hx : 1 / 10 ^ 37 ≤ x) :
    x * (1 - 6 / 100000000) ≤ rnd binary32 x ∧ rnd binary32 x ≤ x * (1 + 6 / 100000000) := by
  have hmin : (2 : ℚ) ^ binary32.emin ≤ x := by
    have : (2 : ℚ) ^ binary32.emin ≤ 1 / 10 ^ 37 := by
      norm_num [Fmt.emin, binary32]
    exact le_trans this hx
  have h := rnd_error binary32 hmin
  have he : x / 2 ^ binary32.prec ≤ x * (6 / 100000000) := by
    have hx0 : (0 : ℚ) ≤ x := le_trans (by norm_num) hx
    have : x / 2 ^ binary32.prec = x * (1 / 16777216) := by
      norm_num [binary32]; ring
    rw [this]
    exact mul_le_mul_of_nonneg_left (by norm_num) hx0
  have h2 := abs_le.mp (le_trans h he)
  constructor <;> linarith [h2.1, h2.2]

theorem rnd64_rel {x : ℚ} (hx : 1 / 10 ^ 37 ≤ x) :
    x * (1 - 1 / 1000000000000000) ≤ rnd binary64 x
      ∧ rnd binary64 x ≤ x * (1 + 1 / 1000000000000000) := by
  have hmin : (2 : ℚ) ^ binary64.emin ≤ x := by
    have h1 : (2 : ℚ) ^ binary64.emin ≤ 2 ^ (-126 : ℤ) :=
      zpow_le_zpow_right₀ (by norm_num) (by decide)
    have h2 : (2 : ℚ) ^ (-126 : ℤ) ≤ 1 / 10 ^ 37 := by norm_num
    exact le_trans h1 (le_trans h2 hx)
  have h := rnd_error binary64 hmin
  have he : x / 2 ^ binary64.prec ≤ x * (1 / 1000000000000000) := by
    have hx0 : (0 : ℚ) ≤ x := le_trans (by norm_num) hx
    have : x / 2 ^ binary64.prec = x * (1 / 9007199254740992) := by
      norm_num [binary64]; ring
    rw [this]
    exact mul_le_mul_of_nonneg_left (by norm_num) hx0
  have h2 := abs_le.mp (le_trans h he)
  constructor <;> linarith [h2.1, h2.2]


/-- C6, as stated, fails on the IEEE code. For the target `R = 10^6` the
divider voltage `3.3 * R / (10000 + R)` rounds to the `float`
`6852081 / 2^21`, for which `calculate_resistance` returns `1000004.5`, off
by more than `1e-6 * R = 1`; and no `float` voltage below `3.3f` does
better: every result differs from `10^6` by more than 1. For the tiny target
`R = 1e-50` the divider voltage underflows to `+0` and the result is `0`. -/
theorem rnd32_tiny {x : ℚ} (hx0 : 0 ≤ x) (hx : x < 1 / 10 ^ 46) : rnd binary32 x = 0 := by
  rcases hx0.eq_or_lt with h | hpos
  · rw [← h]; exact rnd_zero _
  have hlog : Int.log 2 x < -126 := by
    rw [← Int.lt_zpow_iff_log_lt (by norm_num) hpos]
    have : (1 : ℚ) / 10 ^ 46 ≤ ((2 : ℕ) : ℚ) ^ (-126 : ℤ) := by norm_num
    exact lt_of_lt_of_le hx this
  have hq : quantum binary32 x = -149 := by
    unfold quantum
    have : max (Int.log 2 x) binary32.emin = -126 := by
      rw [max_eq_right]
      · decide
      · have : binary32.emin = -126 := by decide
        omega
    rw [this]; decide
  unfold rnd
  rw [hq]
  have : rne (x / 2 ^ (-149 : ℤ)) = 0 := by
    apply rne_eq_of_abs_lt
    have hu : (0 : ℚ) < 2 ^ (-149 : ℤ) := two_zpow_pos _
    rw [Int.cast_zero, sub_zero, abs_of_nonneg (div_nonneg hx0 hu.le), div_lt_iff₀ hu]
    have : (1 : ℚ) / 10 ^ 46 ≤ 1 / 2 * 2 ^ (-149 : ℤ) := by norm_num
    exact lt_of_lt_of_le hx this
  rw [this]
  simp

theorem divider_round_trip_fails :
    f32 (33 / 10 * 1000000 / (10000 + 1000000)) = FP.fin false (6852081 / 2097152)
      ∧ calculate_resistance_f32 (FP.fin false (6852081 / 2097152))
          = FP.fin false (2000009 / 2)
      ∧ ¬ (|(2000009 / 2 : ℚ) - 1000000| ≤ 1 / 1000000 * 1000000)
      ∧ (∀ v : ℚ, Rep binary32 v → v < 13841203 / 4194304 →
          ∃ r : ℚ, calculate_resistance_f32 (FP.fin false v) = FP.fin false r
            ∧ 1 / 1000000 * 1000000 < |r - 1000000|)
      ∧ f32 (33 / 10 * (1 / 10 ^ 50) / (10000 + 1 / 10 ^ 50)) = FP.fin false 0
      ∧ calculate_resistance_f32 (FP.fin false 0) = FP.fin false 0
      ∧ ¬ (|(0 : ℚ) - 1 / 10 ^ 50| ≤ 1 / 1000000 * (1 / 10 ^ 50)) := by
  refine ⟨divider_voltage_f32_million, calculate_resistance_f32_million, ?_, ?_, ?_,
    calculate_resistance_f32_zero, ?_⟩
  · rw [abs_of_pos (by norm_num)]; norm_num
  rotate_left
  · exact round_of_nonneg binary32 (by norm_num)
      (rnd32_tiny (by norm_num) (by norm_num)) (le_maxFinite32 (by norm_num))
  · rw [abs_of_neg (by norm_num)]; norm_num
  · intro v hv hvc
    have hgap := supply_gap v hv hvc
    obtain ⟨hf, _, _⟩ := calculate_resistance_f32_formula v hv.1 hgap
    refine ⟨_, hf, ?_⟩
    have hsplit : v ≤ 13704161 / 4194304 ∨ 6852081 / 2097152 ≤ v := by
      by_cases h2 : v < 2
      · left; linarith
      · push_neg at h2
        obtain ⟨m, hm⟩ := grid_of_rep binary32 1 hv.2.2 (by decide)
          (by norm_num; linarith) (by norm_num; linarith)
        have hm2 : v = (m : ℚ) / 4194304 := by
          rw [hm]; norm_num [binary32]; ring
        rcases (by omega : m ≤ 13704161 ∨ 13704162 ≤ m) with h | h
        · left
          have : (m : ℚ) ≤ 13704161 := by exact_mod_cast h
          rw [hm2]; linarith
        · right
          have : (13704162 : ℚ) ≤ (m : ℚ) := by exact_mod_cast h
          rw [hm2]; linarith
    rcases hsplit with h | h
    · have hlo := calculate_resistance_f32_le v (13704161 / 4194304) hv.1 h (by norm_num)
      have hval := (calculate_resistance_f32_formula (13704161 / 4194304) (by norm_num)
        (by norm_num)).1
      rw [calculate_resistance_f32_million_below] at hval
      have hinj := FP.fin.inj hval
      rw [← hinj.2] at hlo
      rw [abs_of_neg (by linarith)]
      linarith
    · have hhi := calculate_resistance_f32_le (6852081 / 2097152) v (by norm_num) h hgap
      have hval := (calculate_resistance_f32_formula (6852081 / 2097152) (by norm_num)
        (by norm_num)).1
      rw [calculate_resistance_f32_million] at hval
      have hinj := FP.fin.inj hval
      rw [← hinj.2] at hhi
      rw [abs_of_pos (by linarith)]
      linarith

theorem round_trip_upper (V R : ℚ) (hV0 : 0 ≤ V) (hVhi : V ≤ 3)
    (hRV : R = 10000 * V / (33 / 10 - V)) :
    V * (10000 * (1 + 6 / 100000000) * (1 + 1 / 1000000000000000)
      * (1 + 1 / 1000000000000000))
      / ((13841203 / 4194304 - V * (1 + 6 / 100000000))
        * ((1 - 6 / 100000000) * (1 - 1 / 1000000000000000)))
      * ((1 + 1 / 1000000000000000) * (1 + 6 / 100000000))
      ≤ R * (1 + 1 / 1000000) := by
  have hdpos : (0 : ℚ) < 33 / 10 - V := by linarith
  have hElo_pos : (0 : ℚ) < (13841203 / 4194304 - V * (1 + 6 / 100000000))
      * ((1 - 6 / 100000000) * (1 - 1 / 1000000000000000)) := by
    apply mul_pos
    · linarith
    · norm_num
  rw [hRV, div_mul_eq_mul_div, div_mul_eq_mul_div, div_le_div_iff₀ hElo_pos hdpos]
  have hlin : 10000 * (1 + 6 / 100000000) * (1 + 1 / 1000000000000000)
      * (1 + 1 / 1000000000000000) * ((1 + 1 / 1000000000000000) * (1 + 6 / 100000000))
      * (33 / 10 - V)
      ≤ 10000 * (1 + 1 / 1000000) * ((13841203 / 4194304 - V * (1 + 6 / 100000000))
        * ((1 - 6 / 100000000) * (1 - 1 / 1000000000000000))) := by linarith
  have := mul_le_mul_of_nonneg_left hlin hV0
  linarith

theorem round_trip_lower (V R : ℚ) (hV0 : 0 ≤ V) (hVhi : V ≤ 3)
    (hRV : R = 10000 * V / (33 / 10 - V)) :
    R * (1 - 1 / 1000000)
      ≤ V * (10000 * (1 - 6 / 100000000) * (1 - 1 / 1000000000000000)
      * (1 - 1 / 1000000000000000))
      / ((13841203 / 4194304 - V * (1 - 6 / 100000000))
        * ((1 + 6 / 100000000) * (1 + 1 / 1000000000000000)))
      * ((1 - 1 / 1000000000000000) * (1 - 6 / 100000000)) := by
  have hdpos : (0 : ℚ) < 33 / 10 - V := by linarith
  have hEup_pos : (0 : ℚ) < (13841203 / 4194304 - V * (1 - 6 / 100000000))
      * ((1 + 6 / 100000000) * (1 + 1 / 1000000000000000)) := by
    apply mul_pos
    · linarith
    · norm_num
  rw [hRV, div_mul_eq_mul_div, div_mul_eq_mul_div, div_le_div_iff₀ hdpos hEup_pos]
  have hlin : 10000 * (1 - 1 / 1000000) * ((13841203 / 4194304 - V * (1 - 6 / 100000000))
        * ((1 + 6 / 100000000) * (1 + 1 / 1000000000000000)))
      ≤ 10000 * (1 - 6 / 100000000) * (1 - 1 / 1000000000000000)
      * (1 - 1 / 1000000000000000) * ((1 - 1 / 1000000000000000) * (1 - 6 / 100000000))
      * (33 / 10 - V) := by linarith
  have := mul_le_mul_of_nonneg_left hlin hV0
  linarith

theorem round_trip_operands (V : ℚ) (hVlo : 1 / 10 ^ 34 ≤ V) (hVhi : V ≤ 3) :
    (V * (1 - 6 / 100000000) ≤ rnd binary32 V ∧ rnd binary32 V ≤ V * (1 + 6 / 100000000))
      ∧ (V * (10000 * (1 - 6 / 100000000) * (1 - 1 / 1000000000000000)
            * (1 - 1 / 1000000000000000))
          ≤ rnd binary64 (10000 * rnd binary64 (rnd binary32 V))
        ∧ rnd binary64 (10000 * rnd binary64 (rnd binary32 V))
          ≤ V * (10000 * (1 + 6 / 100000000) * (1 + 1 / 1000000000000000)
            * (1 + 1 / 1000000000000000)))
      ∧ ((13841203 / 4194304 - V * (1 + 6 / 100000000))
            * ((1 - 6 / 100000000) * (1 - 1 / 1000000000000000))
          ≤ rnd binary64 (rnd binary32 (13841203 / 4194304 - rnd binary32 V))
        ∧ rnd binary64 (rnd binary32 (13841203 / 4194304 - rnd binary32 V))
          ≤ (13841203 / 4194304 - V * (1 - 6 / 100000000))
            * ((1 + 6 / 100000000) * (1 + 1 / 1000000000000000))) := by
  obtain ⟨hv1, hv2⟩ := rnd32_rel (x := V) (by linarith)
  obtain ⟨ha1, ha2⟩ := rnd64_rel (x := rnd binary32 V) (by linarith)
  obtain ⟨hN1, hN2⟩ := rnd64_rel (x := 10000 * rnd binary64 (rnd binary32 V)) (by linarith)
  obtain ⟨hD1, hD2⟩ := rnd32_rel (x := 13841203 / 4194304 - rnd binary32 V) (by linarith)
  obtain ⟨hE1, hE2⟩ := rnd64_rel (x := rnd binary32 (13841203 / 4194304 - rnd binary32 V))
    (by linarith)
  refine ⟨⟨hv1, hv2⟩, ⟨?_, ?_⟩, ⟨?_, ?_⟩⟩ <;> linarith

theorem round_trip_result (V R N E : ℚ) (hVlo : 1 / 10 ^ 34 ≤ V) (hVhi : V ≤ 3)
    (hRV : R = 10000 * V / (33 / 10 - V))
    (hNlo : V * (10000 * (1 - 6 / 100000000) * (1 - 1 / 1000000000000000)
      * (1 - 1 / 1000000000000000)) ≤ N)
    (hNup : N ≤ V * (10000 * (1 + 6 / 100000000) * (1 + 1 / 1000000000000000)
      * (1 + 1 / 1000000000000000)))
    (hElo : (13841203 / 4194304 - V * (1 + 6 / 100000000))
      * ((1 - 6 / 100000000) * (1 - 1 / 1000000000000000)) ≤ E)
    (hEup : E ≤ (13841203 / 4194304 - V * (1 - 6 / 100000000))
      * ((1 + 6 / 100000000) * (1 + 1 / 1000000000000000))) :
    |rnd binary32 (rnd binary64 (N / E)) - R| ≤ 1 / 1000000 * R := by
  have hV0 : (0 : ℚ) ≤ V := by linarith
  have hU := round_trip_upper V R hV0 hVhi hRV
  have hL := round_trip_lower V R hV0 hVhi hRV
  clear hRV
  have hElo_pos : (0 : ℚ) < (13841203 / 4194304 - V * (1 + 6 / 100000000))
      * ((1 - 6 / 100000000) * (1 - 1 / 1000000000000000)) := by
    apply mul_pos
    · linarith
    · norm_num
  have hEpos : (0 : ℚ) < E := lt_of_lt_of_le hElo_pos hElo
  have hNpos : (0 : ℚ) < N := by linarith
  have hq_lo : 1 / 10 ^ 32 ≤ N / E := by
    rw [le_div_iff₀ hEpos]; linarith
  have hq_up := div_le_div₀ (mul_nonneg hV0 (by norm_num)) hNup hElo_pos hElo
  have hq_dn := div_le_div₀ hNpos.le hNlo hEpos hEup
  clear hNlo hNup hElo hEup hElo_pos
  obtain ⟨hQ1, hQ2⟩ := rnd64_rel (x := N / E) (by linarith)
  obtain ⟨hr1, hr2⟩ := rnd32_rel (x := rnd binary64 (N / E)) (by linarith)
  generalize rnd binary32 (rnd binary64 (N / E)) = r at hr1 hr2 ⊢
  generalize rnd binary64 (N / E) = Q at hQ1 hQ2 hr1 hr2
  generalize N / E = q at hq_lo hq_up hq_dn hQ1 hQ2
  have h2 := mul_le_mul_of_nonneg_right hq_up
    (by norm_num : (0 : ℚ) ≤ (1 + 1 / 1000000000000000) * (1 + 6 / 100000000))
  have h3 := mul_le_mul_of_nonneg_right hq_dn
    (by norm_num : (0 : ℚ) ≤ (1 - 1 / 1000000000000000) * (1 - 6 / 100000000))
  generalize V * (10000 * (1 + 6 / 100000000) * (1 + 1 / 1000000000000000)
      * (1 + 1 / 1000000000000000))
      / ((13841203 / 4194304 - V * (1 + 6 / 100000000))
        * ((1 - 6 / 100000000) * (1 - 1 / 1000000000000000))) = U0 at hU h2 hq_up
  generalize V * (10000 * (1 - 6 / 100000000) * (1 - 1 / 1000000000000000)
      * (1 - 1 / 1000000000000000))
      / ((13841203 / 4194304 - V * (1 - 6 / 100000000))
        * ((1 + 6 / 100000000) * (1 + 1 / 1000000000000000))) = L0 at hL h3 hq_dn
  rw [abs_le]
  constructor <;> linarith

/-- C6, amended. In IEEE arithmetic, for every target resistance `R` with
`1e-30 ≤ R ≤ 100000`: the divider voltage `3.3 * R / (10000 + R)`, converted to
`float` and fed through `calculate_resistance`, gives a finite resistance
within the relative tolerance `1e-6` of `R`. -/
theorem round_trip_f32 (R : ℚ) (hR1 : 1 / 10 ^ 30 ≤ R) (hR2 : R ≤ 100000) :
    ∃ v r : ℚ, f32 (33 / 10 * R / (10000 + R)) = FP.fin false v
      ∧ calculate_resistance_f32 (FP.fin false v) = FP.fin false r
      ∧ |r - R| ≤ 1 / 1000000 * R := by
  have hR0 : (0 : ℚ) < R := lt_of_lt_of_le (by norm_num) hR1
  have hS : (0 : ℚ) < 10000 + R := by linarith
  have hVlo : 1 / 10 ^ 34 ≤ 33 / 10 * R / (10000 + R) := by
    rw [le_div_iff₀ hS]; linarith
  have hVhi : 33 / 10 * R / (10000 + R) ≤ 3 := by
    rw [div_le_iff₀ hS]; linarith
  have hden : (33 / 10 : ℚ) - 33 / 10 * R / (10000 + R) = 33000 / (10000 + R) := by
    field_simp; ring
  have hRV : R = 10000 * (33 / 10 * R / (10000 + R))
      / (33 / 10 - 33 / 10 * R / (10000 + R)) := by
    rw [hden]; field_simp; ring
  generalize 33 / 10 * R / (10000 + R) = V at hVlo hVhi hRV ⊢
  have hV0 : (0 : ℚ) ≤ V := by linarith
  obtain ⟨⟨hv1, hv2⟩, ⟨hNlo, hNup⟩, ⟨hElo, hEup⟩⟩ := round_trip_operands V hVlo hVhi
  have hvmax : rnd binary32 V ≤ 4 := by linarith
  have hf : f32 V = FP.fin false (rnd binary32 V) :=
    round_of_nonneg binary32 hV0 rfl (le_maxFinite32 (le_trans hvmax (by norm_num)))
  have hgap : 1 / 4194304 ≤ 13841203 / 4194304 - rnd binary32 V := by linarith
  have hv0 : (0 : ℚ) ≤ rnd binary32 V := by linarith
  obtain ⟨hform, _, _⟩ := calculate_resistance_f32_formula (rnd binary32 V) hv0 hgap
  exact ⟨_, _, hf, hform, round_trip_result V R _ _ hVlo hVhi hRV hNlo hNup hElo hEup⟩

theorem round_trip_f32_witness :
    ∃ v r : ℚ, f32 (33 / 10 * (4700 : ℚ) / (10000 + 4700)) = FP.fin false v
      ∧ calculate_resistance_f32 (FP.fin false v) = FP.fin false r
      ∧ |r - 4700| ≤ 1 / 1000000 * 4700 :=
  round_trip_f32 4700 (by norm_num) (by norm_num)

end ADS1246
